import Mathlib

/-! # EXP server of the SpaceLiin satellite: parameter registry and its clients

A shallow embedding of the C sources under `exp_server/lib`:

* `exp_table.c`: the parameter tables, `bee_param_lookup`, the write hooks, the
  SQLite write-through and pull cycle, the boot counter and the Unix-socket bridge;
* `exp_filesystem.c`: `exec_table7` and `fs_handle_cmd`;
* `exp_csp.c`: the handlers of the parameter port.

The C globals become fields of `World`; what the operating system decides (the clock,
the outcome of a send, what a spawned script prints and how it ends) is read from `Env`.
Machine integers are natural numbers, reduced modulo `2^w` where the C type cuts them; the
integers that SQLite keeps in the column `value` are of type `Int`.
-/

namespace SpaceLiin

/-! ## exp_table.h -/

/-- Read bit of `bee_access_t` (`1 << 0`). -/
def BEE_ACCESS_R : Nat := 1

/-- Write bit of `bee_access_t` (`1 << 1`). -/
def BEE_ACCESS_W : Nat := 2

/-- Both bits of `bee_access_t` (`BEE_ACCESS_R | BEE_ACCESS_W`). -/
def BEE_ACCESS_RW : Nat := BEE_ACCESS_R ||| BEE_ACCESS_W

/-- The bodies that the `on_write` callbacks of `exp_table.c` have. Every callback of the
file is one of these six shapes; the callbacks themselves are the constants below. -/
inductive WriteHook where
  /-- Body `printf(..); bee_unix_pub_event(name, val);`. -/
  | pub_event (name : String)
  /-- Body of `cb_time_sync_write`. -/
  | time_sync
  /-- Body of `cb_pwr_ifb_en_write`. -/
  | pwr_ifb_en
  /-- Body that only prints: `custom_cmd_write`, `cb_data_size_cfg_write`. -/
  | log_only
  /-- Body of `cb_cis_cam_capture_write`. -/
  | cis_cam_capture
  /-- Body of `cb_usb_cam_capture_write`. -/
  | usb_cam_capture
  deriving DecidableEq, Repr

/-- Functions of type `void (*)(uint16_t addr)`. The source defines none, and every table
entry has `NULL` in this field. -/
inductive ReadHook where
  deriving Repr

instance : DecidableEq ReadHook := fun a => nomatch a

/-- One table entry, `bee_param_t`. The field `value` is the initial value written in the
table; the current value of the entry lives in `World.value`. -/
structure bee_param_t where
  addr : Nat
  name : String
  value : Nat
  access : Nat
  on_read : Option ReadHook
  on_write : Option WriteHook
  deriving DecidableEq, Repr

/-! ## exp_table.c: callbacks -/

def cb_time_sync_write : WriteHook := .time_sync
def cb_pwr_ifb_en_write : WriteHook := .pwr_ifb_en
def cb_pwr_io_en_write : WriteHook := .pub_event "pwr_io_en"
def cb_pwr_pzp_en_write : WriteHook := .pub_event "pwr_pzp_en"
def cb_pwr_htr_en_write : WriteHook := .pub_event "pwr_htr_en"
def cb_pwr_sln_tec_en_write : WriteHook := .pub_event "pwr_sln_tec_en"
def cb_pwr_lda_en_write : WriteHook := .pub_event "pwr_lda_en"
def cb_pwr_pda_en_write : WriteHook := .pub_event "pwr_pda_en"
def cb_pwr_usb_0_en_write : WriteHook := .pub_event "pwr_usb_0_en"
def cb_pwr_usb_1_en_write : WriteHook := .pub_event "pwr_usb_1_en"
def i2c_s_1_en_write : WriteHook := .pub_event "i2c_s_1_en"
def i2c_s_2_en_write : WriteHook := .pub_event "i2c_s_2_en"
def i2c_pwm_en_write : WriteHook := .pub_event "i2c_pwm_en"
def i2c_hd4_en_write : WriteHook := .pub_event "i2c_hd4_en"
def i2c_ld_1_en_write : WriteHook := .pub_event "i2c_ld_1_en"
def i2c_ld_2_en_write : WriteHook := .pub_event "i2c_ld_2_en"
def tec_0_en_write : WriteHook := .pub_event "tec_0_en"
def tec_1_en_write : WriteHook := .pub_event "tec_1_en"
def tec_2_en_write : WriteHook := .pub_event "tec_2_en"
def tec_3_en_write : WriteHook := .pub_event "tec_3_en"
def usb_led_1_write : WriteHook := .pub_event "usb_led_1_set"
def usb_led_2_write : WriteHook := .pub_event "usb_led_2_set"
def htr_0_write : WriteHook := .pub_event "htr_0_set"
def htr_1_write : WriteHook := .pub_event "htr_1_set"
def htr_2_write : WriteHook := .pub_event "htr_2_set"
def htr_3_write : WriteHook := .pub_event "htr_3_set"
def htr_4_write : WriteHook := .pub_event "htr_4_set"
def htr_5_write : WriteHook := .pub_event "htr_5_set"
def htr_6_write : WriteHook := .pub_event "htr_6_set"
def htr_7_write : WriteHook := .pub_event "htr_7_set"
def cb_pump_1_ctl_write : WriteHook := .pub_event "pump_1_ctl"
def cb_pump_1_volt_write : WriteHook := .pub_event "pump_1_volt"
def cb_pump_1_freq_write : WriteHook := .pub_event "pump_1_freq"
def cb_pump_2_ctl_write : WriteHook := .pub_event "pump_2_ctl"
def cb_pump_2_volt_write : WriteHook := .pub_event "pump_2_volt"
def cb_pump_2_freq_write : WriteHook := .pub_event "pump_2_freq"
def cb_sln_0_ctl_write : WriteHook := .pub_event "sln_0_ctl"
def cb_sln_1_ctl_write : WriteHook := .pub_event "sln_1_ctl"
def cb_sln_2_ctl_write : WriteHook := .pub_event "sln_2_ctl"
def cb_sln_3_ctl_write : WriteHook := .pub_event "sln_3_ctl"
def cb_sln_4_ctl_write : WriteHook := .pub_event "sln_4_ctl"
def cb_sln_5_ctl_write : WriteHook := .pub_event "sln_5_ctl"
def cb_sln_6_ctl_write : WriteHook := .pub_event "sln_6_ctl"
def cb_sln_7_ctl_write : WriteHook := .pub_event "sln_7_ctl"
def cb_sln_8_ctl_write : WriteHook := .pub_event "sln_8_ctl"
def cb_sln_9_ctl_write : WriteHook := .pub_event "sln_9_ctl"
def cb_sln_10_ctl_write : WriteHook := .pub_event "sln_10_ctl"
def cb_sln_11_ctl_write : WriteHook := .pub_event "sln_11_ctl"
def cb_sln_valve_1_ctl_write : WriteHook := .pub_event "sln_valve_1_ctl"
def cb_sln_valve_2_ctl_write : WriteHook := .pub_event "sln_valve_2_ctl"
def cb_temp_master_en_write : WriteHook := .pub_event "temp_master_en"
def cb_temp_p_1_en_write : WriteHook := .pub_event "temp_p_1_en"
def cb_temp_p_2_en_write : WriteHook := .pub_event "temp_p_2_en"
def cb_temp_p_3_en_write : WriteHook := .pub_event "temp_p_3_en"
def cb_temp_p_4_en_write : WriteHook := .pub_event "temp_p_4_en"
def cb_temp_p_5_en_write : WriteHook := .pub_event "temp_p_5_en"
def cb_temp_p_6_en_write : WriteHook := .pub_event "temp_p_6_en"
def cb_temp_p_1_setpoint_write : WriteHook := .pub_event "temp_p_1_setpoint"
def cb_temp_p_1_ntcp_write : WriteHook := .pub_event "temp_p_1_ntcp"
def cb_temp_p_1_ntcs_write : WriteHook := .pub_event "temp_p_1_ntcs"
def cb_temp_p_1_htr_write : WriteHook := .pub_event "temp_p_1_htr"
def cb_temp_p_1_tec_write : WriteHook := .pub_event "temp_p_1_tec"
def cb_temp_p_2_setpoint_write : WriteHook := .pub_event "temp_p_2_setpoint"
def cb_temp_p_2_ntcp_write : WriteHook := .pub_event "temp_p_2_ntcp"
def cb_temp_p_2_ntcs_write : WriteHook := .pub_event "temp_p_2_ntcs"
def cb_temp_p_2_htr_write : WriteHook := .pub_event "temp_p_2_htr"
def cb_temp_p_2_tec_write : WriteHook := .pub_event "temp_p_2_tec"
def cb_temp_p_3_setpoint_write : WriteHook := .pub_event "temp_p_3_setpoint"
def cb_temp_p_3_ntcp_write : WriteHook := .pub_event "temp_p_3_ntcp"
def cb_temp_p_3_ntcs_write : WriteHook := .pub_event "temp_p_3_ntcs"
def cb_temp_p_3_htr_write : WriteHook := .pub_event "temp_p_3_htr"
def cb_temp_p_3_tec_write : WriteHook := .pub_event "temp_p_3_tec"
def cb_temp_p_4_setpoint_write : WriteHook := .pub_event "temp_p_4_setpoint"
def cb_temp_p_4_ntcp_write : WriteHook := .pub_event "temp_p_4_ntcp"
def cb_temp_p_4_ntcs_write : WriteHook := .pub_event "temp_p_4_ntcs"
def cb_temp_p_4_htr_write : WriteHook := .pub_event "temp_p_4_htr"
def cb_temp_p_4_tec_write : WriteHook := .pub_event "temp_p_4_tec"
def cb_temp_p_5_setpoint_write : WriteHook := .pub_event "temp_p_5_setpoint"
def cb_temp_p_5_ntcp_write : WriteHook := .pub_event "temp_p_5_ntcp"
def cb_temp_p_5_ntcs_write : WriteHook := .pub_event "temp_p_5_ntcs"
def cb_temp_p_5_htr_write : WriteHook := .pub_event "temp_p_5_htr"
def cb_temp_p_5_tec_write : WriteHook := .pub_event "temp_p_5_tec"
def cb_temp_p_6_setpoint_write : WriteHook := .pub_event "temp_p_6_setpoint"
def cb_temp_p_6_ntcp_write : WriteHook := .pub_event "temp_p_6_ntcp"
def cb_temp_p_6_ntcs_write : WriteHook := .pub_event "temp_p_6_ntcs"
def cb_temp_p_6_htr_write : WriteHook := .pub_event "temp_p_6_htr"
def cb_temp_p_6_tec_write : WriteHook := .pub_event "temp_p_6_tec"
def cb_test_ls_current_write : WriteHook := .pub_event "test_ls_current"
def cb_test_fluidic_seq_write : WriteHook := .pub_event "test_fluidic_seq"
def cb_exp_fluidic_seq_write : WriteHook := .pub_event "exp_fluidic_seq"
def cb_exp_mon_delay_start : WriteHook := .pub_event "exp_mon_start"
def cb_exp_mon_delay_write : WriteHook := .pub_event "exp_mon_delay"
def cb_exp_mon_interval_write : WriteHook := .pub_event "exp_mon_interval"
def cb_dls_ls_intensity_write : WriteHook := .pub_event "dls_ls_intensity"
def cb_cam_ls_intensity_write : WriteHook := .pub_event "cam_ls_intensity"
def cb_exp_samp_rate_write : WriteHook := .pub_event "exp_samp_rate"
def cb_exp_pre_time_write : WriteHook := .pub_event "exp_pre_time"
def cb_exp_samp_time_write : WriteHook := .pub_event "exp_samp_time"
def cb_exp_post_time_write : WriteHook := .pub_event "exp_post_time"
def cb_custom_ctl_write : WriteHook := .pub_event "custom_ctl"
def custom_cmd_write : WriteHook := .log_only
def cb_cis_cam_capture_write : WriteHook := .cis_cam_capture
def cb_usb_cam_capture_write : WriteHook := .usb_cam_capture
def cb_data_size_cfg_write : WriteHook := .log_only

/-! ## exp_table.c: tables -/

def bee_table1 : List bee_param_t := [
  ⟨0x0100, "time_sync", 0, BEE_ACCESS_RW, none, some cb_time_sync_write⟩,
  ⟨0x0101, "pwr_ifb_en", 0, BEE_ACCESS_W, none, some cb_pwr_ifb_en_write⟩,
  ⟨0x0102, "pwr_io_en", 0, BEE_ACCESS_W, none, some cb_pwr_io_en_write⟩,
  ⟨0x0103, "pwr_pzp_en", 0, BEE_ACCESS_W, none, some cb_pwr_pzp_en_write⟩,
  ⟨0x0104, "pwr_htr_en", 0, BEE_ACCESS_W, none, some cb_pwr_htr_en_write⟩,
  ⟨0x0105, "pwr_sln_tec_en", 0, BEE_ACCESS_W, none, some cb_pwr_sln_tec_en_write⟩,
  ⟨0x0106, "pwr_lda_en", 0, BEE_ACCESS_W, none, some cb_pwr_lda_en_write⟩,
  ⟨0x0107, "pwr_pda_en", 0, BEE_ACCESS_W, none, some cb_pwr_pda_en_write⟩,
  ⟨0x0108, "pwr_usb_0_en", 0, BEE_ACCESS_W, none, some cb_pwr_usb_0_en_write⟩,
  ⟨0x0109, "pwr_usb_1_en", 0, BEE_ACCESS_W, none, some cb_pwr_usb_1_en_write⟩,
  ⟨0x0120, "i2c_s_1_en", 0, BEE_ACCESS_W, none, some i2c_s_1_en_write⟩,
  ⟨0x0121, "i2c_s_2_en", 0, BEE_ACCESS_W, none, some i2c_s_2_en_write⟩,
  ⟨0x0122, "i2c_pwm_en", 0, BEE_ACCESS_W, none, some i2c_pwm_en_write⟩,
  ⟨0x0123, "i2c_hd4_en", 0, BEE_ACCESS_W, none, some i2c_hd4_en_write⟩,
  ⟨0x0124, "i2c_ld_1_en", 0, BEE_ACCESS_W, none, some i2c_ld_1_en_write⟩,
  ⟨0x0125, "i2c_ld_2_en", 0, BEE_ACCESS_W, none, some i2c_ld_2_en_write⟩,
  ⟨0x0127, "tec_0_en", 0, BEE_ACCESS_W, none, some tec_0_en_write⟩,
  ⟨0x0128, "tec_1_en", 0, BEE_ACCESS_W, none, some tec_1_en_write⟩,
  ⟨0x0129, "tec_2_en", 0, BEE_ACCESS_W, none, some tec_2_en_write⟩,
  ⟨0x012A, "tec_3_en", 0, BEE_ACCESS_W, none, some tec_3_en_write⟩,
  ⟨0x012B, "usb_led_1_set", 0, BEE_ACCESS_RW, none, some usb_led_1_write⟩,
  ⟨0x012C, "usb_led_2_set", 0, BEE_ACCESS_RW, none, some usb_led_2_write⟩,
  ⟨0x0130, "htr_0_set", 0, BEE_ACCESS_RW, none, some htr_0_write⟩,
  ⟨0x0131, "htr_1_set", 0, BEE_ACCESS_RW, none, some htr_1_write⟩,
  ⟨0x0132, "htr_2_set", 0, BEE_ACCESS_RW, none, some htr_2_write⟩,
  ⟨0x0133, "htr_3_set", 0, BEE_ACCESS_RW, none, some htr_3_write⟩,
  ⟨0x0134, "htr_4_set", 0, BEE_ACCESS_RW, none, some htr_4_write⟩,
  ⟨0x0135, "htr_5_set", 0, BEE_ACCESS_RW, none, some htr_5_write⟩,
  ⟨0x0136, "htr_6_set", 0, BEE_ACCESS_RW, none, some htr_6_write⟩,
  ⟨0x0137, "htr_7_set", 0, BEE_ACCESS_RW, none, some htr_7_write⟩,
  ⟨0x0140, "custom_cmd", 0, BEE_ACCESS_RW, none, some custom_cmd_write⟩]

def bee_table2 : List bee_param_t := [
  ⟨0x0200, "pump_1_ctl", 0, BEE_ACCESS_RW, none, some cb_pump_1_ctl_write⟩,
  ⟨0x0201, "pump_1_volt", 100, BEE_ACCESS_RW, none, some cb_pump_1_volt_write⟩,
  ⟨0x0202, "pump_1_freq", 100, BEE_ACCESS_RW, none, some cb_pump_1_freq_write⟩,
  ⟨0x0203, "pump_2_ctl", 0, BEE_ACCESS_RW, none, some cb_pump_2_ctl_write⟩,
  ⟨0x0204, "pump_2_volt", 0, BEE_ACCESS_RW, none, some cb_pump_2_volt_write⟩,
  ⟨0x0205, "pump_2_freq", 0, BEE_ACCESS_RW, none, some cb_pump_2_freq_write⟩,
  ⟨0x0210, "sln_0_ctl", 0, BEE_ACCESS_RW, none, some cb_sln_0_ctl_write⟩,
  ⟨0x0211, "sln_1_ctl", 0, BEE_ACCESS_RW, none, some cb_sln_1_ctl_write⟩,
  ⟨0x0212, "sln_2_ctl", 0, BEE_ACCESS_RW, none, some cb_sln_2_ctl_write⟩,
  ⟨0x0213, "sln_3_ctl", 0, BEE_ACCESS_RW, none, some cb_sln_3_ctl_write⟩,
  ⟨0x0214, "sln_4_ctl", 0, BEE_ACCESS_RW, none, some cb_sln_4_ctl_write⟩,
  ⟨0x0215, "sln_5_ctl", 0, BEE_ACCESS_RW, none, some cb_sln_5_ctl_write⟩,
  ⟨0x0216, "sln_6_ctl", 0, BEE_ACCESS_RW, none, some cb_sln_6_ctl_write⟩,
  ⟨0x0217, "sln_7_ctl", 0, BEE_ACCESS_RW, none, some cb_sln_7_ctl_write⟩,
  ⟨0x0218, "sln_8_ctl", 0, BEE_ACCESS_RW, none, some cb_sln_8_ctl_write⟩,
  ⟨0x0219, "sln_9_ctl", 0, BEE_ACCESS_RW, none, some cb_sln_9_ctl_write⟩,
  ⟨0x021A, "sln_10_ctl", 0, BEE_ACCESS_RW, none, some cb_sln_10_ctl_write⟩,
  ⟨0x021B, "sln_11_ctl", 0, BEE_ACCESS_RW, none, some cb_sln_11_ctl_write⟩,
  ⟨0x021C, "sln_valve_1_ctl", 0, BEE_ACCESS_RW, none, some cb_sln_valve_1_ctl_write⟩,
  ⟨0x021D, "sln_valve_2_ctl", 0, BEE_ACCESS_RW, none, some cb_sln_valve_2_ctl_write⟩]

def bee_table3 : List bee_param_t := [
  ⟨0x0300, "temp_master_en", 1, BEE_ACCESS_RW, none, some cb_temp_master_en_write⟩,
  ⟨0x0301, "temp_p_1_en", 0, BEE_ACCESS_RW, none, some cb_temp_p_1_en_write⟩,
  ⟨0x0302, "temp_p_2_en", 0, BEE_ACCESS_RW, none, some cb_temp_p_2_en_write⟩,
  ⟨0x0303, "temp_p_3_en", 0, BEE_ACCESS_RW, none, some cb_temp_p_3_en_write⟩,
  ⟨0x0304, "temp_p_4_en", 0, BEE_ACCESS_RW, none, some cb_temp_p_4_en_write⟩,
  ⟨0x0305, "temp_p_5_en", 0, BEE_ACCESS_RW, none, some cb_temp_p_5_en_write⟩,
  ⟨0x0306, "temp_p_6_en", 0, BEE_ACCESS_RW, none, some cb_temp_p_6_en_write⟩,
  ⟨0x0310, "temp_p_1_setpoint", 200, BEE_ACCESS_RW, none, some cb_temp_p_1_setpoint_write⟩,
  ⟨0x0311, "temp_p_1_ntcp", 0, BEE_ACCESS_RW, none, some cb_temp_p_1_ntcp_write⟩,
  ⟨0x0312, "temp_p_1_ntcs", 1, BEE_ACCESS_RW, none, some cb_temp_p_1_ntcs_write⟩,
  ⟨0x0313, "temp_p_1_htr", 0, BEE_ACCESS_RW, none, some cb_temp_p_1_htr_write⟩,
  ⟨0x0314, "temp_p_1_tec", 0xFFFFFFFF, BEE_ACCESS_RW, none, some cb_temp_p_1_tec_write⟩,
  ⟨0x0315, "temp_p_2_setpoint", 200, BEE_ACCESS_RW, none, some cb_temp_p_2_setpoint_write⟩,
  ⟨0x0316, "temp_p_2_ntcp", 4, BEE_ACCESS_RW, none, some cb_temp_p_2_ntcp_write⟩,
  ⟨0x0317, "temp_p_2_ntcs", 5, BEE_ACCESS_RW, none, some cb_temp_p_2_ntcs_write⟩,
  ⟨0x0318, "temp_p_2_htr", 1, BEE_ACCESS_RW, none, some cb_temp_p_2_htr_write⟩,
  ⟨0x0319, "temp_p_2_tec", 0xFFFFFFFF, BEE_ACCESS_RW, none, some cb_temp_p_2_tec_write⟩,
  ⟨0x031A, "temp_p_3_setpoint", 250, BEE_ACCESS_RW, none, some cb_temp_p_3_setpoint_write⟩,
  ⟨0x031B, "temp_p_3_ntcp", 6, BEE_ACCESS_RW, none, some cb_temp_p_3_ntcp_write⟩,
  ⟨0x031C, "temp_p_3_ntcs", 7, BEE_ACCESS_RW, none, some cb_temp_p_3_ntcs_write⟩,
  ⟨0x031D, "temp_p_3_htr", 3, BEE_ACCESS_RW, none, some cb_temp_p_3_htr_write⟩,
  ⟨0x031E, "temp_p_3_tec", 0xFFFFFFFF, BEE_ACCESS_RW, none, some cb_temp_p_3_tec_write⟩,
  ⟨0x031F, "temp_p_4_setpoint", 0, BEE_ACCESS_RW, none, some cb_temp_p_4_setpoint_write⟩,
  ⟨0x0320, "temp_p_4_ntcp", 0xFFFFFFFF, BEE_ACCESS_RW, none, some cb_temp_p_4_ntcp_write⟩,
  ⟨0x0321, "temp_p_4_ntcs", 0xFFFFFFFF, BEE_ACCESS_RW, none, some cb_temp_p_4_ntcs_write⟩,
  ⟨0x0322, "temp_p_4_htr", 0, BEE_ACCESS_RW, none, some cb_temp_p_4_htr_write⟩,
  ⟨0x0323, "temp_p_4_tec", 0, BEE_ACCESS_RW, none, some cb_temp_p_4_tec_write⟩,
  ⟨0x0324, "temp_p_5_setpoint", 0, BEE_ACCESS_RW, none, some cb_temp_p_5_setpoint_write⟩,
  ⟨0x0325, "temp_p_5_ntcp", 0xFFFFFFFF, BEE_ACCESS_RW, none, some cb_temp_p_5_ntcp_write⟩,
  ⟨0x0326, "temp_p_5_ntcs", 0xFFFFFFFF, BEE_ACCESS_RW, none, some cb_temp_p_5_ntcs_write⟩,
  ⟨0x0327, "temp_p_5_htr", 0, BEE_ACCESS_RW, none, some cb_temp_p_5_htr_write⟩,
  ⟨0x0328, "temp_p_5_tec", 0, BEE_ACCESS_RW, none, some cb_temp_p_5_tec_write⟩,
  ⟨0x0329, "temp_p_6_setpoint", 0, BEE_ACCESS_RW, none, some cb_temp_p_6_setpoint_write⟩,
  ⟨0x032A, "temp_p_6_ntcp", 0xFFFFFFFF, BEE_ACCESS_RW, none, some cb_temp_p_6_ntcp_write⟩,
  ⟨0x032B, "temp_p_6_ntcs", 0xFFFFFFFF, BEE_ACCESS_RW, none, some cb_temp_p_6_ntcs_write⟩,
  ⟨0x032C, "temp_p_6_htr", 0, BEE_ACCESS_RW, none, some cb_temp_p_6_htr_write⟩,
  ⟨0x032D, "temp_p_6_tec", 0, BEE_ACCESS_RW, none, some cb_temp_p_6_tec_write⟩]

def bee_table5 : List bee_param_t := [
  ⟨0x0500, "test_ls_current", 0, BEE_ACCESS_RW, none, some cb_test_ls_current_write⟩,
  ⟨0x0501, "test_fluidic_seq", 0, BEE_ACCESS_RW, none, some cb_test_fluidic_seq_write⟩,
  ⟨0x0502, "exp_fluidic_seq", 0, BEE_ACCESS_RW, none, some cb_exp_fluidic_seq_write⟩,
  ⟨0x0503, "exp_mon_start", 0, BEE_ACCESS_RW, none, some cb_exp_mon_delay_start⟩,
  ⟨0x0510, "exp_mon_delay", 0, BEE_ACCESS_RW, none, some cb_exp_mon_delay_write⟩,
  ⟨0x0511, "exp_mon_interval", 28800, BEE_ACCESS_RW, none, some cb_exp_mon_interval_write⟩,
  ⟨0x0512, "dls_ls_intensity", 25, BEE_ACCESS_RW, none, some cb_dls_ls_intensity_write⟩,
  ⟨0x0513, "cam_ls_intensity", 15, BEE_ACCESS_RW, none, some cb_cam_ls_intensity_write⟩,
  ⟨0x0514, "exp_samp_rate", 100, BEE_ACCESS_RW, none, some cb_exp_samp_rate_write⟩,
  ⟨0x0515, "exp_pre_time", 1, BEE_ACCESS_RW, none, some cb_exp_pre_time_write⟩,
  ⟨0x0516, "exp_samp_time", 100, BEE_ACCESS_RW, none, some cb_exp_samp_time_write⟩,
  ⟨0x0517, "exp_post_time", 1, BEE_ACCESS_RW, none, some cb_exp_post_time_write⟩,
  ⟨0x0520, "custom_ctl", 0, BEE_ACCESS_RW, none, some cb_custom_ctl_write⟩,
  ⟨0x0521, "cis_cam_capture", 0, BEE_ACCESS_RW, none, some cb_cis_cam_capture_write⟩,
  ⟨0x0522, "usb_cam_capture", 0, BEE_ACCESS_RW, none, some cb_usb_cam_capture_write⟩]

def bee_table6 : List bee_param_t := [
  ⟨0x0600, "sys_status", 0, BEE_ACCESS_R, none, none⟩,
  ⟨0x0601, "boot_cnt", 0, BEE_ACCESS_R, none, none⟩,
  ⟨0x0602, "temp_exp", 0, BEE_ACCESS_R, none, none⟩,
  ⟨0x0603, "temp_ntc_0", 0, BEE_ACCESS_R, none, none⟩,
  ⟨0x0604, "temp_ntc_1", 0, BEE_ACCESS_R, none, none⟩,
  ⟨0x0605, "temp_ntc_2", 0, BEE_ACCESS_R, none, none⟩,
  ⟨0x0606, "temp_ntc_3", 0, BEE_ACCESS_R, none, none⟩,
  ⟨0x0607, "temp_ntc_4", 0, BEE_ACCESS_R, none, none⟩,
  ⟨0x0608, "temp_ntc_5", 0, BEE_ACCESS_R, none, none⟩,
  ⟨0x0609, "temp_ntc_6", 0, BEE_ACCESS_R, none, none⟩,
  ⟨0x060A, "temp_ntc_7", 0, BEE_ACCESS_R, none, none⟩,
  ⟨0x060B, "temp_ntc_8", 0, BEE_ACCESS_R, none, none⟩,
  ⟨0x060C, "temp_ntc_9", 0, BEE_ACCESS_R, none, none⟩,
  ⟨0x060D, "temp_ntc_10", 0, BEE_ACCESS_R, none, none⟩,
  ⟨0x060E, "temp_ntc_11", 0, BEE_ACCESS_R, none, none⟩,
  ⟨0x0610, "sen1_data_0", 0, BEE_ACCESS_R, none, none⟩,
  ⟨0x0611, "sen1_data_1", 0, BEE_ACCESS_R, none, none⟩,
  ⟨0x0612, "sen2_data_0", 0, BEE_ACCESS_R, none, none⟩,
  ⟨0x0613, "sen2_data_1", 0, BEE_ACCESS_R, none, none⟩,
  ⟨0x0614, "current_12_tot", 0, BEE_ACCESS_R, none, none⟩,
  ⟨0x0615, "current_12_lda", 0, BEE_ACCESS_R, none, none⟩,
  ⟨0x0616, "current_12_pda", 0, BEE_ACCESS_R, none, none⟩,
  ⟨0x0617, "current_5_io", 0, BEE_ACCESS_R, none, none⟩,
  ⟨0x0618, "current_5_tec", 0, BEE_ACCESS_R, none, none⟩,
  ⟨0x0619, "current_5_cam", 0, BEE_ACCESS_R, none, none⟩,
  ⟨0x061A, "current_5_hd", 0, BEE_ACCESS_R, none, none⟩]

def bee_table7 : List bee_param_t := [
  ⟨0x0700, "data_size_config", 512, BEE_ACCESS_RW, none, some cb_data_size_cfg_write⟩,
  ⟨0x0704, "load_next_file_counter", 0, BEE_ACCESS_RW, none, none⟩]

/-- Scan of the six tables in the order of the C loops; the first entry whose address is
`addr`, or `none` for `NULL`. -/
def bee_param_lookup (addr : Nat) : Option bee_param_t :=
  match bee_table1.find? (fun p => p.addr == addr) with
  | some p => some p
  | none =>
  match bee_table2.find? (fun p => p.addr == addr) with
  | some p => some p
  | none =>
  match bee_table3.find? (fun p => p.addr == addr) with
  | some p => some p
  | none =>
  match bee_table5.find? (fun p => p.addr == addr) with
  | some p => some p
  | none =>
  match bee_table6.find? (fun p => p.addr == addr) with
  | some p => some p
  | none => bee_table7.find? (fun p => p.addr == addr)

/-! ## The state the C code works on -/

/-- A command line handed to `system(3)`. The `date -u -s ..` line of `cb_time_sync_write`
is kept as the epoch it is formatted from. -/
inductive SysCmd where
  | shell (cmd : String)
  | date_set (epoch : Nat)
  deriving DecidableEq, Repr

/-- A datagram sent on the TX socket: `"PARAM 0x%04X 0x%08X"` or `"EVENT %s %u"`. -/
inductive Datagram where
  | PARAM (addr val : Nat)
  | EVENT (name : String) (val : Nat)
  deriving DecidableEq, Repr

/-- A CSP packet: the `length` field and the bytes of `data`. -/
structure csp_packet_t where
  length : Nat
  data : List Nat
  deriving DecidableEq, Repr

/-- The mutable state.

* `value a` is the `value` field of the table entry with address `a`; the code reaches an
  entry only through `bee_param_lookup`, so the address determines the entry.
* `db` holds the rows `(addr, value)` of table `bee_param_update`, `db_ok` tells whether
  `sqlite3_open` succeeds; an opened database answers every statement. The value of a
  row is the integer that SQLite keeps (column `value INTEGER`): the code writes it with
  `sqlite3_bind_int`, that is as an `int`, and reads it with `sqlite3_column_int` and a
  cast to `uint32_t`. The key of a row is kept as a natural number; the code writes keys
  below `2^16` and reads a key with a cast to `uint16_t`.
* `outbox` are the datagrams sent on the TX socket, `sys_cmds` the `system(3)` calls,
  `execs` the argument vectors the script was spawned with.
* `hook_calls` records each call `param->on_write(addr, val)`.
* `sends` records each `csp_send` with its outcome, `frees` counts `csp_buffer_free`. -/
structure World where
  value : Nat → Nat
  db_ok : Bool
  db : List (Nat × Int)
  unix_pub_sock_ok : Bool
  outbox : List Datagram
  sys_cmds : List SysCmd
  execs : List (List String)
  hook_calls : List (Nat × Nat)
  sends : List (csp_packet_t × Bool)
  frees : Nat

/-- How the child of `exec_table7` ended: `WIFEXITED` with its `WEXITSTATUS`, or not. -/
inductive ExitStatus where
  | exited (code : Nat)
  | signaled
  deriving DecidableEq, Repr

/-- What the operating system does with one spawn of the script: whether `pipe` and
`fork` succeed, the bytes the child writes to its standard output, how many of them each
successive `read` on the pipe has ready (the list ends where `read` returns 0 or fails),
and how the child ends. -/
structure ScriptRun where
  pipe_ok : Bool
  fork_ok : Bool
  stdout : List Nat
  reads : List Nat
  status : ExitStatus
  deriving DecidableEq, Repr

/-- What the surroundings decide during one call: `time(NULL)`, whether `csp_send`
succeeds, and the run of the script for a given argument vector. -/
structure Env where
  now : Nat
  send_ok : Bool
  script : List String → ScriptRun

/-- The assignment `p->value = v` for the entry with address `a`. -/
def set_value (value : Nat → Nat) (a v : Nat) : Nat → Nat :=
  fun x => if x = a then v else value x

/-- The values written in the tables. -/
def bee_values_init : Nat → Nat :=
  fun a => match bee_param_lookup a with
    | some p => p.value
    | none => 0

/-- The state at process start over a given store: table values, nothing sent yet. -/
def World.boot (db : List (Nat × Int)) : World :=
  { value := bee_values_init, db_ok := true, db := db, unix_pub_sock_ok := true,
    outbox := [], sys_cmds := [], execs := [], hook_calls := [], sends := [], frees := 0 }

/-! ## exp_table.c: Unix socket, hooks -/

/-- Sends `"PARAM 0x%04X 0x%08X"` unless the socket is missing. -/
def bee_unix_pub_param (addr val : Nat) (w : World) : World :=
  if w.unix_pub_sock_ok then { w with outbox := w.outbox ++ [Datagram.PARAM addr val] } else w

/-- Sends `"EVENT %s %u"` unless the socket is missing. -/
def bee_unix_pub_event (name : String) (val : Nat) (w : World) : World :=
  if w.unix_pub_sock_ok then { w with outbox := w.outbox ++ [Datagram.EVENT name val] } else w

/-- The call `system(cmd)`; its return value only decides a message on stderr. -/
def c_system (cmd : SysCmd) (w : World) : World :=
  { w with sys_cmds := w.sys_cmds ++ [cmd] }

/-- The command line of one camera shot in the capture callbacks. -/
def capture_cmd (cam : Nat) : SysCmd :=
  .shell ("python3 /home/root/tools/capture.py " ++ toString cam ++ " --oneshot")

/-- Runs the body of a write callback with arguments `addr`, `val`. -/
def WriteHook.run (h : WriteHook) (addr val : Nat) (w : World) : World :=
  match h with
  | .pub_event name => bee_unix_pub_event name val w
  | .time_sync =>
    c_system (.shell "hwclock -w") (c_system (.date_set val) (bee_unix_pub_event "time_sync" val w))
  | .pwr_ifb_en =>
    if val = 0 then c_system (.shell "gpioset -t0 -c gpiochip0 17=1") w
    else if val = 1 then c_system (.shell "gpioset -t0 -c gpiochip0 17=0") w
    else w
  | .log_only => w
  | .cis_cam_capture =>
    if val = 1 then
      let w1 := (List.range 4).foldl (fun acc cam => c_system (capture_cmd cam) acc) w
      match bee_param_lookup addr with
      | some p => { w1 with value := set_value w1.value p.addr 0 }
      | none => w1
    else w
  | .usb_cam_capture =>
    if val = 1 then
      let w1 := c_system (capture_cmd 4) w
      match bee_param_lookup addr with
      | some p => { w1 with value := set_value w1.value p.addr 0 }
      | none => w1
    else w

/-- The statement `if (param->on_write) param->on_write(addr, val);`. -/
def call_on_write (param : bee_param_t) (addr val : Nat) (w : World) : World :=
  match param.on_write with
  | some h => h.run addr val { w with hook_calls := w.hook_calls ++ [(addr, val)] }
  | none => w

/-- The statement `if (param->on_read) param->on_read(addr);`. -/
def call_on_read (param : bee_param_t) (_addr : Nat) (w : World) : World :=
  match param.on_read with
  | some h => nomatch h
  | none => w

/-! ## exp_table.c: SQLite -/

/-- The conversion of a `uint32_t` to the `int` parameter of `sqlite3_bind_int`: the 32-bit
pattern read in two's complement, so a value from `2^31` on becomes negative. -/
def int_of_uint32 (val : Nat) : Int :=
  if val % 4294967296 < 2147483648 then Int.ofNat (val % 4294967296)
  else Int.ofNat (val % 4294967296) - 4294967296

/-- The statement `REPLACE INTO bee_param_update (addr, value) VALUES (?, ?)` with
`sqlite3_bind_int(stmt, 1, addr)` and `sqlite3_bind_int(stmt, 2, val)`: the row with this
key, when there is one, is deleted and the new row is inserted. -/
def bee_sqlite_write_param (db : List (Nat × Int)) (addr val : Nat) : List (Nat × Int) :=
  db.filter (fun row => row.1 ≠ addr) ++ [(addr, int_of_uint32 val)]

/-- The query `SELECT value FROM bee_param_update WHERE addr = key`, first row. -/
def db_select (db : List (Nat × Int)) (key : Nat) : Option Int :=
  (db.find? (fun row => row.1 == key)).map (fun row => row.2)

/-- Write-through of one parameter; nothing happens when the database does not open. -/
def bee_sqlite_update_value (addr val : Nat) (w : World) : World :=
  if w.db_ok then { w with db := bee_sqlite_write_param w.db addr val } else w

/-- The local `addr` of the pull loop: `(uint16_t)sqlite3_column_int(stmt, 0)`. -/
def column_addr (row : Nat × Int) : Nat := row.1 % 65536

/-- The expression `(uint32_t)sqlite3_column_int(stmt, i)` on a stored integer: the low 32
bits of the integer. -/
def uint32_of_column (z : Int) : Nat := (z % 4294967296).toNat

/-- The local `val` of the pull loop: `(uint32_t)sqlite3_column_int(stmt, 1)`. -/
def column_val (row : Nat × Int) : Nat := uint32_of_column row.2

/-- Body of the `while (sqlite3_step(stmt) == SQLITE_ROW)` loop for one row. -/
def bee_sqlite_update_row (w : World) (row : Nat × Int) : World :=
  let addr := column_addr row
  let val := column_val row
  if addr = 0x0100 then w
  else
    match bee_param_lookup addr with
    | some param =>
      if w.value param.addr ≠ val then
        call_on_write param addr val { w with value := set_value w.value param.addr val }
      else w
    | none => w

/-- One turn of the loop of `bee_sqlite_update_task`: open, select all rows, apply each. -/
def bee_sqlite_update_task (w : World) : World :=
  if w.db_ok then w.db.foldl bee_sqlite_update_row w else w

/-- The local `boot_cnt` of `bee_sqlite_boot_update` before the increment: 0, or the
value of row `0x0601` read with `(uint32_t)sqlite3_column_int`. -/
def persisted_boot_cnt (db : List (Nat × Int)) : Nat :=
  match db_select db 0x0601 with
  | some v => uint32_of_column v
  | none => 0

/-- Boot counter: read row `0x0601`, add one, write it back, copy it into the entry. -/
def bee_sqlite_boot_update (w : World) : World :=
  if w.db_ok then
    let boot_cnt := (persisted_boot_cnt w.db + 1) % 4294967296
    let w1 := { w with db := bee_sqlite_write_param w.db 0x0601 boot_cnt }
    match bee_param_lookup 0x0601 with
    | some p => { w1 with value := set_value w1.value p.addr boot_cnt }
    | none => w1
  else w

/-! ## exp_table.c: inbound commands of the Unix socket -/

/-- White space of `isspace(3)` in the C locale. -/
def c_isspace (c : Char) : Bool :=
  c == ' ' || c == '\t' || c == '\n' || c == '\x0b' || c == '\x0c' || c == '\r'

/-- The conversion `%Ns` of `sscanf`: skip white space, then take at most `width`
characters that are not white space; fails when the input ends before one is found.
Returns the token and the input left. -/
def scan_s (width : Nat) (inp : List Char) : Option (List Char × List Char) :=
  let rest := inp.dropWhile c_isspace
  let tok := (rest.takeWhile (fun c => !c_isspace c)).take width
  if tok.isEmpty then none else some (tok, rest.drop tok.length)

/-- The call `sscanf(buf, "%7s %31s %31s", cmd, s_addr, s_val) == 3`. -/
def sscanf_cmd (buf : List Char) : Option (List Char × List Char × List Char) :=
  match scan_s 7 buf with
  | none => none
  | some (cmd, r1) =>
    match scan_s 31 r1 with
    | none => none
    | some (s_addr, r2) =>
      match scan_s 31 r2 with
      | none => none
      | some (s_val, _) => some (cmd, s_addr, s_val)

/-- Value of a hexadecimal digit. -/
def hex_digit (c : Char) : Option Nat :=
  if 48 ≤ c.toNat ∧ c.toNat ≤ 57 then some (c.toNat - 48)
  else if 97 ≤ c.toNat ∧ c.toNat ≤ 102 then some (c.toNat - 87)
  else if 65 ≤ c.toNat ∧ c.toNat ≤ 70 then some (c.toNat - 55)
  else none

/-- Value of the longest run of hexadecimal digits at the head of the input, with the
number of digits read. -/
def hex_run (acc n : Nat) : List Char → Nat × Nat
  | [] => (acc, n)
  | c :: cs =>
    match hex_digit c with
    | some d => hex_run (acc * 16 + d) (n + 1) cs
    | none => (acc, n)

/-- The conversions `%hx` (`bits = 16`) and `%x` (`bits = 32`) of `sscanf` on a token:
optional sign, optional `0x`, hexadecimal digits; `none` is a matching failure, which
leaves the variable as it was. The number is read as an `unsigned long` of 64 bits
(saturating) and cut to the width of the variable. -/
def sscanf_x (bits : Nat) (tok : List Char) : Option Nat :=
  let signed : Bool × List Char := match tok with
    | '-' :: t => (true, t)
    | '+' :: t => (false, t)
    | t => (false, t)
  let digits : List Char := match signed.2 with
    | '0' :: 'x' :: t => t
    | '0' :: 'X' :: t => t
    | t => t
  let r := hex_run 0 0 digits
  if r.2 = 0 then none
  else if 2 ^ 64 ≤ r.1 then some ((2 ^ 64 - 1) % 2 ^ bits)
  else if signed.1 then some (((2 ^ 64 - r.1) % 2 ^ 64) % 2 ^ bits)
  else some (r.1 % 2 ^ bits)

/-- Parsing done by `bee_unix_sub_task` on one datagram: at most 127 bytes are received
and the buffer ends at the first NUL; three tokens are needed and the first must be
`CMD` in any case; address and value start at 0 and keep it when their token is not
hexadecimal. Returns the address and the value of the command. -/
def bee_unix_sub_scan (msg : List Char) : Option (Nat × Nat) :=
  let buf := (msg.take 127).takeWhile (fun c => c.toNat ≠ 0)
  match sscanf_cmd buf with
  | none => none
  | some (cmd, s_addr, s_val) =>
    if cmd.map Char.toLower = ['c', 'm', 'd'] then
      some ((sscanf_x 16 s_addr).getD 0, (sscanf_x 32 s_val).getD 0)
    else none

/-- Body of the `if (p && (p->access & BEE_ACCESS_W))` of `bee_unix_sub_task`. -/
def bee_unix_sub_apply (addr val : Nat) (w : World) : World :=
  match bee_param_lookup addr with
  | some p =>
    if p.access &&& BEE_ACCESS_W ≠ 0 then
      let w1 := { w with value := set_value w.value p.addr val }
      let w2 := call_on_write p addr val w1
      let w3 := bee_sqlite_update_value addr val w2
      bee_unix_pub_param addr val w3
    else w
  | none => w

/-- One turn of the loop of `bee_unix_sub_task` on a received datagram. -/
def bee_unix_sub_task (msg : List Char) (w : World) : World :=
  match bee_unix_sub_scan msg with
  | some (addr, val) => bee_unix_sub_apply addr val w
  | none => w

/-! ## exp_filesystem.c -/

def PYTHON_EXEC_PATH : String := "/data/.a55_src/scripts/python_exec.py"

def MAX_OUT_READ : Nat := 64 * 1024

/-- The format `%u`. -/
def fmt_u (n : Nat) : String := toString n

/-- The format `%02u`: decimal, at least two digits. -/
def fmt_02u (n : Nat) : String :=
  if n < 10 then "0" ++ toString n else toString n

/-- The format `%04X`: upper-case hexadecimal, at least four digits. -/
def fmt_04X (n : Nat) : String :=
  let ds := (Nat.toDigits 16 n).map Char.toUpper
  String.mk (List.replicate (4 - ds.length) '0' ++ ds)

/-- The C string that starts a byte buffer: the bytes before the first NUL. -/
def c_string (bytes : List Nat) : String :=
  String.mk ((bytes.takeWhile (fun b => b ≠ 0)).map Char.ofNat)

/-- Big-endian assembly of four bytes, as the C expression
`(b0 << 24) | (b1 << 16) | (b2 << 8) | b3`. -/
def be32 (b0 b1 b2 b3 : Nat) : Nat :=
  (b0 <<< 24) ||| (b1 <<< 16) ||| (b2 <<< 8) ||| b3

/-- The loop of the parent in `exec_table7`:
`while ((n = read(fd, out + total, MAX_OUT_READ - total)) > 0) { total += n; if (total >= MAX_OUT_READ) break; }`.
`ready` tells how many bytes each successive `read` has ready, `pending` is what is left
of the stream; a `read` returns at most the count asked for and at most what is there,
and stores it at `out + total`. Returns the content of `out` and `total`. -/
def read_loop : List Nat → List Nat → List Nat → Nat → List Nat × Nat
  | [], _, out, total => (out, total)
  | k :: ready, pending, out, total =>
    let n := min (min k (MAX_OUT_READ - total)) pending.length
    if n = 0 then (out, total)
    else
      let out1 := out.take total ++ pending.take n
      let total1 := total + n
      if MAX_OUT_READ ≤ total1 then (out1, total1)
      else read_loop ready (pending.drop n) out1 total1

/-- Spawns `python3 PYTHON_EXEC_PATH <addr> [arg1] [arg2]`, collects its standard output
with `read_loop` and waits for it. Returns the result code, the bytes `out[0 .. *outlen)`
and the new state. -/
def exec_table7 (env : Env) (addr : Nat) (arg1 arg2 : Option String) (w : World) :
    Int × List Nat × World :=
  let argv := ["python3", PYTHON_EXEC_PATH, fmt_04X addr] ++ arg1.toList ++ arg2.toList
  let run := env.script argv
  if !run.pipe_ok then (-1, [], w)
  else if !run.fork_ok then (-2, [], w)
  else
    let w1 := { w with execs := w.execs ++ [argv] }
    let r := read_loop run.reads run.stdout [] 0
    let out := r.1.take r.2
    match run.status with
    | .exited code => (Int.ofNat (code % 256), out, w1)
    | .signaled => (-3, out, w1)

/-- The read `p->value` after `p = bee_param_lookup(addr)`, with a default for `NULL`. -/
def param_value_or (addr dflt : Nat) (w : World) : Nat :=
  match bee_param_lookup addr with
  | some p => w.value p.addr
  | none => dflt

/-- The test `in && inlen >= n` followed by the big-endian read of `in[0..3]`. -/
def in_be32 (inp : Option (List Nat)) : Option Nat :=
  match inp with
  | some bytes =>
    if 4 ≤ bytes.length then
      some (be32 (bytes.getD 0 0) (bytes.getD 1 0) (bytes.getD 2 0) (bytes.getD 3 0))
    else none
  | none => none

/-- The test `in && inlen > 0 && inlen < sizeof(arg_buf1)` followed by the copy of the
payload into the zeroed buffer. -/
def in_path (inp : Option (List Nat)) : Option String :=
  match inp with
  | some bytes => if 0 < bytes.length ∧ bytes.length < 512 then some (c_string bytes) else none
  | none => none

/-- File-transfer commands. `inp` is the pair `in`, `inlen` (`none` for `NULL`); the
result is the return code, the bytes written to `out` and the new state. The caller always
passes `out` and `outlen`. -/
def fs_handle_cmd (env : Env) (addr : Nat) (inp : Option (List Nat)) (w : World) :
    Int × List Nat × World :=
  let chunk := param_value_or 0x0700 512 w
  if addr = 0x0701 then exec_table7 env addr none none w
  else if addr = 0x0702 then exec_table7 env addr (some (fmt_u chunk)) none w
  else if addr = 0x0703 then
    match in_path inp with
    | some path => exec_table7 env addr (some path) (some (fmt_u chunk)) w
    | none => (-4, [], w)
  else if addr = 0x0704 then
    let file_id := match in_be32 inp with
      | some v => v
      | none => param_value_or 0x0704 0 w
    let w1 := bee_sqlite_update_value 0x0704 file_id w
    let r := exec_table7 env addr (some (fmt_u file_id)) (some (fmt_u chunk)) w1
    if r.1 = 0 then
      (r.1, r.2.1, bee_sqlite_update_value 0x0704 ((file_id + 1) % 4294967296) r.2.2)
    else r
  else if addr = 0x0705 then
    match in_be32 inp with
    | some part_no => exec_table7 env addr (some (fmt_u part_no)) none w
    | none => (-5, [], w)
  else if addr = 0x0706 then
    match in_path inp with
    | some path => exec_table7 env addr (some path) none w
    | none => (-6, [], w)
  else if addr = 0x0707 then
    match inp with
    | some bytes =>
      if 3 ≤ bytes.length then
        let arg := fmt_02u (bytes.getD 0 0) ++ fmt_02u (bytes.getD 1 0) ++ fmt_02u (bytes.getD 2 0)
        exec_table7 env addr (some arg) none w
      else (-7, [], w)
    | none => (-7, [], w)
  else if addr = 0x0710 then exec_table7 env addr none none w
  else if addr = 0x0711 ∨ addr = 0x0712 then
    match in_be32 inp with
    | some part_no => exec_table7 env addr (some (fmt_u part_no)) none w
    | none => (-8, [], w)
  else if addr = 0x0777 then (-1, [], bee_sqlite_update_value 0x0704 0 w)
  else (-99, [], w)

/-! ## exp_csp.c: handlers of the parameter port -/

/-- The byte `data[i]` of a packet buffer. -/
def byte (data : List Nat) (i : Nat) : Nat := data.getD i 0 % 256

/-- The call `csp_buffer_free(packet)`. -/
def csp_buffer_free (w : World) : World := { w with frees := w.frees + 1 }

/-- The statement `if (!csp_send(conn, packet, 0)) csp_buffer_free(packet);`. -/
def send_or_free (env : Env) (packet : csp_packet_t) (w : World) : World :=
  let w1 := { w with sends := w.sends ++ [(packet, env.send_ok)] }
  if env.send_ok then w1 else csp_buffer_free w1

/-- The four bytes `(val >> 24) & 0xFF`, `(val >> 16) & 0xFF`, `(val >> 8) & 0xFF`,
`val & 0xFF` stored in `data[2..5]` of a read reply. -/
def be32_bytes (val : Nat) : List Nat :=
  [(val >>> 24) &&& 0xFF, (val >>> 16) &&& 0xFF, (val >>> 8) &&& 0xFF, val &&& 0xFF]

/-- The two bytes `(addr >> 8) & 0xFF`, `addr & 0xFF` stored in `data[0..1]` of a reply. -/
def addr_bytes (addr : Nat) : List Nat :=
  [(addr >>> 8) &&& 0xFF, addr &&& 0xFF]

/-- The bytes `data[2 .. length)` that `handle_BEE_A55_TABLE7` passes as payload. -/
def packet_payload (packet : csp_packet_t) : List Nat :=
  (List.range (packet.length - 2)).map (fun i => byte packet.data (2 + i))

/-- Size of the local `outbuf` of `handle_BEE_A55_TABLE7`, passed as `out`. -/
def OUTBUF_SIZE : Nat := 1024

/-- The handler of the file-transfer block. The local `uint8_t outbuf[1024]` and the data
area of the packet have a capacity in C; here the output and the reply are lists of any
length. For an output of more than `OUTBUF_SIZE` bytes the C code stores past `outbuf` and
its behaviour is undefined, so what this function returns then describes no execution of
the code. -/
def handle_BEE_A55_TABLE7 (env : Env) (packet : csp_packet_t) (addr op_type : Nat)
    (w : World) : World :=
  let payload : Option (List Nat) :=
    if op_type = 0 then (if 2 < packet.length then some (packet_payload packet) else none)
    else none
  let r := fs_handle_cmd env addr payload w
  if r.1 < 0 then csp_buffer_free r.2.2
  else
    let reply : csp_packet_t :=
      { length := 2 + r.2.1.length,
        data := addr_bytes addr ++ r.2.1 ++ packet.data.drop (2 + r.2.1.length) }
    send_or_free env reply r.2.2

/-- The local `val` of the write branch of `handle_BEE_RW_common`:
`(data[2] << 24) | (data[3] << 16) | (data[4] << 8) | data[5]`. -/
def packet_value (packet : csp_packet_t) : Nat :=
  be32 (byte packet.data 2) (byte packet.data 3) (byte packet.data 4) (byte packet.data 5)

def handle_BEE_RW_common (env : Env) (packet : csp_packet_t) (addr op_type : Nat)
    (w : World) : World :=
  match bee_param_lookup addr with
  | none => csp_buffer_free w
  | some param =>
    if op_type = 0 then
      if param.access &&& BEE_ACCESS_W = 0 then csp_buffer_free w
      else if packet.length < 6 then csp_buffer_free w
      else
        let val := packet_value packet
        let w1 :=
          if addr = 0x0100 then
            call_on_write param addr val { w with value := set_value w.value param.addr val }
          else
            call_on_write param addr val { w with value := set_value w.value param.addr val }
        send_or_free env packet w1
    else if op_type = 1 then
      if param.access &&& BEE_ACCESS_R = 0 then csp_buffer_free w
      else
        let r : Nat × World :=
          if addr = 0x0100 then (env.now % 4294967296, w)
          else
            let w1 := call_on_read param addr w
            (w1.value param.addr, w1)
        let reply : csp_packet_t :=
          { length := 6, data := addr_bytes addr ++ be32_bytes r.1 ++ packet.data.drop 6 }
        send_or_free env reply r.2
    else send_or_free env packet w

/-- The local `op_type` of `handle_BEE_A55_PARAMS`: `(addr_H & 0xF0) >> 4`. -/
def decoded_op_type (packet : csp_packet_t) : Nat :=
  (byte packet.data 0 &&& 0xF0) >>> 4

/-- The local `addr` of `handle_BEE_A55_PARAMS`: `((addr_H & 0x0F) << 8) | addr_L`. -/
def decoded_addr (packet : csp_packet_t) : Nat :=
  ((byte packet.data 0 &&& 0x0F) <<< 8) ||| byte packet.data 1

/-- The routing test `((addr & 0xFF00) == 0x0700) && (addr != 0x0700)`. -/
def in_file_block (addr : Nat) : Bool :=
  (addr &&& 0xFF00) == 0x0700 && addr != 0x0700

def handle_BEE_A55_PARAMS (env : Env) (packet : csp_packet_t) (w : World) : World :=
  let op_type := decoded_op_type packet
  let addr := decoded_addr packet
  if in_file_block addr then handle_BEE_A55_TABLE7 env packet addr op_type w
  else handle_BEE_RW_common env packet addr op_type w

/-! ## Requests as a client builds them -/

/-- A request of the parameter port: header byte with the op-type in the top nibble and
address bits 11..8 in the low nibble, the low address byte, then the payload. -/
def bee_request (op_type addr : Nat) (payload : List Nat) : csp_packet_t :=
  { length := 2 + payload.length,
    data := [op_type * 16 + addr / 256, addr % 256] ++ payload }

/-- A write request for `addr` with the value `v` as four big-endian bytes. -/
def bee_write_request (addr v : Nat) : csp_packet_t :=
  bee_request 0 addr [v / 16777216 % 256, v / 65536 % 256, v / 256 % 256, v % 256]

/-- A read request for `addr`. -/
def bee_read_request (addr : Nat) : csp_packet_t :=
  bee_request 1 addr []

/-- An environment whose sends succeed and whose script prints nothing and exits with
`code`. -/
def Env.quiet (now code : Nat) : Env :=
  { now := now, send_ok := true,
    script := fun _ =>
      { pipe_ok := true, fork_ok := true, stdout := [], reads := [], status := .exited code } }

/-! ## Auxiliary definitions for the statements -/

/-- All entries, in the order `bee_param_lookup` scans them. -/
def bee_all : List bee_param_t :=
  bee_table1 ++ bee_table2 ++ bee_table3 ++ bee_table5 ++ bee_table6 ++ bee_table7

/-- Whether a datagram is an `EVENT` one. -/
def Datagram.is_event : Datagram → Bool
  | .EVENT _ _ => true
  | .PARAM _ _ => false

/-- The datagram `CMD 0130 32`: write `0x32 = 50` to `0x0130`. -/
def msg_cmd_0130 : List Char :=
  ['C', 'M', 'D', ' ', '0', '1', '3', '0', ' ', '3', '2']

/-- The datagram `CMD 0704 5`: write 5 to `0x0704`. -/
def msg_cmd_0704 : List Char :=
  ['C', 'M', 'D', ' ', '0', '7', '0', '4', ' ', '5']

/-- The argument vector of the script for the load-next-file command `0x0704`. -/
def load_next_argv (file_id chunk : Nat) : List String :=
  ["python3", PYTHON_EXEC_PATH, fmt_04X 0x0704, fmt_u file_id, fmt_u chunk]

/-- A state in which registry entry `0x0704` and store row `0x0704` both hold 7. -/
def World.counter7 : World :=
  { World.boot [(0x0704, 7)] with value := set_value bee_values_init 0x0704 7 }

/-- Whether one spawn of the script ended otherwise than by exiting with status 0: the
pipe or the fork failed, the child did not exit normally, or `WEXITSTATUS` is not 0. -/
def script_failed (run : ScriptRun) : Bool :=
  !run.pipe_ok || !run.fork_ok ||
    match run.status with
    | .exited code => code % 256 != 0
    | .signaled => true

/-- The file id used by the load-next-file command: the payload's four bytes when there
are at least four, else the value of registry entry `0x0704`. -/
def load_next_file_id (inp : Option (List Nat)) (w : World) : Nat :=
  (in_be32 inp).getD (w.value 0x0704)

/-- The pair `payload`, `paylen` that `handle_BEE_A55_TABLE7` hands to `fs_handle_cmd`:
the bytes after the header for a write with `length > 2`, else `NULL`. -/
def table7_payload (packet : csp_packet_t) (op_type : Nat) : Option (List Nat) :=
  if op_type = 0 then (if 2 < packet.length then some (packet_payload packet) else none)
  else none

/-- An environment whose sends succeed and whose script prints `out`, delivered by one
`read`, and exits with status `code`. -/
def Env.prints (out : List Nat) (code : Nat) : Env :=
  { now := 0, send_ok := true,
    script := fun _ =>
      { pipe_ok := true, fork_ok := true, stdout := out, reads := [out.length],
        status := .exited code } }

/-- An upper-case hexadecimal digit. -/
def hex_upper (d : Nat) : Char :=
  if d < 10 then Char.ofNat (48 + d) else Char.ofNat (55 + d)

/-- A 16-bit number written as exactly four upper-case hexadecimal digits. -/
def hex4 (a : Nat) : String :=
  String.mk [hex_upper (a / 4096 % 16), hex_upper (a / 256 % 16), hex_upper (a / 16 % 16),
    hex_upper (a % 16)]

/-- The number whose big-endian bytes are the first four of a payload. -/
def be_number (payload : List Nat) : Nat :=
  payload.getD 0 0 * 16777216 + payload.getD 1 0 * 65536 + payload.getD 2 0 * 256 +
    payload.getD 3 0

/-- The decimal digit `d` as a character. -/
def digit_char (d : Nat) : Char := Char.ofNat (48 + d)

/-- A number below 1000 written in decimal with at least two digits: `7` gives `07`, `25`
gives `25`, `100` gives `100`. -/
def dec_min2 (n : Nat) : List Char :=
  if n < 10 then ['0', digit_char n]
  else if n < 100 then [digit_char (n / 10), digit_char (n % 10)]
  else [digit_char (n / 100), digit_char (n / 10 % 10), digit_char (n % 10)]

/-- The date argument made of three bytes: each byte in decimal with at least two digits,
one after the other. For bytes below 100 this is the six-character string `YYMMDD`. -/
def date_arg (yy mm dd : Nat) : String :=
  String.mk (dec_min2 yy ++ dec_min2 mm ++ dec_min2 dd)

/-- The path that a payload carries: its bytes as characters, up to the first NUL byte. -/
def payload_path : List Nat → List Char
  | [] => []
  | b :: bs => if b = 0 then [] else Char.ofNat b :: payload_path bs

/-- The argument vector of the script as the specification words it: program name, script
path, the address as four upper-case hexadecimal digits, then per address: nothing for
`0x0701`/`0x0710`; the decimal chunk size for `0x0702`; the payload path and the chunk size
for `0x0703`; the decimal file id and the chunk size for `0x0704`; the decimal part number
for `0x0705`/`0x0711`/`0x0712`; the payload path for `0x0706`; the date argument for
`0x0707`. The chunk size is the registry value of `0x0700`; the file id is the payload
number, or the registry value of `0x0704` without one. `none` where no script is
invoked. -/
def spec_argv (addr : Nat) (payload : List Nat) (w : World) : Option (List String) :=
  let head : List String := ["python3", "/data/.a55_src/scripts/python_exec.py", hex4 addr]
  let chunk : String := toString (w.value 0x0700)
  if addr = 0x0701 ∨ addr = 0x0710 then some head
  else if addr = 0x0702 then some (head ++ [chunk])
  else if addr = 0x0703 then
    if 0 < payload.length ∧ payload.length < 512 then
      some (head ++ [String.mk (payload_path payload), chunk])
    else none
  else if addr = 0x0704 then
    some (head ++ [toString (if 4 ≤ payload.length then be_number payload else w.value 0x0704),
      chunk])
  else if addr = 0x0705 ∨ addr = 0x0711 ∨ addr = 0x0712 then
    if 4 ≤ payload.length then some (head ++ [toString (be_number payload)]) else none
  else if addr = 0x0706 then
    if 0 < payload.length ∧ payload.length < 512 then
      some (head ++ [String.mk (payload_path payload)])
    else none
  else if addr = 0x0707 then
    if 3 ≤ payload.length then
      some (head ++ [date_arg (payload.getD 0 0) (payload.getD 1 0) (payload.getD 2 0)])
    else none
  else none

/-- Number of request buffers released so far: explicit `csp_buffer_free` calls plus
sends that succeeded (a successful `csp_send` takes the buffer over). -/
def World.released (w : World) : Nat :=
  w.frees + (w.sends.filter (fun s => s.2)).length

/-- Between `w` and `w2` exactly one buffer was released: either it was freed and no send
succeeded, or one send succeeded and nothing was freed. -/
def released_once (w w2 : World) : Prop :=
  (w2.frees = w.frees + 1 ∧
      w2.sends.filter (fun s => s.2) = w.sends.filter (fun s => s.2)) ∨
    (w2.frees = w.frees ∧ ∃ reply, w2.sends = w.sends ++ [(reply, true)])

/-- The datagram `CMD 0130 zz`: the value token is not hexadecimal. -/
def msg_cmd_0130_zz : List Char :=
  ['C', 'M', 'D', ' ', '0', '1', '3', '0', ' ', 'z', 'z']

/-- The datagram `cmd 0130 32 junk`: lower-case keyword and a fourth token. -/
def msg_cmd_0130_junk : List Char :=
  ['c', 'm', 'd', ' ', '0', '1', '3', '0', ' ', '3', '2', ' ', 'j', 'u', 'n', 'k']

/-- The datagram `CMD 0521 1`: start the camera capture sequence. -/
def msg_cmd_0521 : List Char :=
  ['C', 'M', 'D', ' ', '0', '5', '2', '1', ' ', '1']

/-! ## imx_rpmsg_hybrid.c: range validation of the RPMSG/DMA bridge -/

/-- Fallback size of the DMA buffer, 128 MB. -/
def DMA_BUFFER_SIZE : Nat := 0x8000000

def CMD_TYPE_NORMAL_REQ : Nat := 0x23
def CMD_TYPE_FILE_REQ : Nat := 0x24
def CMD_TYPE_NORMAL_RESP : Nat := 0x2D
def REMOTE_CALL_MY_ADDR : Nat := 0x55

def EFAULT : Int := 14
def EINVAL : Int := 22
def ENOTTY : Int := 25

/-- Size of the packed `struct cmd_header`: three `uint8_t` and one `uint16_t`. -/
def sizeof_cmd_header : Nat := 5

/-- The fields of the packed `struct file_transfer_msg` that the callback reads; `offset`
and `size` are `uint32_t`. -/
structure file_transfer_msg where
  target : Nat
  type : Nat
  offset : Nat
  size : Nat
  deriving DecidableEq, Repr

/-- The fields of `struct rpmsgtty_dma_port` that the validation reads and writes. -/
structure rpmsgtty_dma_port where
  dma_size : Nat
  pending_file : Option file_transfer_msg
  file_ready : Bool
  deriving DecidableEq, Repr

/-- The C expression `offset + size` on two `uint32_t` operands: the sum is taken in
32-bit unsigned arithmetic. -/
def u32_add (a b : Nat) : Nat := (a + b) % 4294967296

/-- The message callback for a message of `len` bytes. The two text message types only
push bytes to the terminal, which is not part of the state kept here. Returns the return
code and the port. -/
def rpmsg_hybrid_cb (cport : rpmsgtty_dma_port) (len : Nat) (msg : file_transfer_msg) :
    Int × rpmsgtty_dma_port :=
  if len < sizeof_cmd_header then (-EINVAL, cport)
  else if msg.target ≠ REMOTE_CALL_MY_ADDR then (-EINVAL, cport)
  else if msg.type = CMD_TYPE_NORMAL_REQ then (0, cport)
  else if msg.type = CMD_TYPE_NORMAL_RESP then (0, cport)
  else if msg.type = CMD_TYPE_FILE_REQ then
    if u32_add msg.offset msg.size > cport.dma_size then (-EINVAL, cport)
    else (0, { cport with pending_file := some msg, file_ready := true })
  else (0, cport)

/-- The fields `offset` and `size` of `struct dma_read_req`, both `uint32_t`. -/
structure dma_read_req where
  offset : Nat
  size : Nat
  deriving DecidableEq, Repr

/-- The commands of `rpmsg_dma_ioctl`; `RPMSG_READ_DMA_DATA` carries what
`copy_from_user` reads, `none` when that copy fails. -/
inductive ioctl_cmd where
  | RPMSG_GET_DMA_INFO
  | RPMSG_READ_DMA_DATA (req : Option dma_read_req)
  | other
  deriving DecidableEq, Repr

/-- The ioctl of the character device. `to_user_ok` tells whether `copy_to_user`
succeeds. Returns the return code and the range `(offset, size)` of the DMA buffer that
`copy_to_user(req.buffer, cport->dma_vaddr + req.offset, req.size)` is asked to read,
`none` when that call is not reached. -/
def rpmsg_dma_ioctl (cport : rpmsgtty_dma_port) (cmd : ioctl_cmd) (to_user_ok : Bool) :
    Int × Option (Nat × Nat) :=
  match cmd with
  | .RPMSG_GET_DMA_INFO => if to_user_ok then (0, none) else (-EFAULT, none)
  | .RPMSG_READ_DMA_DATA none => (-EFAULT, none)
  | .RPMSG_READ_DMA_DATA (some req) =>
    if u32_add req.offset req.size > cport.dma_size then (-EINVAL, none)
    else if to_user_ok then (0, some (req.offset, req.size))
    else (-EFAULT, some (req.offset, req.size))
  | .other => (-ENOTTY, none)

/-- A port as `map_dma_buffer` leaves it with the fallback size, no request pending. -/
def rpmsgtty_dma_port.fallback : rpmsgtty_dma_port :=
  { dma_size := DMA_BUFFER_SIZE, pending_file := none, file_ready := false }

/-! ## Vocabulary for the statements about inbound commands -/

/-- The whitespace-separated tokens of a text: the text is cut at every white-space
character and the empty pieces are left out. -/
def tokens (s : List Char) : List (List Char) :=
  (s.splitOnP c_isspace).filter (fun t => !t.isEmpty)

/-- The hexadecimal digits with their values. -/
def hex_table : List (Char × Nat) :=
  [('0', 0), ('1', 1), ('2', 2), ('3', 3), ('4', 4), ('5', 5), ('6', 6), ('7', 7), ('8', 8),
    ('9', 9), ('a', 10), ('b', 11), ('c', 12), ('d', 13), ('e', 14), ('f', 15), ('A', 10),
    ('B', 11), ('C', 12), ('D', 13), ('E', 14), ('F', 15)]

/-- The value of a hexadecimal digit, `none` for any other character. -/
def hex_digit_value (c : Char) : Option Nat :=
  (hex_table.find? (fun e => e.1 == c)).map (fun e => e.2)

/-- The number that a string of hexadecimal digits writes. -/
def hex_number (t : List Char) : Nat :=
  t.foldl (fun acc c => acc * 16 + (hex_digit_value c).getD 0) 0

/-- The datagram `CMD 0000000000000000000000000000130A5`: two tokens, the second of 33
hexadecimal digits. -/
def msg_cmd_split : List Char :=
  ['C', 'M', 'D', ' '] ++ List.replicate 28 '0' ++ ['1', '3', '0', 'A', '5']

/-- The sign step of `sscanf_x`: an optional `-` or `+` at the head of the token. -/
def strip_sign (tok : List Char) : Bool × List Char :=
  match tok with
  | '-' :: t => (true, t)
  | '+' :: t => (false, t)
  | t => (false, t)

/-- The prefix step of `sscanf_x`: an optional `0x` or `0X` before the digits. -/
def strip_0x (tok : List Char) : List Char :=
  match tok with
  | '0' :: 'x' :: t => t
  | '0' :: 'X' :: t => t
  | t => t

/-! ## Facts about the tables -/

set_option maxRecDepth 100000

theorem bee_param_lookup_mem {a : Nat} {p : bee_param_t} (h : bee_param_lookup a = some p) :
    p ∈ bee_all ∧ p.addr = a := by
  unfold bee_param_lookup at h
  have key : ∀ (l : List bee_param_t), l.find? (fun q => q.addr == a) = some p →
      p ∈ l ∧ p.addr = a := by
    intro l hl
    exact ⟨List.mem_of_find?_eq_some hl, by simpa using List.find?_some hl⟩
  simp only [bee_all, List.mem_append]
  split at h
  · cases h; rename_i h1; have := key _ h1; tauto
  split at h
  · cases h; rename_i h1; have := key _ h1; tauto
  split at h
  · cases h; rename_i h1; have := key _ h1; tauto
  split at h
  · cases h; rename_i h1; have := key _ h1; tauto
  split at h
  · cases h; rename_i h1; have := key _ h1; tauto
  · have := key _ h; tauto

theorem bee_param_lookup_addr {a : Nat} {p : bee_param_t} (h : bee_param_lookup a = some p) :
    p.addr = a := (bee_param_lookup_mem h).2

/-- A decidable property that holds for every table entry holds for every lookup result. -/
theorem bee_param_lookup_all (Q : bee_param_t → Prop) (hall : ∀ q ∈ bee_all, Q q)
    {a : Nat} {p : bee_param_t} (h : bee_param_lookup a = some p) : Q p :=
  hall p (bee_param_lookup_mem h).1

theorem bee_all_addr_lt : ∀ q ∈ bee_all, q.addr < 4096 := by decide

theorem bee_all_file_block : ∀ q ∈ bee_all, in_file_block q.addr = true → q.addr = 0x0704 := by
  decide

theorem bee_all_capture : ∀ q ∈ bee_all,
    (q.on_write = some .cis_cam_capture ∨ q.on_write = some .usb_cam_capture) →
    (q.addr = 0x0521 ∨ q.addr = 0x0522) := by
  decide

theorem bee_all_on_read : ∀ q ∈ bee_all, q.on_read = none := by decide

theorem bee_all_not_rw : ∀ q ∈ bee_all, q.access ≠ BEE_ACCESS_RW →
    in_file_block q.addr = false ∧ q.addr ≠ 0x0100 := by
  decide

/-! ## Bytes and headers -/

theorem byte_lt (data : List Nat) (i : Nat) : byte data i < 256 :=
  Nat.mod_lt _ (by decide)

theorem and_F0_shift : ∀ h < 256, (h &&& 0xF0) >>> 4 = h / 16 := by decide

theorem shl8_or (x l : Nat) (hl : l < 256) : (x <<< 8) ||| l = x * 256 + l := by
  have h := Nat.mul_add_lt_is_or (i := 8) (b := l) (by simpa using hl) x
  rw [Nat.shiftLeft_eq, Nat.mul_comm x (2 ^ 8), ← h]

theorem decoded_op_type_eq (packet : csp_packet_t) :
    decoded_op_type packet = byte packet.data 0 / 16 :=
  and_F0_shift _ (byte_lt _ _)

theorem decoded_addr_eq (packet : csp_packet_t) :
    decoded_addr packet = byte packet.data 0 % 16 * 256 + byte packet.data 1 := by
  unfold decoded_addr
  have h : byte packet.data 0 &&& 0x0F = byte packet.data 0 % 16 :=
    Nat.and_pow_two_sub_one_eq_mod _ 4
  rw [h, shl8_or _ _ (byte_lt _ _)]

theorem decoded_addr_lt (packet : csp_packet_t) : decoded_addr packet < 4096 := by
  rw [decoded_addr_eq]
  have := byte_lt packet.data 1
  omega

theorem and_FF00 (hi lo : Nat) (hlo : lo < 256) :
    (hi * 256 + lo) &&& 0xFF00 = hi % 256 * 256 := by
  apply Nat.eq_of_testBit_eq
  intro i
  rw [Nat.testBit_and]
  have e1 : hi * 256 + lo = 2 ^ 8 * hi + lo := by norm_num; omega
  have e2 : hi % 256 * 256 = 2 ^ 8 * (hi % 256) + 0 := by norm_num; omega
  have e3 : (0xFF00 : Nat) = 2 ^ 8 * 255 + 0 := by norm_num
  rw [e1, e2, e3]
  rw [Nat.testBit_mul_pow_two_add _ (by simpa using hlo),
    Nat.testBit_mul_pow_two_add _ (by norm_num), Nat.testBit_mul_pow_two_add _ (by norm_num)]
  by_cases h : i < 8
  · simp [h]
  · simp only [h, if_false]
    have e4 : (255 : Nat) = 2 ^ 8 - 1 := by norm_num
    have e5 : (256 : Nat) = 2 ^ 8 := by norm_num
    rw [e4, e5, Nat.testBit_two_pow_sub_one, Nat.testBit_mod_two_pow]
    by_cases h2 : i - 8 < 8 <;> simp [h2]

/-- The routing test selects exactly the addresses `0x0701 .. 0x07FF` among 16-bit ones. -/
theorem in_file_block_iff (a : Nat) (ha : a < 65536) :
    in_file_block a = true ↔ (0x0701 ≤ a ∧ a ≤ 0x07FF) := by
  have h := and_FF00 (a / 256) (a % 256) (Nat.mod_lt _ (by decide))
  have e : a / 256 * 256 + a % 256 = a := by omega
  rw [e] at h
  simp only [in_file_block, Bool.and_eq_true, beq_iff_eq, bne_iff_ne, ne_eq, h]
  omega

theorem bee_request_op_type (op_type addr : Nat) (payload : List Nat) (hop : op_type < 16)
    (ha : addr < 4096) : decoded_op_type (bee_request op_type addr payload) = op_type := by
  rw [decoded_op_type_eq]
  simp only [bee_request, byte, List.cons_append, List.getD_cons_zero]
  omega

theorem bee_request_addr (op_type addr : Nat) (payload : List Nat) (ha : addr < 4096) : decoded_addr (bee_request op_type addr payload) = addr := by
  rw [decoded_addr_eq]
  simp only [bee_request, byte, List.cons_append, List.getD_cons_zero, List.getD_cons_succ]
  omega

theorem be32_eq (b0 b1 b2 b3 : Nat) (h1 : b1 < 256) (h2 : b2 < 256) (h3 : b3 < 256) :
    be32 b0 b1 b2 b3 = b0 * 16777216 + b1 * 65536 + b2 * 256 + b3 := by
  unfold be32
  have s1 : b0 <<< 24 ||| b1 <<< 16 = b0 * 16777216 + b1 * 65536 := by
    have h := Nat.mul_add_lt_is_or (i := 24) (b := b1 * 65536) (by norm_num; omega) b0
    rw [Nat.shiftLeft_eq, Nat.shiftLeft_eq, Nat.mul_comm b0 (2 ^ 24)]
    norm_num at h ⊢
    omega
  have s2 : (b0 * 16777216 + b1 * 65536) ||| b2 <<< 8 = b0 * 16777216 + b1 * 65536 + b2 * 256 := by
    have h := Nat.mul_add_lt_is_or (i := 16) (b := b2 * 256) (by norm_num; omega) (b0 * 256 + b1)
    rw [Nat.shiftLeft_eq]
    have e : b0 * 16777216 + b1 * 65536 = 2 ^ 16 * (b0 * 256 + b1) := by norm_num; omega
    rw [e]
    norm_num at h ⊢
    omega
  have s3 : (b0 * 16777216 + b1 * 65536 + b2 * 256) ||| b3 =
      b0 * 16777216 + b1 * 65536 + b2 * 256 + b3 := by
    have h := Nat.mul_add_lt_is_or (i := 8) (b := b3) (by norm_num; omega)
      (b0 * 65536 + b1 * 256 + b2)
    have e : b0 * 16777216 + b1 * 65536 + b2 * 256 = 2 ^ 8 * (b0 * 65536 + b1 * 256 + b2) := by
      norm_num; omega
    rw [e]
    norm_num at h ⊢
    omega
  rw [s1, s2, s3]

theorem be32_bytes_eq (v : Nat) :
    be32_bytes v = [v / 16777216 % 256, v / 65536 % 256, v / 256 % 256, v % 256] := by
  have m : ∀ x : Nat, x &&& 0xFF = x % 256 := fun x => Nat.and_pow_two_sub_one_eq_mod x 8
  simp only [be32_bytes, m, Nat.shiftRight_eq_div_pow]

theorem addr_bytes_eq (a : Nat) (ha : a < 65536) : addr_bytes a = [a / 256, a % 256] := by
  have m : ∀ x : Nat, x &&& 0xFF = x % 256 := fun x => Nat.and_pow_two_sub_one_eq_mod x 8
  have e : a / 256 % 256 = a / 256 := by omega
  simp only [addr_bytes, m, Nat.shiftRight_eq_div_pow]
  norm_num [e]

/-- Decoding the four bytes of a 32-bit value gives the value back. -/
theorem be32_of_bytes (v : Nat) (hv : v < 4294967296) :
    be32 (v / 16777216 % 256) (v / 65536 % 256) (v / 256 % 256) (v % 256) = v := by
  rw [be32_eq _ _ _ _ (Nat.mod_lt _ (by decide)) (Nat.mod_lt _ (by decide))
    (Nat.mod_lt _ (by decide))]
  omega

/-! ## What the hooks touch -/

theorem capture_loop_frame (l : List Nat) (w : World) :
    (l.foldl (fun acc cam => c_system (capture_cmd cam) acc) w) =
      { w with sys_cmds := w.sys_cmds ++ l.map capture_cmd } := by
  induction l generalizing w with
  | nil => simp
  | cons c l ih =>
    simp only [List.foldl, List.map]
    rw [ih]
    simp [c_system]

/-- A write hook changes the registry only in the capture case, where it clears its own
entry; store, sockets, script log, hook log and buffers are not touched. -/
theorem WriteHook.run_frame (h : WriteHook) (addr val : Nat) (w : World) :
    (h.run addr val w).value =
        (if (h = .cis_cam_capture ∨ h = .usb_cam_capture) ∧ val = 1 ∧
            (bee_param_lookup addr).isSome then set_value w.value addr 0 else w.value) ∧
      (h.run addr val w).db = w.db ∧ (h.run addr val w).db_ok = w.db_ok ∧
      (h.run addr val w).unix_pub_sock_ok = w.unix_pub_sock_ok ∧
      (h.run addr val w).execs = w.execs ∧ (h.run addr val w).hook_calls = w.hook_calls ∧
      (h.run addr val w).sends = w.sends ∧ (h.run addr val w).frees = w.frees := by
  cases h
  case pub_event name =>
    simp only [WriteHook.run, bee_unix_pub_event]
    split <;> simp
  case time_sync =>
    simp only [WriteHook.run, bee_unix_pub_event, c_system]
    split <;> simp
  case pwr_ifb_en =>
    by_cases h0 : val = 0 <;> by_cases h1 : val = 1 <;> simp [WriteHook.run, c_system, h0, h1]
  case log_only => simp [WriteHook.run]
  case cis_cam_capture =>
    simp only [WriteHook.run, capture_loop_frame]
    by_cases hv : val = 1
    · cases hl : bee_param_lookup addr with
      | none => simp [hv]
      | some p => simp [hv, bee_param_lookup_addr hl]
    · simp [hv]
  case usb_cam_capture =>
    simp only [WriteHook.run, c_system]
    by_cases hv : val = 1
    · cases hl : bee_param_lookup addr with
      | none => simp [hv]
      | some p => simp [hv, bee_param_lookup_addr hl]
    · simp [hv]

/-! ## Dispatcher: rejected requests -/

theorem call_on_read_eq {a : Nat} {p : bee_param_t} (hp : bee_param_lookup a = some p)
    (addr : Nat) (w : World) : call_on_read p addr w = w := by
  have h := bee_param_lookup_all _ bee_all_on_read hp
  unfold call_on_read
  split
  · rename_i x hx; rw [h] at hx; cases hx
  · rfl

/-- C2: a write request (op-type 0, any payload) whose address is an entry with Read-only
access leaves the whole state as it was except that the request buffer is freed once: no
value changes, no hook is called, nothing is sent. A read request that follows is answered
with the address and the value the entry had before the write attempt. -/
theorem C2_read_only_write_rejected (env env2 : Env) (w : World)
    (packet readpkt : csp_packet_t) (a : Nat) (p : bee_param_t)
    (hop : decoded_op_type packet = 0) (ha : decoded_addr packet = a)
    (hp : bee_param_lookup a = some p) (hacc : p.access = BEE_ACCESS_R)
    (hrop : decoded_op_type readpkt = 1) (hra : decoded_addr readpkt = a) :
    handle_BEE_A55_PARAMS env packet w = { w with frees := w.frees + 1 } ∧
      (handle_BEE_A55_PARAMS env2 readpkt (handle_BEE_A55_PARAMS env packet w)).sends =
        w.sends ++ [(⟨6, addr_bytes a ++ be32_bytes (w.value a) ++ readpkt.data.drop 6⟩,
          env2.send_ok)] := by
  have hq := bee_param_lookup_all _ bee_all_not_rw hp (by rw [hacc]; decide)
  have hpa := bee_param_lookup_addr hp
  rw [hpa] at hq
  have h1 : handle_BEE_A55_PARAMS env packet w = { w with frees := w.frees + 1 } := by
    simp only [handle_BEE_A55_PARAMS, ha, hq.1, hop, handle_BEE_RW_common, hp, hacc]
    simp [BEE_ACCESS_R, BEE_ACCESS_W, csp_buffer_free]
  refine ⟨h1, ?_⟩
  rw [h1]
  simp only [handle_BEE_A55_PARAMS, hra, hq.1, hrop, handle_BEE_RW_common, hp, hacc,
    call_on_read_eq hp, hpa]
  simp [BEE_ACCESS_R, hq.2, send_or_free, csp_buffer_free]
  split <;> simp

/-- Witness of C2: writing 99 to the boot counter `0x0601`, then reading it. -/
theorem C2_read_only_write_rejected_witness :
    handle_BEE_A55_PARAMS (Env.quiet 0 0) (bee_write_request 0x0601 99) (World.boot []) =
        { World.boot [] with frees := (World.boot []).frees + 1 } ∧
      (handle_BEE_A55_PARAMS (Env.quiet 0 0) (bee_read_request 0x0601)
        (handle_BEE_A55_PARAMS (Env.quiet 0 0) (bee_write_request 0x0601 99)
          (World.boot []))).sends =
        (World.boot []).sends ++ [(⟨6, addr_bytes 0x0601 ++
          be32_bytes ((World.boot []).value 0x0601) ++ (bee_read_request 0x0601).data.drop 6⟩,
          (Env.quiet 0 0).send_ok)] :=
  C2_read_only_write_rejected (Env.quiet 0 0) (Env.quiet 0 0) (World.boot [])
    (bee_write_request 0x0601 99) (bee_read_request 0x0601) 0x0601
    ⟨0x0601, "boot_cnt", 0, BEE_ACCESS_R, none, none⟩
    (by decide) (by decide) (by decide) (by decide) (by decide) (by decide)

/-- C3: a read request (op-type 1) whose address is an entry with Write-only access leaves
the whole state as it was except that the request buffer is freed once: nothing is sent,
no value changes. -/
theorem C3_write_only_read_rejected (env : Env) (w : World) (packet : csp_packet_t)
    (a : Nat) (p : bee_param_t)
    (hop : decoded_op_type packet = 1) (ha : decoded_addr packet = a)
    (hp : bee_param_lookup a = some p) (hacc : p.access = BEE_ACCESS_W) :
    handle_BEE_A55_PARAMS env packet w = { w with frees := w.frees + 1 } := by
  have hq := bee_param_lookup_all _ bee_all_not_rw hp (by rw [hacc]; decide)
  rw [bee_param_lookup_addr hp] at hq
  simp only [handle_BEE_A55_PARAMS, ha, hq.1, hop, handle_BEE_RW_common, hp, hacc]
  simp [BEE_ACCESS_R, BEE_ACCESS_W, csp_buffer_free]

/-- Witness of C3: reading the Write-only switch `0x0102`. -/
theorem C3_write_only_read_rejected_witness :
    handle_BEE_A55_PARAMS (Env.quiet 0 0) (bee_read_request 0x0102) (World.boot []) =
      { World.boot [] with frees := (World.boot []).frees + 1 } :=
  C3_write_only_read_rejected (Env.quiet 0 0) (World.boot []) (bee_read_request 0x0102) 0x0102
    ⟨0x0102, "pwr_io_en", 0, BEE_ACCESS_W, none, some cb_pwr_io_en_write⟩
    (by decide) (by decide) (by decide) (by decide)

/-- C4: a request of the parameter port, with any op-type, length and payload, whose decoded
address is outside `0x0701 .. 0x07FF` and has no table entry leaves the whole state as it
was except that the request buffer is freed once: nothing is sent, no value changes. -/
theorem C4_unknown_address_dropped (env : Env) (w : World) (packet : csp_packet_t)
    (hblock : ¬ (0x0701 ≤ decoded_addr packet ∧ decoded_addr packet ≤ 0x07FF))
    (hnone : bee_param_lookup (decoded_addr packet) = none) :
    handle_BEE_A55_PARAMS env packet w = { w with frees := w.frees + 1 } := by
  have hb : in_file_block (decoded_addr packet) = false := by
    have h := in_file_block_iff (decoded_addr packet)
      (Nat.lt_trans (decoded_addr_lt packet) (by decide))
    cases hfb : in_file_block (decoded_addr packet) with
    | false => rfl
    | true => exact absurd (h.mp hfb) hblock
  simp [handle_BEE_A55_PARAMS, hb, handle_BEE_RW_common, hnone, csp_buffer_free]

/-- Witness of C4: a write request for the unknown address `0x09FF`. -/
theorem C4_unknown_address_dropped_witness :
    handle_BEE_A55_PARAMS (Env.quiet 0 0) (bee_write_request 0x09FF 1) (World.boot []) =
      { World.boot [] with frees := (World.boot []).frees + 1 } :=
  C4_unknown_address_dropped (Env.quiet 0 0) (World.boot []) (bee_write_request 0x09FF 1)
    (by decide) (by decide)

/-! ## Dispatcher: accepted writes and reads -/

theorem bee_all_capture_iff : ∀ q ∈ bee_all,
    ((q.on_write = some .cis_cam_capture ∨ q.on_write = some .usb_cam_capture) ↔
      (q.addr = 0x0521 ∨ q.addr = 0x0522)) := by
  decide

/-- Effect of `if (param->on_write) param->on_write(addr, val);` on an entry found by
lookup: the call is logged, the registry changes only when a capture trigger gets 1 (it
clears itself), and store, sockets state, script log and buffers stay. -/
theorem call_on_write_frame {a : Nat} {p : bee_param_t} (hp : bee_param_lookup a = some p)
    (v : Nat) (w : World) :
    (call_on_write p a v w).value =
        (if v = 1 ∧ (a = 0x0521 ∨ a = 0x0522) then set_value w.value a 0 else w.value) ∧
      (call_on_write p a v w).db = w.db ∧ (call_on_write p a v w).db_ok = w.db_ok ∧
      (call_on_write p a v w).unix_pub_sock_ok = w.unix_pub_sock_ok ∧
      (call_on_write p a v w).execs = w.execs ∧
      (call_on_write p a v w).sends = w.sends ∧ (call_on_write p a v w).frees = w.frees ∧
      (call_on_write p a v w).hook_calls =
        w.hook_calls ++ (if p.on_write.isSome then [(a, v)] else []) := by
  have hcap := bee_param_lookup_all _ bee_all_capture_iff hp
  rw [bee_param_lookup_addr hp] at hcap
  unfold call_on_write
  cases hw : p.on_write with
  | none =>
    have hn : ¬ (a = 0x0521 ∨ a = 0x0522) := by
      intro h
      have := hcap.mpr h
      rw [hw] at this
      simp at this
    simp [hn]
  | some h =>
    have hf := WriteHook.run_frame h a v { w with hook_calls := w.hook_calls ++ [(a, v)] }
    rw [hw] at hcap
    simp only [Option.some.injEq] at hcap
    simp only [hp, Option.isSome_some, and_true, hcap] at hf
    obtain ⟨h1, h2, h3, h4, h5, h6, h7, h8⟩ := hf
    refine ⟨?_, h2, h3, h4, h5, h7, h8, ?_⟩
    · rw [h1]
      by_cases hc : (a = 0x0521 ∨ a = 0x0522) ∧ v = 1
      · have hc2 : v = 1 ∧ (a = 0x0521 ∨ a = 0x0522) := ⟨hc.2, hc.1⟩
        rw [if_pos hc, if_pos hc2]
      · have hc2 : ¬ (v = 1 ∧ (a = 0x0521 ∨ a = 0x0522)) := fun h => hc ⟨h.2, h.1⟩
        rw [if_neg hc, if_neg hc2]
    · rw [h6]; simp

theorem send_or_free_frame (env : Env) (packet : csp_packet_t) (w : World) :
    (send_or_free env packet w).value = w.value ∧ (send_or_free env packet w).db = w.db ∧
      (send_or_free env packet w).db_ok = w.db_ok ∧
      (send_or_free env packet w).unix_pub_sock_ok = w.unix_pub_sock_ok ∧
      (send_or_free env packet w).outbox = w.outbox ∧
      (send_or_free env packet w).sys_cmds = w.sys_cmds ∧
      (send_or_free env packet w).execs = w.execs ∧
      (send_or_free env packet w).hook_calls = w.hook_calls ∧
      (send_or_free env packet w).sends = w.sends ++ [(packet, env.send_ok)] := by
  unfold send_or_free csp_buffer_free
  split <;> simp

/-- An accepted write in `handle_BEE_RW_common`: store, hook, then the request is sent back. -/
theorem handle_BEE_RW_common_write (env : Env) (packet : csp_packet_t) (w : World)
    {a : Nat} {p : bee_param_t} (hp : bee_param_lookup a = some p)
    (hacc : p.access &&& BEE_ACCESS_W ≠ 0) (hlen : 6 ≤ packet.length) :
    handle_BEE_RW_common env packet a 0 w =
      send_or_free env packet (call_on_write p a (packet_value packet)
        { w with value := set_value w.value a (packet_value packet) }) := by
  have hlen2 : ¬ packet.length < 6 := by omega
  simp [handle_BEE_RW_common, hp, hacc, hlen2, bee_param_lookup_addr hp]

/-- A permitted read in `handle_BEE_RW_common` of an address other than time-sync. -/
theorem handle_BEE_RW_common_read (env : Env) (packet : csp_packet_t) (w : World)
    {a : Nat} {p : bee_param_t} (hp : bee_param_lookup a = some p)
    (hacc : p.access &&& BEE_ACCESS_R ≠ 0) (hts : a ≠ 0x0100) :
    handle_BEE_RW_common env packet a 1 w =
      send_or_free env ⟨6, addr_bytes a ++ be32_bytes (w.value a) ++ packet.data.drop 6⟩ w := by
  simp [handle_BEE_RW_common, hp, hacc, hts, bee_param_lookup_addr hp, call_on_read_eq hp]

theorem bee_write_request_value (a v : Nat) (hv : v < 4294967296) :
    packet_value (bee_write_request a v) = v := by
  simp only [packet_value, bee_write_request, bee_request, byte, List.cons_append,
    List.nil_append, List.getD_cons_succ, List.getD_cons_zero, Nat.mod_mod]
  exact be32_of_bytes v hv

/-- Routing of a request built for a 12-bit address outside the file-transfer block. -/
theorem handle_BEE_A55_PARAMS_request (env : Env) (w : World) (op_type a : Nat)
    (payload : List Nat) (hop : op_type < 16) (ha : a < 4096)
    (hfb : in_file_block a = false) :
    handle_BEE_A55_PARAMS env (bee_request op_type a payload) w =
      handle_BEE_RW_common env (bee_request op_type a payload) a op_type w := by
  simp [handle_BEE_A55_PARAMS, bee_request_op_type op_type a payload hop ha,
    bee_request_addr op_type a payload ha, hfb]

/-- Routing of a request built for a table entry outside the file-transfer block. -/
theorem handle_BEE_A55_PARAMS_common (env : Env) (w : World) (op_type : Nat)
    (payload : List Nat) {a : Nat} {p : bee_param_t} (hp : bee_param_lookup a = some p)
    (hop : op_type < 16) (hblock : a ≠ 0x0704) :
    handle_BEE_A55_PARAMS env (bee_request op_type a payload) w =
      handle_BEE_RW_common env (bee_request op_type a payload) a op_type w := by
  have ha := bee_param_lookup_all _ bee_all_addr_lt hp
  have hb := bee_param_lookup_all _ bee_all_file_block hp
  rw [bee_param_lookup_addr hp] at ha hb
  have hfb : in_file_block a = false := by
    cases h : in_file_block a with
    | false => rfl
    | true => exact absurd (hb h) hblock
  exact handle_BEE_A55_PARAMS_request env w op_type a payload hop ha hfb

/-- Counterexample to C1 as stated, from the boot state with sends that succeed:
the capture trigger `0x0521` has Read-Write access, yet after writing 1 the read reply
carries 0; the switch `0x0101` has Write access, yet the read after the write sends
nothing; the counter `0x0704` has Read-Write access, yet the write of 5 leaves the entry
at 0 and the read is answered by the file-transfer gateway with no value at all. -/
theorem C1_write_then_read_counterexample :
    ((bee_param_lookup 0x0521).map (fun p => p.access) = some BEE_ACCESS_RW ∧
      ((handle_BEE_A55_PARAMS (Env.quiet 0 0) (bee_read_request 0x0521)
        (handle_BEE_A55_PARAMS (Env.quiet 0 0) (bee_write_request 0x0521 1)
          (World.boot []))).sends.getLast?) = some (⟨6, [5, 0x21, 0, 0, 0, 0]⟩, true)) ∧
    ((bee_param_lookup 0x0101).map (fun p => p.access) = some BEE_ACCESS_W ∧
      (handle_BEE_A55_PARAMS (Env.quiet 0 0) (bee_read_request 0x0101)
        (handle_BEE_A55_PARAMS (Env.quiet 0 0) (bee_write_request 0x0101 1)
          (World.boot []))).sends =
      (handle_BEE_A55_PARAMS (Env.quiet 0 0) (bee_write_request 0x0101 1)
          (World.boot [])).sends) ∧
    ((bee_param_lookup 0x0704).map (fun p => p.access) = some BEE_ACCESS_RW ∧
      (handle_BEE_A55_PARAMS (Env.quiet 0 0) (bee_write_request 0x0704 5)
          (World.boot [])).value 0x0704 = 0 ∧
      ((handle_BEE_A55_PARAMS (Env.quiet 0 0) (bee_read_request 0x0704)
        (handle_BEE_A55_PARAMS (Env.quiet 0 0) (bee_write_request 0x0704 5)
          (World.boot []))).sends.getLast?) = some (⟨2, [7, 4]⟩, true)) := by
  decide

/-- C1, amended: for every entry with Read-Write access other than time-sync `0x0100` and
the file-id counter `0x0704` (which the dispatcher routes to the file-transfer gateway),
and every 32-bit value `v` other than 1 written to a capture trigger `0x0521`/`0x0522`
(which clears itself), a write request carrying `v` stores `v` in the entry, and the read
request that follows is answered with the six bytes address, `v` big-endian. -/
theorem C1_write_then_read (env1 env2 : Env) (w : World) (a v : Nat) (p : bee_param_t)
    (hp : bee_param_lookup a = some p) (hrw : p.access = BEE_ACCESS_RW)
    (hts : a ≠ 0x0100) (hblock : a ≠ 0x0704)
    (hcap : ¬ (v = 1 ∧ (a = 0x0521 ∨ a = 0x0522))) (hv : v < 4294967296) :
    (handle_BEE_A55_PARAMS env1 (bee_write_request a v) w).value a = v ∧
      (handle_BEE_A55_PARAMS env2 (bee_read_request a)
        (handle_BEE_A55_PARAMS env1 (bee_write_request a v) w)).sends =
      (handle_BEE_A55_PARAMS env1 (bee_write_request a v) w).sends ++
        [(⟨6, [a / 256, a % 256, v / 16777216 % 256, v / 65536 % 256, v / 256 % 256, v % 256]⟩,
          env2.send_ok)] := by
  have ha := bee_param_lookup_all _ bee_all_addr_lt hp
  rw [bee_param_lookup_addr hp] at ha
  have hW : p.access &&& BEE_ACCESS_W ≠ 0 := by rw [hrw]; decide
  have hR : p.access &&& BEE_ACCESS_R ≠ 0 := by rw [hrw]; decide
  have hwr : handle_BEE_A55_PARAMS env1 (bee_write_request a v) w =
      send_or_free env1 (bee_write_request a v)
        (call_on_write p a v { w with value := set_value w.value a v }) := by
    have hval := bee_write_request_value a v hv
    unfold bee_write_request at hval ⊢
    rw [handle_BEE_A55_PARAMS_common env1 w 0 _ hp (by decide) hblock]
    rw [handle_BEE_RW_common_write env1 _ w hp hW (by simp [bee_request]), hval]
  have hval : (handle_BEE_A55_PARAMS env1 (bee_write_request a v) w).value a = v := by
    rw [hwr, (send_or_free_frame _ _ _).1, (call_on_write_frame hp v _).1, if_neg hcap]
    simp [set_value]
  refine ⟨hval, ?_⟩
  unfold bee_read_request
  rw [handle_BEE_A55_PARAMS_common env2 _ 1 _ hp (by decide) hblock]
  rw [handle_BEE_RW_common_read env2 _ _ hp hR hts, (send_or_free_frame _ _ _).2.2.2.2.2.2.2.2]
  rw [hval, be32_bytes_eq, addr_bytes_eq a (by omega)]
  simp [bee_request]

/-- Witness of C1: write 50 to `0x0130`, then read `0x0130`. -/
theorem C1_write_then_read_witness :
    (handle_BEE_A55_PARAMS (Env.quiet 0 0) (bee_write_request 0x0130 50)
        (World.boot [])).value 0x0130 = 50 ∧
      (handle_BEE_A55_PARAMS (Env.quiet 0 0) (bee_read_request 0x0130)
        (handle_BEE_A55_PARAMS (Env.quiet 0 0) (bee_write_request 0x0130 50)
          (World.boot []))).sends =
      (handle_BEE_A55_PARAMS (Env.quiet 0 0) (bee_write_request 0x0130 50)
          (World.boot [])).sends ++
        [(⟨6, [0x0130 / 256, 0x0130 % 256, 50 / 16777216 % 256, 50 / 65536 % 256,
          50 / 256 % 256, 50 % 256]⟩, (Env.quiet 0 0).send_ok)] :=
  C1_write_then_read (Env.quiet 0 0) (Env.quiet 0 0) (World.boot []) 0x0130 50
    ⟨0x0130, "htr_0_set", 0, BEE_ACCESS_RW, none, some htr_0_write⟩
    (by decide) (by decide) (by decide) (by decide) (by decide) (by decide)

/-! ## Write-through: dispatcher against the Unix-socket bridge -/

/-- The ordinary read/write handler never touches the durable store. -/
theorem handle_BEE_RW_common_db (env : Env) (packet : csp_packet_t) (a op_type : Nat)
    (w : World) : (handle_BEE_RW_common env packet a op_type w).db = w.db := by
  unfold handle_BEE_RW_common
  cases hp : bee_param_lookup a with
  | none => simp [csp_buffer_free]
  | some p =>
    simp only
    split_ifs <;>
      simp [csp_buffer_free, (send_or_free_frame _ _ _).2.1, (call_on_write_frame hp _ _).2.1,
        call_on_read_eq hp]

/-- C5, the code at the failing input: from the boot state with an empty reachable store,
the dispatcher accepts the write of 50 to `0x0130` (the entry holds 50 and the request is
sent back), but the store still has no row at all, whereas the same write arriving as
`CMD 0130 32` on the Unix socket leaves the row `(0x0130, 50)`. -/
theorem C5_dispatcher_write_not_persisted :
    (handle_BEE_A55_PARAMS (Env.quiet 0 0) (bee_write_request 0x0130 50)
        (World.boot [])).value 0x0130 = 50 ∧
      (handle_BEE_A55_PARAMS (Env.quiet 0 0) (bee_write_request 0x0130 50)
        (World.boot [])).sends = [(bee_write_request 0x0130 50, true)] ∧
      (handle_BEE_A55_PARAMS (Env.quiet 0 0) (bee_write_request 0x0130 50)
        (World.boot [])).db_ok = true ∧
      db_select (handle_BEE_A55_PARAMS (Env.quiet 0 0) (bee_write_request 0x0130 50)
        (World.boot [])).db 0x0130 = none ∧
      db_select (bee_unix_sub_task msg_cmd_0130 (World.boot [])).db 0x0130 = some 50 := by
  decide

theorem sscanf_x_lt (bits : Nat) (tok : List Char) : (sscanf_x bits tok).getD 0 < 2 ^ bits := by
  have hpos : 0 < 2 ^ bits := Nat.two_pow_pos bits
  unfold sscanf_x
  simp only
  split_ifs <;> simp [Option.getD, hpos, Nat.mod_lt]

theorem bee_unix_sub_scan_lt {msg : List Char} {a v : Nat}
    (h : bee_unix_sub_scan msg = some (a, v)) : a < 65536 ∧ v < 4294967296 := by
  unfold bee_unix_sub_scan at h
  simp only at h
  split at h
  · cases h
  · split_ifs at h
    simp only [Option.some.injEq, Prod.mk.injEq] at h
    obtain ⟨h1, h2⟩ := h
    constructor
    · rw [← h1]; simpa using sscanf_x_lt 16 _
    · rw [← h2]; simpa using sscanf_x_lt 32 _

theorem bee_sqlite_update_value_frame (a v : Nat) (w : World) :
    (bee_sqlite_update_value a v w).value = w.value ∧
      (bee_sqlite_update_value a v w).outbox = w.outbox ∧
      (bee_sqlite_update_value a v w).sys_cmds = w.sys_cmds ∧
      (bee_sqlite_update_value a v w).hook_calls = w.hook_calls ∧
      (bee_sqlite_update_value a v w).execs = w.execs ∧
      (bee_sqlite_update_value a v w).db_ok = w.db_ok ∧
      (bee_sqlite_update_value a v w).unix_pub_sock_ok = w.unix_pub_sock_ok := by
  unfold bee_sqlite_update_value
  split <;> simp

theorem bee_unix_pub_param_frame (a v : Nat) (w : World) :
    (bee_unix_pub_param a v w).value = w.value ∧
      (bee_unix_pub_param a v w).sys_cmds = w.sys_cmds ∧
      (bee_unix_pub_param a v w).hook_calls = w.hook_calls ∧
      (bee_unix_pub_param a v w).db = w.db ∧
      (bee_unix_pub_param a v w).outbox.filter Datagram.is_event =
        w.outbox.filter Datagram.is_event := by
  unfold bee_unix_pub_param
  split <;> simp [Datagram.is_event]

/-- Counterexample to C6 as stated, from the boot state with an empty reachable store:
the command `CMD 0130 32` leaves a store row and a `PARAM` datagram that the dispatcher
write of the same value does not leave; the command `CMD 0704 5` stores 5 in the entry
`0x0704`, which the dispatcher write (routed to the file-transfer gateway) leaves at 0. -/
theorem C6_ipc_vs_dispatcher_counterexample :
    (bee_unix_sub_scan msg_cmd_0130 = some (0x0130, 50) ∧
      (bee_unix_sub_task msg_cmd_0130 (World.boot [])).db = [(0x0130, 50)] ∧
      (handle_BEE_A55_PARAMS (Env.quiet 0 0) (bee_write_request 0x0130 50)
        (World.boot [])).db = [] ∧
      (bee_unix_sub_task msg_cmd_0130 (World.boot [])).outbox =
        [Datagram.EVENT "htr_0_set" 50, Datagram.PARAM 0x0130 50] ∧
      (handle_BEE_A55_PARAMS (Env.quiet 0 0) (bee_write_request 0x0130 50)
        (World.boot [])).outbox = [Datagram.EVENT "htr_0_set" 50]) ∧
    (bee_unix_sub_scan msg_cmd_0704 = some (0x0704, 5) ∧
      (bee_unix_sub_task msg_cmd_0704 (World.boot [])).value 0x0704 = 5 ∧
      (handle_BEE_A55_PARAMS (Env.quiet 0 0) (bee_write_request 0x0704 5)
        (World.boot [])).value 0x0704 = 0) := by
  decide

/-- C6, amended: for every 12-bit address `a` outside the file-transfer block
`0x0701 .. 0x07FF`, every state and every datagram that `bee_unix_sub_task` reads as the
command `CMD a v`, handling the datagram and handling the dispatcher write of `v` to `a`
take the same access decision and end with the same registry values, the same hook
calls, the same `system` commands and the same `EVENT` datagrams. -/
theorem C6_ipc_vs_dispatcher (env : Env) (w : World) (msg : List Char) (a v : Nat)
    (hscan : bee_unix_sub_scan msg = some (a, v)) (ha : a < 4096)
    (hblock : ¬ (0x0701 ≤ a ∧ a ≤ 0x07FF)) :
    (bee_unix_sub_task msg w).value =
        (handle_BEE_A55_PARAMS env (bee_write_request a v) w).value ∧
      (bee_unix_sub_task msg w).hook_calls =
        (handle_BEE_A55_PARAMS env (bee_write_request a v) w).hook_calls ∧
      (bee_unix_sub_task msg w).sys_cmds =
        (handle_BEE_A55_PARAMS env (bee_write_request a v) w).sys_cmds ∧
      (bee_unix_sub_task msg w).outbox.filter Datagram.is_event =
        (handle_BEE_A55_PARAMS env (bee_write_request a v) w).outbox.filter
          Datagram.is_event := by
  have hv := (bee_unix_sub_scan_lt hscan).2
  have hfb : in_file_block a = false := by
    cases h : in_file_block a with
    | false => rfl
    | true => exact absurd ((in_file_block_iff a (by omega)).mp h) hblock
  have hval := bee_write_request_value a v hv
  have hlen : (bee_write_request a v).length = 6 := by simp [bee_write_request, bee_request]
  have hd : handle_BEE_A55_PARAMS env (bee_write_request a v) w =
      handle_BEE_RW_common env (bee_write_request a v) a 0 w :=
    handle_BEE_A55_PARAMS_request env w 0 a _ (by decide) ha hfb
  rw [hd]
  simp only [bee_unix_sub_task, hscan, bee_unix_sub_apply]
  cases hp : bee_param_lookup a with
  | none => simp [handle_BEE_RW_common, hp, csp_buffer_free]
  | some p =>
    by_cases hacc : p.access &&& BEE_ACCESS_W = 0
    · simp [handle_BEE_RW_common, hp, hacc, csp_buffer_free]
    · rw [handle_BEE_RW_common_write env _ w hp hacc (by omega), hval]
      have hs := send_or_free_frame env (bee_write_request a v)
        (call_on_write p a v { w with value := set_value w.value a v })
      have hpp := bee_unix_pub_param_frame a v (bee_sqlite_update_value a v
        (call_on_write p a v { w with value := set_value w.value a v }))
      have hsq := bee_sqlite_update_value_frame a v
        (call_on_write p a v { w with value := set_value w.value a v })
      simp only [hacc, ne_eq, not_false_eq_true, if_true, bee_param_lookup_addr hp]
      rw [hs.1, hs.2.2.2.2.1, hs.2.2.2.2.2.1, hs.2.2.2.2.2.2.2.1]
      rw [hpp.1, hpp.2.1, hpp.2.2.1, hpp.2.2.2.2, hsq.1, hsq.2.1, hsq.2.2.1, hsq.2.2.2.1]
      exact ⟨rfl, rfl, rfl, rfl⟩

/-- Witness of C6: the datagram `CMD 0130 32` against the dispatcher write of 50 to
`0x0130`. -/
theorem C6_ipc_vs_dispatcher_witness :
    (bee_unix_sub_task msg_cmd_0130 (World.boot [])).value =
        (handle_BEE_A55_PARAMS (Env.quiet 0 0) (bee_write_request 0x0130 50)
          (World.boot [])).value ∧
      (bee_unix_sub_task msg_cmd_0130 (World.boot [])).hook_calls =
        (handle_BEE_A55_PARAMS (Env.quiet 0 0) (bee_write_request 0x0130 50)
          (World.boot [])).hook_calls ∧
      (bee_unix_sub_task msg_cmd_0130 (World.boot [])).sys_cmds =
        (handle_BEE_A55_PARAMS (Env.quiet 0 0) (bee_write_request 0x0130 50)
          (World.boot [])).sys_cmds ∧
      (bee_unix_sub_task msg_cmd_0130 (World.boot [])).outbox.filter Datagram.is_event =
        (handle_BEE_A55_PARAMS (Env.quiet 0 0) (bee_write_request 0x0130 50)
          (World.boot [])).outbox.filter Datagram.is_event :=
  C6_ipc_vs_dispatcher (Env.quiet 0 0) (World.boot []) msg_cmd_0130 0x0130 50
    (by decide) (by decide) (by decide)

/-! ## Pull cycle -/

/-- One row of the pull loop touches only the entry of its own address, and the hook calls
it adds are for that address. -/
theorem bee_sqlite_update_row_frame (w : World) (row : Nat × Int) :
    (∀ x, x ≠ column_addr row → (bee_sqlite_update_row w row).value x = w.value x) ∧
      ∃ calls, (bee_sqlite_update_row w row).hook_calls = w.hook_calls ++ calls ∧
        ∀ c ∈ calls, c.1 = column_addr row := by
  unfold bee_sqlite_update_row
  simp only
  by_cases hts : column_addr row = 0x0100
  · simp only [hts, if_true]
    exact ⟨fun _ _ => trivial, [], by simp, by simp⟩
  · simp only [hts, if_false]
    cases hp : bee_param_lookup (column_addr row) with
    | none => exact ⟨fun _ _ => rfl, [], by simp, by simp⟩
    | some p =>
      simp only [bee_param_lookup_addr hp]
      by_cases hne : w.value (column_addr row) = column_val row
      · simp only [hne, ne_eq, not_true_eq_false, if_false]
        exact ⟨fun _ _ => trivial, [], by simp, by simp⟩
      · simp only [hne, ne_eq, not_false_eq_true, if_true]
        have hf := call_on_write_frame hp (column_val row)
          { w with value := set_value w.value (column_addr row) (column_val row) }
        refine ⟨?_, _, hf.2.2.2.2.2.2.2, ?_⟩
        · intro x hx
          rw [hf.1]
          split <;> simp [set_value, hx]
        · intro c hc
          split at hc <;> simp at hc
          rw [hc]

/-- One row of the pull loop for a registered address other than time-sync: the hook is
called when the value differs and a hook is present, and the entry ends with the row value
unless a capture trigger cleared itself. -/
theorem bee_sqlite_update_row_hit (w : World) (row : Nat × Int) {p : bee_param_t}
    (hts : column_addr row ≠ 0x0100) (hp : bee_param_lookup (column_addr row) = some p) :
    (bee_sqlite_update_row w row).hook_calls =
        w.hook_calls ++ (if w.value (column_addr row) ≠ column_val row ∧ p.on_write.isSome
          then [(column_addr row, column_val row)] else []) ∧
      (bee_sqlite_update_row w row).value (column_addr row) =
        (if w.value (column_addr row) ≠ column_val row ∧ column_val row = 1 ∧
            (column_addr row = 0x0521 ∨ column_addr row = 0x0522) then 0
          else column_val row) := by
  unfold bee_sqlite_update_row
  simp only [hts, if_false, hp, bee_param_lookup_addr hp]
  by_cases hne : w.value (column_addr row) = column_val row
  · simp [hne]
  · simp only [hne, ne_eq, not_false_eq_true, if_true, true_and]
    have hf := call_on_write_frame hp (column_val row)
      { w with value := set_value w.value (column_addr row) (column_val row) }
    refine ⟨hf.2.2.2.2.2.2.2, ?_⟩
    rw [hf.1]
    split <;> simp [set_value]

/-- Rows of other addresses leave an entry and its hook alone. -/
theorem bee_sqlite_update_rows_frame (l : List (Nat × Int)) (w : World) (a : Nat)
    (hl : ∀ r ∈ l, column_addr r ≠ a) :
    (l.foldl bee_sqlite_update_row w).value a = w.value a ∧
      ∃ calls, (l.foldl bee_sqlite_update_row w).hook_calls = w.hook_calls ++ calls ∧
        ∀ c ∈ calls, c.1 ≠ a := by
  induction l generalizing w with
  | nil => exact ⟨rfl, [], by simp, by simp⟩
  | cons r l ih =>
    have hr : column_addr r ≠ a := hl r (List.mem_cons_self _ _)
    have hl2 : ∀ r2 ∈ l, column_addr r2 ≠ a := fun r2 h2 => hl r2 (List.mem_cons_of_mem _ h2)
    obtain ⟨hv, calls2, hc2, hk2⟩ := ih (bee_sqlite_update_row w r) hl2
    obtain ⟨hv1, calls1, hc1, hk1⟩ := bee_sqlite_update_row_frame w r
    refine ⟨?_, calls1 ++ calls2, ?_, ?_⟩
    · rw [List.foldl_cons, hv, hv1 a (Ne.symm hr)]
    · rw [List.foldl_cons, hc2, hc1, List.append_assoc]
    · intro c hc
      rcases List.mem_append.mp hc with h | h
      · rw [hk1 c h]; exact hr
      · exact hk2 c h

/-- A row of a store with one row per address splits the rows into those before and those
after it, all of other addresses. -/
theorem db_split_at {db : List (Nat × Int)} (hkeys : (db.map column_addr).Nodup)
    {row : Nat × Int} (hrow : row ∈ db) :
    ∃ s t, db = s ++ row :: t ∧ (∀ r ∈ s, column_addr r ≠ column_addr row) ∧
      (∀ r ∈ t, column_addr r ≠ column_addr row) := by
  obtain ⟨s, t, hst⟩ := List.append_of_mem hrow
  refine ⟨s, t, hst, ?_, ?_⟩
  · intro r hr heq
    rw [hst, List.map_append, List.map_cons] at hkeys
    have hd := (List.nodup_append.mp hkeys).2.2
    exact hd (List.mem_map_of_mem column_addr hr) (by rw [heq]; exact List.mem_cons_self _ _)
  · intro r hr heq
    rw [hst, List.map_append, List.map_cons] at hkeys
    have hn := (List.nodup_cons.mp (List.nodup_append.mp hkeys).2.1).1
    exact hn (by rw [← heq]; exact List.mem_map_of_mem column_addr hr)

/-- The pull cycle seen from one row of a store with one row per address. -/
theorem bee_sqlite_update_task_row (w : World) (hok : w.db_ok = true)
    (hkeys : (w.db.map column_addr).Nodup) (row : Nat × Int) (hrow : row ∈ w.db)
    {p : bee_param_t} (hts : column_addr row ≠ 0x0100)
    (hp : bee_param_lookup (column_addr row) = some p) :
    (bee_sqlite_update_task w).value (column_addr row) =
        (if w.value (column_addr row) ≠ column_val row ∧ column_val row = 1 ∧
            (column_addr row = 0x0521 ∨ column_addr row = 0x0522) then 0
          else column_val row) ∧
      ∃ before after, (bee_sqlite_update_task w).hook_calls =
          w.hook_calls ++ (before ++
            (if w.value (column_addr row) ≠ column_val row ∧ p.on_write.isSome
              then [(column_addr row, column_val row)] else []) ++ after) ∧
        (∀ c ∈ before, c.1 ≠ column_addr row) ∧ (∀ c ∈ after, c.1 ≠ column_addr row) := by
  obtain ⟨s, t, hst, hs, ht⟩ := db_split_at hkeys hrow
  obtain ⟨hv1, c1, hc1, hk1⟩ := bee_sqlite_update_rows_frame s w _ hs
  obtain ⟨hc2, hv2⟩ := bee_sqlite_update_row_hit (s.foldl bee_sqlite_update_row w) row hts hp
  obtain ⟨hv3, c3, hc3, hk3⟩ := bee_sqlite_update_rows_frame t
    (bee_sqlite_update_row (s.foldl bee_sqlite_update_row w) row) _ ht
  have hfinal : bee_sqlite_update_task w =
      t.foldl bee_sqlite_update_row (bee_sqlite_update_row (s.foldl bee_sqlite_update_row w) row) := by
    simp [bee_sqlite_update_task, hok, hst, List.foldl_append]
  rw [hfinal]
  refine ⟨?_, c1, c3, ?_, hk1, hk3⟩
  · rw [hv3, hv2, hv1]
  · rw [hc3, hc2, hc1, hv1]
    simp [List.append_assoc]

/-- Counterexample to C7 as stated, the witness of the claim itself: the store holds the
row `(0x0521, 1)` and the registry holds 0 at `0x0521`; after one pull cycle the capture
hook has run once and the registry holds 0 at `0x0521`, not 1. -/
theorem C7_pull_cycle_values_counterexample :
    (World.boot [(0x0521, 1)]).value 0x0521 = 0 ∧
      (bee_param_lookup 0x0521).isSome = true ∧
      (bee_sqlite_update_task (World.boot [(0x0521, 1)])).hook_calls = [(0x0521, 1)] ∧
      (bee_sqlite_update_task (World.boot [(0x0521, 1)])).value 0x0521 = 0 := by
  decide

/-- C7, amended: for every registry state and every reachable store with one row per
address, after one pull cycle every registered address other than time-sync `0x0100` that
has a row holds the value of that row, except a capture trigger `0x0521`/`0x0522` whose
row value is 1: such a trigger, when it did not hold 1 already, holds 0 after the cycle
because its hook clears it. -/
theorem C7_pull_cycle_values (w : World) (hok : w.db_ok = true)
    (hkeys : (w.db.map column_addr).Nodup) (row : Nat × Int) (hrow : row ∈ w.db)
    (p : bee_param_t) (hts : column_addr row ≠ 0x0100)
    (hp : bee_param_lookup (column_addr row) = some p) :
    (¬ (column_val row = 1 ∧ (column_addr row = 0x0521 ∨ column_addr row = 0x0522)) →
        (bee_sqlite_update_task w).value (column_addr row) = column_val row) ∧
      (column_val row = 1 ∧ (column_addr row = 0x0521 ∨ column_addr row = 0x0522) →
        w.value (column_addr row) ≠ 1 →
        (bee_sqlite_update_task w).value (column_addr row) = 0) := by
  have h := (bee_sqlite_update_task_row w hok hkeys row hrow hts hp).1
  constructor
  · intro hc
    rw [h, if_neg (fun hh => hc hh.2)]
  · intro hc hne
    rw [h, if_pos ⟨by rw [hc.1]; exact hne, hc⟩]

/-- Witness of C7: the store row `(0x0130, 50)` over the boot registry. -/
theorem C7_pull_cycle_values_witness :
    (¬ (column_val (0x0130, 50) = 1 ∧
          (column_addr (0x0130, 50) = 0x0521 ∨ column_addr (0x0130, 50) = 0x0522)) →
        (bee_sqlite_update_task (World.boot [(0x0130, 50)])).value (column_addr (0x0130, 50)) =
          column_val (0x0130, 50)) ∧
      (column_val (0x0130, 50) = 1 ∧
          (column_addr (0x0130, 50) = 0x0521 ∨ column_addr (0x0130, 50) = 0x0522) →
        (World.boot [(0x0130, 50)]).value (column_addr (0x0130, 50)) ≠ 1 →
        (bee_sqlite_update_task (World.boot [(0x0130, 50)])).value (column_addr (0x0130, 50)) =
          0) :=
  C7_pull_cycle_values (World.boot [(0x0130, 50)]) rfl (by decide) (0x0130, 50) (by decide)
    ⟨0x0130, "htr_0_set", 0, BEE_ACCESS_RW, none, some htr_0_write⟩ (by decide) (by decide)

/-- C8: in one pull cycle over a reachable store with one row per address, for each row
whose address is registered and is not time-sync `0x0100`: when the row value differs from
the registry value and the entry has an `on_write` hook, the hook calls of the cycle
contain the call (address, row value) exactly once and no other call for that address;
when the row value equals the registry value, the cycle makes no hook call for that
address and leaves the entry as it was. -/
theorem C8_pull_cycle_hooks (w : World) (hok : w.db_ok = true)
    (hkeys : (w.db.map column_addr).Nodup) (row : Nat × Int) (hrow : row ∈ w.db)
    (p : bee_param_t) (hts : column_addr row ≠ 0x0100)
    (hp : bee_param_lookup (column_addr row) = some p) :
    ∃ calls, (bee_sqlite_update_task w).hook_calls = w.hook_calls ++ calls ∧
      (w.value (column_addr row) ≠ column_val row → p.on_write.isSome = true →
        calls.count (column_addr row, column_val row) = 1 ∧
        ∀ c ∈ calls, c.1 = column_addr row → c = (column_addr row, column_val row)) ∧
      (w.value (column_addr row) = column_val row →
        (∀ c ∈ calls, c.1 ≠ column_addr row) ∧
        (bee_sqlite_update_task w).value (column_addr row) = w.value (column_addr row)) := by
  obtain ⟨hv, before, after, hc, hb, ha⟩ :=
    bee_sqlite_update_task_row w hok hkeys row hrow hts hp
  refine ⟨_, hc, ?_, ?_⟩
  · intro hne hhook
    rw [if_pos ⟨hne, hhook⟩]
    constructor
    · have h1 : before.count (column_addr row, column_val row) = 0 :=
        List.count_eq_zero.mpr (fun hm => hb _ hm rfl)
      have h2 : after.count (column_addr row, column_val row) = 0 :=
        List.count_eq_zero.mpr (fun hm => ha _ hm rfl)
      simp [List.count_append, h1, h2]
    · intro c hmem hk
      simp only [List.mem_append, List.mem_singleton] at hmem
      rcases hmem with (h | h) | h
      · exact absurd hk (hb c h)
      · exact h
      · exact absurd hk (ha c h)
  · intro heq
    constructor
    · intro c hmem
      simp only [heq, ne_eq, not_true_eq_false, false_and, if_false, List.append_nil,
        List.mem_append] at hmem
      rcases hmem with h | h
      · exact hb c h
      · exact ha c h
    · rw [hv, heq]
      simp

/-- Witness of C8: the store rows `(0x0130, 50)` and `(0x0200, 0)` over the boot registry;
the first differs from the registry, the second equals it. -/
theorem C8_pull_cycle_hooks_witness :
    ∃ calls, (bee_sqlite_update_task (World.boot [(0x0130, 50), (0x0200, 0)])).hook_calls =
        (World.boot [(0x0130, 50), (0x0200, 0)]).hook_calls ++ calls ∧
      ((World.boot [(0x0130, 50), (0x0200, 0)]).value (column_addr (0x0130, 50)) ≠
          column_val (0x0130, 50) →
        (some htr_0_write).isSome = true →
        calls.count (column_addr (0x0130, 50), column_val (0x0130, 50)) = 1 ∧
        ∀ c ∈ calls, c.1 = column_addr (0x0130, 50) →
          c = (column_addr (0x0130, 50), column_val (0x0130, 50))) ∧
      ((World.boot [(0x0130, 50), (0x0200, 0)]).value (column_addr (0x0130, 50)) =
          column_val (0x0130, 50) →
        (∀ c ∈ calls, c.1 ≠ column_addr (0x0130, 50)) ∧
        (bee_sqlite_update_task (World.boot [(0x0130, 50), (0x0200, 0)])).value
          (column_addr (0x0130, 50)) =
          (World.boot [(0x0130, 50), (0x0200, 0)]).value (column_addr (0x0130, 50))) :=
  C8_pull_cycle_hooks (World.boot [(0x0130, 50), (0x0200, 0)]) rfl (by decide) (0x0130, 50)
    (by decide) ⟨0x0130, "htr_0_set", 0, BEE_ACCESS_RW, none, some htr_0_write⟩ (by decide)
    (by decide)

/-! ## Boot counter -/

/-- The integer bound for a 32-bit value is its residue modulo `2^32` in the range
`-2^31 .. 2^31 - 1`. -/
theorem int_of_uint32_eq_bmod (v : Nat) : int_of_uint32 v = Int.bmod (v : Int) 4294967296 := by
  unfold int_of_uint32 Int.bmod
  simp only [Int.ofNat_eq_coe]
  split_ifs <;> omega

/-- Reading back what was bound gives the 32-bit value again. -/
theorem uint32_of_column_int_of_uint32 (v : Nat) :
    uint32_of_column (int_of_uint32 v) = v % 4294967296 := by
  unfold uint32_of_column int_of_uint32
  simp only [Int.ofNat_eq_coe]
  split_ifs <;> omega

/-- Below `2^31` the signed 32-bit residue of a natural number is the number itself. -/
theorem bmod_small (x : Int) (h0 : 0 ≤ x) (h1 : x < 2147483648) :
    Int.bmod x 4294967296 = x := by
  unfold Int.bmod
  simp only
  split_ifs <;> omega

theorem boot_cnt_cast (z : Int) :
    (((uint32_of_column z + 1) % 4294967296 : Nat) : Int) = (z + 1) % 4294967296 := by
  unfold uint32_of_column
  omega

theorem boot_cnt_row (z : Int) :
    int_of_uint32 ((uint32_of_column z + 1) % 4294967296) = Int.bmod (z + 1) 4294967296 := by
  unfold uint32_of_column int_of_uint32 Int.bmod
  simp only [Int.ofNat_eq_coe]
  split_ifs <;> omega

theorem db_select_write_same (db : List (Nat × Int)) (k v : Nat) :
    db_select (bee_sqlite_write_param db k v) k = some (int_of_uint32 v) := by
  unfold db_select bee_sqlite_write_param
  have hnone : (db.filter (fun row => decide (row.1 ≠ k))).find? (fun row => row.1 == k) = none := by
    rw [List.find?_eq_none]
    intro x hx
    have := (List.mem_filter.mp hx).2
    simpa using this
  simp [List.find?_append, hnone]

theorem db_select_write_other (db : List (Nat × Int)) (k v k2 : Nat) (h : k2 ≠ k) :
    db_select (bee_sqlite_write_param db k v) k2 = db_select db k2 := by
  unfold db_select bee_sqlite_write_param
  have hf : (db.filter (fun row => decide (row.1 ≠ k))).find? (fun row => row.1 == k2) =
      db.find? (fun row => row.1 == k2) := by
    rw [List.find?_filter]
    congr 1
    funext row
    by_cases h2 : row.1 = k2
    · have h3 : ¬ row.1 = k := fun h3 => h (h2.symm.trans h3)
      simp [h3, h2, h]
    · simp [h2]
  have hk : ¬ k = k2 := fun h2 => h h2.symm
  rw [List.find?_append, hf]
  cases db.find? (fun row => row.1 == k2) <;> simp [hk]

/-- Counterexample to C9 as stated: the store holds the boot counter `2^31 - 1`; after the
boot update the entry `0x0601` holds `2^31`, but the store row holds `-2^31`, because the
counter is bound as an `int`. -/
theorem C9_boot_update_counterexample :
    db_select (World.boot [(0x0601, 2147483647)]).db 0x0601 = some 2147483647 ∧
      (bee_sqlite_boot_update (World.boot [(0x0601, 2147483647)])).value 0x0601 =
        2147483648 ∧
      db_select (bee_sqlite_boot_update (World.boot [(0x0601, 2147483647)])).db 0x0601 =
        some (-2147483648) := by
  decide

/-- C9, amended: after the boot update over a reachable store, the entry `0x0601` is
Read-only and holds the persisted boot counter plus 1 modulo `2^32`, and the store row
`0x0601` holds that number as a signed 32-bit integer. Without a row the counter counts as
0: entry and row hold 1. With a row holding the integer `z`, the entry holds
`(z + 1) mod 2^32` and the row holds the residue of `z + 1` modulo `2^32` that lies in
`-2^31 .. 2^31 - 1`; for a row holding `n` with `n + 1 < 2^31` both hold `n + 1`. No other
entry of the registry has changed. -/
theorem C9_boot_update (w : World) (hok : w.db_ok = true) :
    (bee_param_lookup 0x0601).map (fun p => p.access) = some BEE_ACCESS_R ∧
      (db_select w.db 0x0601 = none →
        (bee_sqlite_boot_update w).value 0x0601 = 1 ∧
          db_select (bee_sqlite_boot_update w).db 0x0601 = some 1) ∧
      (∀ z : Int, db_select w.db 0x0601 = some z →
        ((bee_sqlite_boot_update w).value 0x0601 : Int) = (z + 1) % 4294967296 ∧
          db_select (bee_sqlite_boot_update w).db 0x0601 =
            some (Int.bmod (z + 1) 4294967296)) ∧
      (∀ n : Nat, n + 1 < 2147483648 → db_select w.db 0x0601 = some (n : Int) →
        (bee_sqlite_boot_update w).value 0x0601 = n + 1 ∧
          db_select (bee_sqlite_boot_update w).db 0x0601 = some ((n : Int) + 1)) ∧
      ∀ a, a ≠ 0x0601 → (bee_sqlite_boot_update w).value a = w.value a := by
  have hl : bee_param_lookup 0x0601 = some ⟨0x0601, "boot_cnt", 0, BEE_ACCESS_R, none, none⟩ := by
    decide
  have hv : (bee_sqlite_boot_update w).value 0x0601 =
      (persisted_boot_cnt w.db + 1) % 4294967296 := by
    simp [bee_sqlite_boot_update, hok, hl, set_value]
  have hd : db_select (bee_sqlite_boot_update w).db 0x0601 =
      some (int_of_uint32 ((persisted_boot_cnt w.db + 1) % 4294967296)) := by
    simp [bee_sqlite_boot_update, hok, hl, db_select_write_same]
  have hz : ∀ z : Int, db_select w.db 0x0601 = some z →
      ((bee_sqlite_boot_update w).value 0x0601 : Int) = (z + 1) % 4294967296 ∧
        db_select (bee_sqlite_boot_update w).db 0x0601 =
          some (Int.bmod (z + 1) 4294967296) := by
    intro z hsel
    have hp : persisted_boot_cnt w.db = uint32_of_column z := by
      simp [persisted_boot_cnt, hsel]
    rw [hv, hd, hp, boot_cnt_cast, boot_cnt_row]
    exact ⟨rfl, rfl⟩
  refine ⟨by rw [hl]; rfl, ?_, hz, ?_, ?_⟩
  · intro hsel
    have hp : persisted_boot_cnt w.db = 0 := by
      simp [persisted_boot_cnt, hsel]
    rw [hv, hd, hp]
    exact ⟨by decide, by decide⟩
  · intro n hn hsel
    obtain ⟨h1, h2⟩ := hz n hsel
    have hb : Int.bmod ((n : Int) + 1) 4294967296 = (n : Int) + 1 :=
      bmod_small _ (by omega) (by omega)
    rw [hb] at h2
    exact ⟨by omega, h2⟩
  · intro a ha
    simp [bee_sqlite_boot_update, hok, hl, set_value, ha]

/-- Witness of C9: the store holds boot counter 41; after the update entry and row hold 42. -/
theorem C9_boot_update_witness :
    (bee_sqlite_boot_update (World.boot [(0x0601, 41)])).value 0x0601 = 42 ∧
      db_select (bee_sqlite_boot_update (World.boot [(0x0601, 41)])).db 0x0601 = some 42 :=
  (C9_boot_update (World.boot [(0x0601, 41)]) rfl).2.2.2.1 41 (by decide) (by decide)

/-! ## File transfer: load next file -/

/-- Counterexample to C10 as stated: registry and store both hold counter 7 and the
command with no payload is handled twice, the script exiting with status 0. After the
first call the store holds 8 while the registry entry still holds 7; the second call then
passes file id 7 to the script, not the persisted 8, and leaves the persisted counter at
8, not 9. -/
theorem C10_load_next_file_counterexample :
    db_select (fs_handle_cmd (Env.quiet 0 0) 0x0704 none World.counter7).2.2.db 0x0704 =
        some 8 ∧
      (fs_handle_cmd (Env.quiet 0 0) 0x0704 none World.counter7).2.2.value 0x0704 = 7 ∧
      (fs_handle_cmd (Env.quiet 0 0) 0x0704 none
        (fs_handle_cmd (Env.quiet 0 0) 0x0704 none World.counter7).2.2).2.2.execs =
        [["python3", "/data/.a55_src/scripts/python_exec.py", "0704", "7", "512"],
          ["python3", "/data/.a55_src/scripts/python_exec.py", "0704", "7", "512"]] ∧
      db_select (fs_handle_cmd (Env.quiet 0 0) 0x0704 none
        (fs_handle_cmd (Env.quiet 0 0) 0x0704 none World.counter7).2.2).2.2.db 0x0704 =
        some 8 := by
  decide

/-- C10, amended: for every state with a reachable store, the load-next-file command
`0x0704` with no payload (or one shorter than 4 bytes) spawns the script with the file id
held by the registry entry `0x0704` and the chunk size held by `0x0700`; when the script
exits with status 0 the result code is 0 and the store row `0x0704` becomes that file id
plus 1 modulo `2^32`, held as a signed 32-bit integer: the residue of the id plus 1 modulo
`2^32` that lies in `-2^31 .. 2^31 - 1`, which is the id plus 1 itself when that is below
`2^31`. -/
theorem C10_load_next_file (env : Env) (w : World) (inp : Option (List Nat))
    (hok : w.db_ok = true) (hinp : ∀ bytes, inp = some bytes → bytes.length < 4)
    (hpipe : (env.script (load_next_argv (w.value 0x0704) (w.value 0x0700))).pipe_ok = true)
    (hfork : (env.script (load_next_argv (w.value 0x0704) (w.value 0x0700))).fork_ok = true)
    (hexit : (env.script (load_next_argv (w.value 0x0704) (w.value 0x0700))).status =
      .exited 0) :
    (fs_handle_cmd env 0x0704 inp w).2.2.execs =
        w.execs ++ [load_next_argv (w.value 0x0704) (w.value 0x0700)] ∧
      (fs_handle_cmd env 0x0704 inp w).1 = 0 ∧
      db_select (fs_handle_cmd env 0x0704 inp w).2.2.db 0x0704 =
        some (Int.bmod ((w.value 0x0704 : Int) + 1) 4294967296) ∧
      (w.value 0x0704 + 1 < 2147483648 →
        db_select (fs_handle_cmd env 0x0704 inp w).2.2.db 0x0704 =
          some ((w.value 0x0704 : Int) + 1)) := by
  have hrow : int_of_uint32 ((w.value 0x0704 + 1) % 4294967296) =
      Int.bmod ((w.value 0x0704 : Int) + 1) 4294967296 := by
    unfold int_of_uint32 Int.bmod
    simp only [Int.ofNat_eq_coe]
    split_ifs <;> omega
  have hsmall : w.value 0x0704 + 1 < 2147483648 →
      Int.bmod ((w.value 0x0704 : Int) + 1) 4294967296 = (w.value 0x0704 : Int) + 1 := by
    intro h
    exact bmod_small _ (by omega) (by omega)
  have h0 : bee_param_lookup 0x0700 =
      some ⟨0x0700, "data_size_config", 512, BEE_ACCESS_RW, none, some cb_data_size_cfg_write⟩ := by
    decide
  have h4 : bee_param_lookup 0x0704 =
      some ⟨0x0704, "load_next_file_counter", 0, BEE_ACCESS_RW, none, none⟩ := by
    decide
  have hin : in_be32 inp = none := by
    unfold in_be32
    cases inp with
    | none => rfl
    | some bytes =>
      have := hinp bytes rfl
      simp only
      rw [if_neg (by omega)]
  have hargv : ["python3", PYTHON_EXEC_PATH, fmt_04X 0x0704] ++
      (some (fmt_u (w.value 0x0704))).toList ++ (some (fmt_u (w.value 0x0700))).toList =
      load_next_argv (w.value 0x0704) (w.value 0x0700) := rfl
  have hsel : db_select (fs_handle_cmd env 0x0704 inp w).2.2.db 0x0704 =
      some (int_of_uint32 ((w.value 0x0704 + 1) % 4294967296)) := by
    simp only [fs_handle_cmd, hin, param_value_or, h0, h4, exec_table7, hargv,
      bee_sqlite_update_value, hok, hpipe, hfork, hexit]
    simp [db_select_write_same]
  refine ⟨?_, ?_, by rw [hsel, hrow], fun h => by rw [hsel, hrow, hsmall h]⟩
  · simp only [fs_handle_cmd, hin, param_value_or, h0, h4, exec_table7, hargv,
      bee_sqlite_update_value, hok, hpipe, hfork, hexit]
    simp
  · simp only [fs_handle_cmd, hin, param_value_or, h0, h4, exec_table7, hargv,
      bee_sqlite_update_value, hok, hpipe, hfork, hexit]
    simp

/-- Witness of C10: registry and store both hold counter 7, the script exits with status
0: file id 7 is passed and the persisted counter becomes 8. -/
theorem C10_load_next_file_witness :
    (fs_handle_cmd (Env.quiet 0 0) 0x0704 none World.counter7).2.2.execs =
        [["python3", "/data/.a55_src/scripts/python_exec.py", "0704", "7", "512"]] ∧
      (fs_handle_cmd (Env.quiet 0 0) 0x0704 none World.counter7).1 = 0 ∧
      db_select (fs_handle_cmd (Env.quiet 0 0) 0x0704 none World.counter7).2.2.db 0x0704 =
        some 8 :=
  have h := C10_load_next_file (Env.quiet 0 0) World.counter7 none rfl (by simp) rfl rfl rfl
  ⟨h.1, h.2.1, h.2.2.2 (by decide)⟩

/-! ## File transfer: the counter after a failed or a successful load -/

theorem bee_param_lookup_0700 : bee_param_lookup 0x0700 =
    some ⟨0x0700, "data_size_config", 512, BEE_ACCESS_RW, none, some cb_data_size_cfg_write⟩ := by
  decide

theorem bee_param_lookup_0704 : bee_param_lookup 0x0704 =
    some ⟨0x0704, "load_next_file_counter", 0, BEE_ACCESS_RW, none, none⟩ := by
  decide

/-- The script executor changes nothing but the log of spawns. -/
theorem exec_table7_frame (env : Env) (addr : Nat) (arg1 arg2 : Option String) (w : World) :
    (exec_table7 env addr arg1 arg2 w).2.2.value = w.value ∧
      (exec_table7 env addr arg1 arg2 w).2.2.db = w.db ∧
      (exec_table7 env addr arg1 arg2 w).2.2.db_ok = w.db_ok ∧
      (exec_table7 env addr arg1 arg2 w).2.2.hook_calls = w.hook_calls ∧
      (exec_table7 env addr arg1 arg2 w).2.2.outbox = w.outbox ∧
      (exec_table7 env addr arg1 arg2 w).2.2.sys_cmds = w.sys_cmds ∧
      (exec_table7 env addr arg1 arg2 w).2.2.sends = w.sends ∧
      (exec_table7 env addr arg1 arg2 w).2.2.frees = w.frees := by
  unfold exec_table7
  simp only
  split_ifs
  · simp
  · simp
  · split <;> simp

/-- The load-next-file command unfolded: persist the file id, spawn, and persist the id
plus one when the result code is 0. -/
theorem fs_handle_cmd_0704 (env : Env) (inp : Option (List Nat)) (w : World) :
    fs_handle_cmd env 0x0704 inp w =
      (if (exec_table7 env 0x0704 (some (fmt_u (load_next_file_id inp w)))
            (some (fmt_u (w.value 0x0700)))
            (bee_sqlite_update_value 0x0704 (load_next_file_id inp w) w)).1 = 0 then
        ((exec_table7 env 0x0704 (some (fmt_u (load_next_file_id inp w)))
            (some (fmt_u (w.value 0x0700)))
            (bee_sqlite_update_value 0x0704 (load_next_file_id inp w) w)).1,
          (exec_table7 env 0x0704 (some (fmt_u (load_next_file_id inp w)))
            (some (fmt_u (w.value 0x0700)))
            (bee_sqlite_update_value 0x0704 (load_next_file_id inp w) w)).2.1,
          bee_sqlite_update_value 0x0704 ((load_next_file_id inp w + 1) % 4294967296)
            (exec_table7 env 0x0704 (some (fmt_u (load_next_file_id inp w)))
              (some (fmt_u (w.value 0x0700)))
              (bee_sqlite_update_value 0x0704 (load_next_file_id inp w) w)).2.2)
      else exec_table7 env 0x0704 (some (fmt_u (load_next_file_id inp w)))
        (some (fmt_u (w.value 0x0700)))
        (bee_sqlite_update_value 0x0704 (load_next_file_id inp w) w)) := by
  have hid : (match in_be32 inp with
      | some v => v
      | none => param_value_or 0x0704 0 w) = load_next_file_id inp w := by
    unfold load_next_file_id param_value_or
    rw [bee_param_lookup_0704]
    cases in_be32 inp <;> rfl
  have hch : param_value_or 0x0700 512 w = w.value 0x0700 := by
    unfold param_value_or
    rw [bee_param_lookup_0700]
  simp only [fs_handle_cmd, hid, hch]
  simp

/-- The result code of one spawn is 0 exactly when the script did not fail. -/
theorem exec_table7_rc (env : Env) (addr : Nat) (arg1 arg2 : Option String) (w : World) :
    ((exec_table7 env addr arg1 arg2 w).1 = 0 ↔
      script_failed (env.script (["python3", PYTHON_EXEC_PATH, fmt_04X addr] ++ arg1.toList ++
        arg2.toList)) = false) := by
  unfold exec_table7 script_failed
  simp only
  cases hp : (env.script (["python3", PYTHON_EXEC_PATH, fmt_04X addr] ++ arg1.toList ++
    arg2.toList)).pipe_ok <;>
  cases hf : (env.script (["python3", PYTHON_EXEC_PATH, fmt_04X addr] ++ arg1.toList ++
    arg2.toList)).fork_ok <;>
  cases hs : (env.script (["python3", PYTHON_EXEC_PATH, fmt_04X addr] ++ arg1.toList ++
    arg2.toList)).status <;> simp
  omega

theorem load_next_file_id_short (inp : Option (List Nat)) (w : World)
    (hinp : ∀ bytes, inp = some bytes → bytes.length < 4) :
    load_next_file_id inp w = w.value 0x0704 := by
  unfold load_next_file_id in_be32
  cases inp with
  | none => rfl
  | some bytes =>
    have := hinp bytes rfl
    simp only
    rw [if_neg (by omega)]
    rfl

/-- Counterexample to C11 as stated, the script exiting with status 1. With registry and
store both at 7 and the payload carrying file id 3, the persisted counter is 3 afterwards.
With the store at 7, the registry entry at 0 and no payload, the persisted counter is 0
afterwards. With registry and store both at 7 and the payload `FF FF FF FF`, the row holds
-1 afterwards. -/
theorem C11_failed_load_counter_counterexample :
    (db_select World.counter7.db 0x0704 = some 7 ∧
      (fs_handle_cmd (Env.quiet 0 1) 0x0704 (some [0, 0, 0, 3]) World.counter7).1 = 1 ∧
      db_select (fs_handle_cmd (Env.quiet 0 1) 0x0704 (some [0, 0, 0, 3])
        World.counter7).2.2.db 0x0704 = some 3) ∧
    (db_select (World.boot [(0x0704, 7)]).db 0x0704 = some 7 ∧
      (fs_handle_cmd (Env.quiet 0 1) 0x0704 none (World.boot [(0x0704, 7)])).1 = 1 ∧
      db_select (fs_handle_cmd (Env.quiet 0 1) 0x0704 none
        (World.boot [(0x0704, 7)])).2.2.db 0x0704 = some 0) ∧
    ((fs_handle_cmd (Env.quiet 0 1) 0x0704 (some [255, 255, 255, 255]) World.counter7).1 = 1 ∧
      db_select (fs_handle_cmd (Env.quiet 0 1) 0x0704 (some [255, 255, 255, 255])
        World.counter7).2.2.db 0x0704 = some (-1)) := by
  decide

/-- C11, amended: whenever a load-next-file command over a reachable store ends with the
script not exiting with status 0 (pipe or fork failure, abnormal end, non-zero status),
the result code is not 0 and the store is the old one with row `0x0704` set to the file
id used for the call, the payload's id or else the value of registry entry `0x0704`; the
id plus one is not written. The row holds the id as a signed 32-bit integer, the residue
of the id modulo `2^32` that lies in `-2^31 .. 2^31 - 1`, which is the id itself below
`2^31`. The persisted counter is therefore the same as before exactly when the row held
that integer already. -/
theorem C11_failed_load_counter (env : Env) (w : World) (inp : Option (List Nat))
    (hok : w.db_ok = true)
    (hfail : script_failed (env.script
      (load_next_argv (load_next_file_id inp w) (w.value 0x0700))) = true) :
    (fs_handle_cmd env 0x0704 inp w).1 ≠ 0 ∧
      (fs_handle_cmd env 0x0704 inp w).2.2.db =
        bee_sqlite_write_param w.db 0x0704 (load_next_file_id inp w) ∧
      db_select (fs_handle_cmd env 0x0704 inp w).2.2.db 0x0704 =
        some (Int.bmod (load_next_file_id inp w : Int) 4294967296) ∧
      (load_next_file_id inp w < 2147483648 →
        db_select (fs_handle_cmd env 0x0704 inp w).2.2.db 0x0704 =
          some (load_next_file_id inp w : Int)) ∧
      (db_select (fs_handle_cmd env 0x0704 inp w).2.2.db 0x0704 = db_select w.db 0x0704 ↔
        db_select w.db 0x0704 = some (Int.bmod (load_next_file_id inp w : Int) 4294967296)) := by
  have hrc := exec_table7_rc env 0x0704 (some (fmt_u (load_next_file_id inp w)))
    (some (fmt_u (w.value 0x0700)))
    (bee_sqlite_update_value 0x0704 (load_next_file_id inp w) w)
  have hargv : ["python3", PYTHON_EXEC_PATH, fmt_04X 0x0704] ++
      (some (fmt_u (load_next_file_id inp w))).toList ++
      (some (fmt_u (w.value 0x0700))).toList =
      load_next_argv (load_next_file_id inp w) (w.value 0x0700) := rfl
  rw [hargv, hfail] at hrc
  have hne : ¬ (exec_table7 env 0x0704 (some (fmt_u (load_next_file_id inp w)))
      (some (fmt_u (w.value 0x0700)))
      (bee_sqlite_update_value 0x0704 (load_next_file_id inp w) w)).1 = 0 := by
    intro h
    have := hrc.mp h
    cases this
  have hdb : (fs_handle_cmd env 0x0704 inp w).2.2.db =
      bee_sqlite_write_param w.db 0x0704 (load_next_file_id inp w) := by
    rw [fs_handle_cmd_0704, if_neg hne, (exec_table7_frame _ _ _ _ _).2.1]
    simp [bee_sqlite_update_value, hok]
  refine ⟨?_, hdb, ?_, ?_, ?_⟩
  · rw [fs_handle_cmd_0704, if_neg hne]
    exact hne
  · rw [hdb, db_select_write_same, int_of_uint32_eq_bmod]
  · intro h
    rw [hdb, db_select_write_same, int_of_uint32_eq_bmod,
      bmod_small _ (Int.ofNat_nonneg _) (by omega)]
  · rw [hdb, db_select_write_same, int_of_uint32_eq_bmod]
    exact eq_comm

/-- Witness of C11: registry and store both hold 7, no payload, the script exits with
status 1: the result code is 1 and the persisted counter is 7 afterwards, as before. -/
theorem C11_failed_load_counter_witness :
    (fs_handle_cmd (Env.quiet 0 1) 0x0704 none World.counter7).1 ≠ 0 ∧
      db_select (fs_handle_cmd (Env.quiet 0 1) 0x0704 none World.counter7).2.2.db 0x0704 =
        some 7 ∧
      db_select World.counter7.db 0x0704 = some 7 :=
  have h := C11_failed_load_counter (Env.quiet 0 1) World.counter7 none rfl (by decide)
  ⟨h.1, h.2.2.2.1 (by decide), by decide⟩

theorem bee_sqlite_update_value_db (a v : Nat) (w : World) (hok : w.db_ok = true) :
    (bee_sqlite_update_value a v w).db = bee_sqlite_write_param w.db a v := by
  simp [bee_sqlite_update_value, hok]

/-- Writing a row with a 16-bit key into a store with 16-bit keys and one row per address
gives such a store again. -/
theorem bee_sqlite_write_param_keys (db : List (Nat × Int)) (k v : Nat) (hk : k < 65536)
    (h16 : ∀ row ∈ db, row.1 < 65536) (hkeys : (db.map column_addr).Nodup) :
    (∀ row ∈ bee_sqlite_write_param db k v, row.1 < 65536) ∧
      ((bee_sqlite_write_param db k v).map column_addr).Nodup := by
  unfold bee_sqlite_write_param
  constructor
  · intro row hrow
    rcases List.mem_append.mp hrow with h | h
    · exact h16 row (List.mem_filter.mp h).1
    · simp only [List.mem_singleton] at h
      rw [h]
      exact hk
  · rw [List.map_append, List.nodup_append]
    refine ⟨hkeys.sublist (List.Sublist.map _ (List.filter_sublist _)), by simp, ?_⟩
    intro x hx1 hx2
    simp only [List.map_cons, List.map_nil, List.mem_singleton] at hx2
    obtain ⟨row, hrow, hrx⟩ := List.mem_map.mp hx1
    have hf := List.mem_filter.mp hrow
    have hne : row.1 ≠ k := by simpa using hf.2
    have hlt := h16 row hf.1
    unfold column_addr at hrx hx2
    simp only at hx2
    omega

/-- Counterexample to C12 as stated: registry and store both hold 7, the command has no
payload and the script exits with status 0; when the call returns the store holds 8 but
the registry entry `0x0704` still holds 7. -/
theorem C12_load_next_file_memory_counterexample :
    World.counter7.value 0x0704 = 7 ∧
      (fs_handle_cmd (Env.quiet 0 0) 0x0704 none World.counter7).1 = 0 ∧
      db_select (fs_handle_cmd (Env.quiet 0 0) 0x0704 none World.counter7).2.2.db 0x0704 =
        some 8 ∧
      (fs_handle_cmd (Env.quiet 0 0) 0x0704 none World.counter7).2.2.value 0x0704 = 7 := by
  decide

/-- C12, amended: a load-next-file command with no payload (or one shorter than 4 bytes)
whose script exits with status 0 leaves every registry value as it was when it returns;
over a reachable store with 16-bit keys and one row per address, the pull cycle that
follows brings registry entry `0x0704` to its previous value plus 1 modulo `2^32`. -/
theorem C12_load_next_file_memory (env : Env) (w : World) (inp : Option (List Nat))
    (hok : w.db_ok = true) (hinp : ∀ bytes, inp = some bytes → bytes.length < 4)
    (h16 : ∀ row ∈ w.db, row.1 < 65536) (hkeys : (w.db.map column_addr).Nodup)
    (hsucc : script_failed (env.script
      (load_next_argv (w.value 0x0704) (w.value 0x0700))) = false) :
    (fs_handle_cmd env 0x0704 inp w).2.2.value = w.value ∧
      (bee_sqlite_update_task (fs_handle_cmd env 0x0704 inp w).2.2).value 0x0704 =
        (w.value 0x0704 + 1) % 4294967296 := by
  have hid := load_next_file_id_short inp w hinp
  have hrc := exec_table7_rc env 0x0704 (some (fmt_u (load_next_file_id inp w)))
    (some (fmt_u (w.value 0x0700)))
    (bee_sqlite_update_value 0x0704 (load_next_file_id inp w) w)
  have hargv : ["python3", PYTHON_EXEC_PATH, fmt_04X 0x0704] ++
      (some (fmt_u (load_next_file_id inp w))).toList ++
      (some (fmt_u (w.value 0x0700))).toList =
      load_next_argv (load_next_file_id inp w) (w.value 0x0700) := rfl
  rw [hargv, hid, hsucc] at hrc
  have h0 := hrc.mpr rfl
  have hfs := fs_handle_cmd_0704 env inp w
  rw [hid] at hfs
  rw [if_pos h0] at hfs
  have hfr := exec_table7_frame env 0x0704 (some (fmt_u (w.value 0x0704)))
    (some (fmt_u (w.value 0x0700))) (bee_sqlite_update_value 0x0704 (w.value 0x0704) w)
  have hval : (fs_handle_cmd env 0x0704 inp w).2.2.value = w.value := by
    rw [hfs]
    simp only
    rw [(bee_sqlite_update_value_frame _ _ _).1, hfr.1, (bee_sqlite_update_value_frame _ _ _).1]
  have hdb : (fs_handle_cmd env 0x0704 inp w).2.2.db =
      bee_sqlite_write_param (bee_sqlite_write_param w.db 0x0704 (w.value 0x0704)) 0x0704
        ((w.value 0x0704 + 1) % 4294967296) := by
    have hx : (exec_table7 env 0x0704 (some (fmt_u (w.value 0x0704)))
        (some (fmt_u (w.value 0x0700)))
        (bee_sqlite_update_value 0x0704 (w.value 0x0704) w)).2.2.db_ok = true := by
      rw [hfr.2.2.1, (bee_sqlite_update_value_frame _ _ _).2.2.2.2.2.1, hok]
    rw [hfs]
    simp only
    rw [bee_sqlite_update_value_db _ _ _ hx, hfr.2.1, bee_sqlite_update_value_db _ _ _ hok]
  have hdbok : (fs_handle_cmd env 0x0704 inp w).2.2.db_ok = true := by
    rw [hfs]
    simp only
    rw [(bee_sqlite_update_value_frame _ _ _).2.2.2.2.2.1, hfr.2.2.1,
      (bee_sqlite_update_value_frame _ _ _).2.2.2.2.2.1, hok]
  refine ⟨hval, ?_⟩
  have hk1 := bee_sqlite_write_param_keys w.db 0x0704 (w.value 0x0704) (by decide) h16 hkeys
  have hk2 := bee_sqlite_write_param_keys _ 0x0704 ((w.value 0x0704 + 1) % 4294967296)
    (by decide) hk1.1 hk1.2
  have hmem : (0x0704, int_of_uint32 ((w.value 0x0704 + 1) % 4294967296)) ∈
      (fs_handle_cmd env 0x0704 inp w).2.2.db := by
    rw [hdb]
    simp [bee_sqlite_write_param]
  have hca : column_addr (0x0704, int_of_uint32 ((w.value 0x0704 + 1) % 4294967296)) =
      0x0704 := by
    simp [column_addr]
  have hrow := (bee_sqlite_update_task_row (fs_handle_cmd env 0x0704 inp w).2.2 hdbok
    (by rw [hdb]; exact hk2.2) _ hmem (p := ⟨0x0704, "load_next_file_counter", 0,
      BEE_ACCESS_RW, none, none⟩) (by rw [hca]; decide)
    (by rw [hca]; exact bee_param_lookup_0704)).1
  have hcv : column_val (0x0704, int_of_uint32 ((w.value 0x0704 + 1) % 4294967296)) =
      (w.value 0x0704 + 1) % 4294967296 := by
    simp only [column_val]
    rw [uint32_of_column_int_of_uint32]
    exact Nat.mod_mod _ _
  rw [hca, hcv] at hrow
  rw [hrow]
  simp

/-- Witness of C12: registry and store both hold 7, no payload, exit status 0: the registry
is unchanged at return and the next pull cycle brings entry `0x0704` to 8. -/
theorem C12_load_next_file_memory_witness :
    (fs_handle_cmd (Env.quiet 0 0) 0x0704 none World.counter7).2.2.value =
        World.counter7.value ∧
      (bee_sqlite_update_task (fs_handle_cmd (Env.quiet 0 0) 0x0704 none
        World.counter7).2.2).value 0x0704 = (World.counter7.value 0x0704 + 1) % 4294967296 :=
  C12_load_next_file_memory (Env.quiet 0 0) World.counter7 none rfl (by simp) (by decide)
    (by decide) (by decide)

/-! ## Header decoding and routing -/

/-- C13: for header bytes `H`, `L` the decoded op-type is `H / 16` and the decoded address
is `(H % 16) * 256 + L`, which is below `0x1000`; and for an op-type below 16 and a 12-bit
address, the bytes `[op * 16 + addr / 256, addr % 256]` decode to that op-type and that
address. -/
theorem C13_header_decode (H L length : Nat) (rest : List Nat) (hH : H < 256) (hL : L < 256)
    (op_type addr : Nat) (payload : List Nat) (hop : op_type < 16) (ha : addr < 4096) :
    decoded_op_type ⟨length, H :: L :: rest⟩ = H / 16 ∧
      decoded_addr ⟨length, H :: L :: rest⟩ = H % 16 * 256 + L ∧
      decoded_addr ⟨length, H :: L :: rest⟩ < 0x1000 ∧
      decoded_op_type ⟨2 + payload.length,
        [op_type * 16 + addr / 256, addr % 256] ++ payload⟩ = op_type ∧
      decoded_addr ⟨2 + payload.length,
        [op_type * 16 + addr / 256, addr % 256] ++ payload⟩ = addr := by
  refine ⟨?_, ?_, decoded_addr_lt _, bee_request_op_type op_type addr payload hop ha,
    bee_request_addr op_type addr payload ha⟩
  · rw [decoded_op_type_eq]
    simp [byte, Nat.mod_eq_of_lt hH]
  · rw [decoded_addr_eq]
    simp [byte, Nat.mod_eq_of_lt hH, Nat.mod_eq_of_lt hL]

/-- Witness of C13: the header bytes `0x15 0x21` are a read of `0x0521`, and a write to
`0x0130` is encoded and decoded back. -/
theorem C13_header_decode_witness :
    decoded_op_type ⟨2, 0x15 :: 0x21 :: []⟩ = 0x15 / 16 ∧
      decoded_addr ⟨2, 0x15 :: 0x21 :: []⟩ = 0x15 % 16 * 256 + 0x21 ∧
      decoded_addr ⟨2, 0x15 :: 0x21 :: []⟩ < 0x1000 ∧
      decoded_op_type ⟨2 + [0, 0, 0, 50].length,
        [0 * 16 + 0x0130 / 256, 0x0130 % 256] ++ [0, 0, 0, 50]⟩ = 0 ∧
      decoded_addr ⟨2 + [0, 0, 0, 50].length,
        [0 * 16 + 0x0130 / 256, 0x0130 % 256] ++ [0, 0, 0, 50]⟩ = 0x0130 :=
  C13_header_decode 0x15 0x21 2 [] (by decide) (by decide) 0 0x0130 [0, 0, 0, 50] (by decide)
    (by decide)

/-- C14: the routing test of the parameter-port handler holds exactly for decoded
addresses `0x0701 .. 0x07FF`; a request with such an address is handled by
`handle_BEE_A55_TABLE7`, every other request, that for `0x0700` included, by
`handle_BEE_RW_common`. -/
theorem C14_routing (env : Env) (packet : csp_packet_t) (w : World) :
    (in_file_block (decoded_addr packet) = true ↔
        (0x0701 ≤ decoded_addr packet ∧ decoded_addr packet ≤ 0x07FF)) ∧
      ((0x0701 ≤ decoded_addr packet ∧ decoded_addr packet ≤ 0x07FF) →
        handle_BEE_A55_PARAMS env packet w =
          handle_BEE_A55_TABLE7 env packet (decoded_addr packet) (decoded_op_type packet) w) ∧
      (¬ (0x0701 ≤ decoded_addr packet ∧ decoded_addr packet ≤ 0x07FF) →
        handle_BEE_A55_PARAMS env packet w =
          handle_BEE_RW_common env packet (decoded_addr packet) (decoded_op_type packet) w) ∧
      (decoded_addr packet = 0x0700 →
        handle_BEE_A55_PARAMS env packet w =
          handle_BEE_RW_common env packet 0x0700 (decoded_op_type packet) w) := by
  have hiff := in_file_block_iff (decoded_addr packet)
    (Nat.lt_trans (decoded_addr_lt packet) (by decide))
  have hout : ¬ (0x0701 ≤ decoded_addr packet ∧ decoded_addr packet ≤ 0x07FF) →
      handle_BEE_A55_PARAMS env packet w =
        handle_BEE_RW_common env packet (decoded_addr packet) (decoded_op_type packet) w := by
    intro h
    have hb : in_file_block (decoded_addr packet) = false := by
      cases hfb : in_file_block (decoded_addr packet) with
      | false => rfl
      | true => exact absurd (hiff.mp hfb) h
    simp [handle_BEE_A55_PARAMS, hb]
  refine ⟨hiff, ?_, hout, ?_⟩
  · intro h
    simp [handle_BEE_A55_PARAMS, hiff.mpr h]
  · intro h
    have := hout (by omega)
    rw [h] at this
    exact this

/-- Witness of C14: read requests for `0x0704` and for `0x0700`. -/
theorem C14_routing_witness :
    handle_BEE_A55_PARAMS (Env.quiet 0 0) (bee_read_request 0x0704) (World.boot []) =
        handle_BEE_A55_TABLE7 (Env.quiet 0 0) (bee_read_request 0x0704)
          (decoded_addr (bee_read_request 0x0704)) (decoded_op_type (bee_read_request 0x0704))
          (World.boot []) ∧
      handle_BEE_A55_PARAMS (Env.quiet 0 0) (bee_read_request 0x0700) (World.boot []) =
        handle_BEE_RW_common (Env.quiet 0 0) (bee_read_request 0x0700) 0x0700
          (decoded_op_type (bee_read_request 0x0700)) (World.boot []) :=
  ⟨(C14_routing (Env.quiet 0 0) (bee_read_request 0x0704) (World.boot [])).2.1 (by decide),
    (C14_routing (Env.quiet 0 0) (bee_read_request 0x0700) (World.boot [])).2.2.2 (by decide)⟩

/-! ## Read replies -/

theorem packet_value_reply (a v : Nat) (rest : List Nat) (hv : v < 4294967296) :
    packet_value ⟨6, [a / 256, a % 256, v / 16777216 % 256, v / 65536 % 256, v / 256 % 256,
      v % 256] ++ rest⟩ = v := by
  simp only [packet_value, byte, List.cons_append, List.getD_cons_succ, List.getD_cons_zero,
    Nat.mod_mod]
  exact be32_of_bytes v hv

/-- Counterexample to C15 as stated: the counter `0x0704` is a registry entry with
Read-Write access and stored value 7, yet the read request for it is answered by the
file-transfer gateway: the script is spawned and the reply has length 2 and no value. -/
theorem C15_read_reply_counterexample :
    (bee_param_lookup 0x0704).map (fun p => p.access) = some BEE_ACCESS_RW ∧
      World.counter7.value 0x0704 = 7 ∧
      (handle_BEE_A55_PARAMS (Env.quiet 0 0) (bee_read_request 0x0704) World.counter7).sends =
        [(⟨2, [7, 4]⟩, true)] ∧
      (handle_BEE_A55_PARAMS (Env.quiet 0 0) (bee_read_request 0x0704)
        World.counter7).execs.length = 1 := by
  decide

/-- C15, amended: for every entry with Read access other than time-sync `0x0100` and the
counter `0x0704` (routed to the file-transfer gateway), with stored 32-bit value `v`, the
reply to a read request has length 6, its six bytes are the address big-endian followed by
`v` big-endian, and the decoder of the write path applied to the reply gives `v` back. -/
theorem C15_read_reply (env : Env) (w : World) (packet : csp_packet_t) (a : Nat)
    (p : bee_param_t) (hop : decoded_op_type packet = 1) (ha : decoded_addr packet = a)
    (hp : bee_param_lookup a = some p) (hacc : p.access &&& BEE_ACCESS_R ≠ 0)
    (hts : a ≠ 0x0100) (hblock : a ≠ 0x0704) (hv : w.value a < 4294967296) :
    ∃ reply, (handle_BEE_A55_PARAMS env packet w).sends = w.sends ++ [(reply, env.send_ok)] ∧
      reply.length = 6 ∧
      reply.data.take 6 = [a / 256, a % 256, w.value a / 16777216 % 256,
        w.value a / 65536 % 256, w.value a / 256 % 256, w.value a % 256] ∧
      packet_value reply = w.value a := by
  have ha4 := bee_param_lookup_all _ bee_all_addr_lt hp
  have hb := bee_param_lookup_all _ bee_all_file_block hp
  rw [bee_param_lookup_addr hp] at ha4 hb
  have hfb : in_file_block a = false := by
    cases h : in_file_block a with
    | false => rfl
    | true => exact absurd (hb h) hblock
  have hh : handle_BEE_A55_PARAMS env packet w =
      send_or_free env ⟨6, addr_bytes a ++ be32_bytes (w.value a) ++ packet.data.drop 6⟩ w := by
    simp only [handle_BEE_A55_PARAMS, ha, hfb, hop]
    exact handle_BEE_RW_common_read env packet w hp hacc hts
  refine ⟨⟨6, addr_bytes a ++ be32_bytes (w.value a) ++ packet.data.drop 6⟩, ?_, rfl, ?_, ?_⟩
  · rw [hh, (send_or_free_frame _ _ _).2.2.2.2.2.2.2.2]
  · rw [be32_bytes_eq, addr_bytes_eq a (by omega)]
    simp
  · rw [be32_bytes_eq, addr_bytes_eq a (by omega)]
    exact packet_value_reply a (w.value a) _ hv

/-- Witness of C15: reading the Read-only boot counter `0x0601` in the boot state. -/
theorem C15_read_reply_witness :
    ∃ reply, (handle_BEE_A55_PARAMS (Env.quiet 0 0) (bee_read_request 0x0601)
        (World.boot [])).sends = (World.boot []).sends ++ [(reply, (Env.quiet 0 0).send_ok)] ∧
      reply.length = 6 ∧
      reply.data.take 6 = [0x0601 / 256, 0x0601 % 256,
        (World.boot []).value 0x0601 / 16777216 % 256,
        (World.boot []).value 0x0601 / 65536 % 256, (World.boot []).value 0x0601 / 256 % 256,
        (World.boot []).value 0x0601 % 256] ∧
      packet_value reply = (World.boot []).value 0x0601 :=
  C15_read_reply (Env.quiet 0 0) (World.boot []) (bee_read_request 0x0601) 0x0601
    ⟨0x0601, "boot_cnt", 0, BEE_ACCESS_R, none, none⟩ (by decide) (by decide) (by decide)
    (by decide) (by decide) (by decide) (by decide)

/-- C16: a read of the time-sync address `0x0100` is answered with the address and the
clock reading `time(NULL)` as a 32-bit big-endian value; the reply is built from the clock
and the request alone, so two states, whatever they store at `0x0100`, give the same
reply for the same clock reading, and the read changes no registry value. -/
theorem C16_time_sync_read (env : Env) (packet : csp_packet_t) (w1 w2 : World)
    (hop : decoded_op_type packet = 1) (ha : decoded_addr packet = 0x0100) :
    (handle_BEE_A55_PARAMS env packet w1).sends = w1.sends ++
        [(⟨6, [1, 0, env.now % 4294967296 / 16777216 % 256, env.now % 4294967296 / 65536 % 256,
          env.now % 4294967296 / 256 % 256, env.now % 4294967296 % 256] ++ packet.data.drop 6⟩,
          env.send_ok)] ∧
      (handle_BEE_A55_PARAMS env packet w2).sends = w2.sends ++
        [(⟨6, [1, 0, env.now % 4294967296 / 16777216 % 256, env.now % 4294967296 / 65536 % 256,
          env.now % 4294967296 / 256 % 256, env.now % 4294967296 % 256] ++ packet.data.drop 6⟩,
          env.send_ok)] ∧
      packet_value ⟨6, [1, 0, env.now % 4294967296 / 16777216 % 256,
          env.now % 4294967296 / 65536 % 256, env.now % 4294967296 / 256 % 256,
          env.now % 4294967296 % 256] ++ packet.data.drop 6⟩ = env.now % 4294967296 ∧
      (handle_BEE_A55_PARAMS env packet w1).value = w1.value := by
  have key : ∀ w : World, handle_BEE_A55_PARAMS env packet w =
      send_or_free env ⟨6, [1, 0, env.now % 4294967296 / 16777216 % 256,
        env.now % 4294967296 / 65536 % 256, env.now % 4294967296 / 256 % 256,
        env.now % 4294967296 % 256] ++ packet.data.drop 6⟩ w := by
    intro w
    have hl : bee_param_lookup 0x0100 =
        some ⟨0x0100, "time_sync", 0, BEE_ACCESS_RW, none, some cb_time_sync_write⟩ := by
      decide
    have hfb : in_file_block 0x0100 = false := by decide
    have hab : addr_bytes 0x0100 = [1, 0] := by decide
    simp only [handle_BEE_A55_PARAMS, ha, hfb, hop, handle_BEE_RW_common, hl]
    simp [BEE_ACCESS_RW, BEE_ACCESS_R, be32_bytes_eq, hab]
  refine ⟨?_, ?_, ?_, ?_⟩
  · rw [key w1, (send_or_free_frame _ _ _).2.2.2.2.2.2.2.2]
  · rw [key w2, (send_or_free_frame _ _ _).2.2.2.2.2.2.2.2]
  · have h := packet_value_reply 0x0100 (env.now % 4294967296) (packet.data.drop 6)
      (Nat.mod_lt _ (by decide))
    simpa using h
  · rw [key w1, (send_or_free_frame _ _ _).1]

/-- Witness of C16: the clock reads 1700000000; one state stores 0 at `0x0100`, the other
stores 5. -/
theorem C16_time_sync_read_witness :
    (handle_BEE_A55_PARAMS (Env.quiet 1700000000 0) (bee_read_request 0x0100)
        (World.boot [])).sends = (World.boot []).sends ++
        [(⟨6, [1, 0, 1700000000 % 4294967296 / 16777216 % 256,
          1700000000 % 4294967296 / 65536 % 256, 1700000000 % 4294967296 / 256 % 256,
          1700000000 % 4294967296 % 256] ++ (bee_read_request 0x0100).data.drop 6⟩, true)] ∧
      (handle_BEE_A55_PARAMS (Env.quiet 1700000000 0) (bee_read_request 0x0100)
        { World.boot [] with value := set_value bee_values_init 0x0100 5 }).sends =
        ({ World.boot [] with value := set_value bee_values_init 0x0100 5 } : World).sends ++
        [(⟨6, [1, 0, 1700000000 % 4294967296 / 16777216 % 256,
          1700000000 % 4294967296 / 65536 % 256, 1700000000 % 4294967296 / 256 % 256,
          1700000000 % 4294967296 % 256] ++ (bee_read_request 0x0100).data.drop 6⟩, true)] ∧
      packet_value ⟨6, [1, 0, 1700000000 % 4294967296 / 16777216 % 256,
          1700000000 % 4294967296 / 65536 % 256, 1700000000 % 4294967296 / 256 % 256,
          1700000000 % 4294967296 % 256] ++ (bee_read_request 0x0100).data.drop 6⟩ =
        1700000000 % 4294967296 ∧
      (handle_BEE_A55_PARAMS (Env.quiet 1700000000 0) (bee_read_request 0x0100)
        (World.boot [])).value = (World.boot []).value :=
  C16_time_sync_read (Env.quiet 1700000000 0) (bee_read_request 0x0100) (World.boot [])
    { World.boot [] with value := set_value bee_values_init 0x0100 5 } (by decide) (by decide)

/-! ## Pull cycle: the time-sync row -/

theorem bee_all_time_sync : ∀ q ∈ bee_all, q.on_write = some .time_sync → q.addr = 0x0100 := by
  decide

/-- A write hook other than the time-sync one never runs the `date` command. -/
theorem WriteHook.run_sys_cmds (h : WriteHook) (hne : h ≠ .time_sync) (addr val : Nat)
    (w : World) :
    ∃ cmds, (h.run addr val w).sys_cmds = w.sys_cmds ++ cmds ∧
      ∀ epoch, SysCmd.date_set epoch ∉ cmds := by
  cases h
  case pub_event name =>
    refine ⟨[], ?_, by simp⟩
    simp only [WriteHook.run, bee_unix_pub_event]
    split <;> simp
  case time_sync => exact absurd rfl hne
  case pwr_ifb_en =>
    by_cases h0 : val = 0
    · exact ⟨[.shell "gpioset -t0 -c gpiochip0 17=1"], by simp [WriteHook.run, c_system, h0],
        by simp⟩
    · by_cases h1 : val = 1
      · exact ⟨[.shell "gpioset -t0 -c gpiochip0 17=0"],
          by simp [WriteHook.run, c_system, h1], by simp⟩
      · exact ⟨[], by simp [WriteHook.run, h0, h1], by simp⟩
  case log_only => exact ⟨[], by simp [WriteHook.run], by simp⟩
  case cis_cam_capture =>
    by_cases hv : val = 1
    · refine ⟨(List.range 4).map capture_cmd, ?_, by simp [capture_cmd]⟩
      simp only [WriteHook.run, capture_loop_frame, hv, if_true]
      cases bee_param_lookup addr <;> rfl
    · exact ⟨[], by simp [WriteHook.run, hv], by simp⟩
  case usb_cam_capture =>
    by_cases hv : val = 1
    · refine ⟨[capture_cmd 4], ?_, by simp [capture_cmd]⟩
      simp only [WriteHook.run, c_system, hv, if_true]
      cases bee_param_lookup addr <;> rfl
    · exact ⟨[], by simp [WriteHook.run, hv], by simp⟩

/-- One row of the pull loop leaves entry `0x0100` alone, calls no hook for `0x0100` and
never runs the `date` command. -/
theorem bee_sqlite_update_row_time_sync (w : World) (row : Nat × Int) :
    (bee_sqlite_update_row w row).value 0x0100 = w.value 0x0100 ∧
      (∃ calls, (bee_sqlite_update_row w row).hook_calls = w.hook_calls ++ calls ∧
        ∀ c ∈ calls, c.1 ≠ 0x0100) ∧
      ∃ cmds, (bee_sqlite_update_row w row).sys_cmds = w.sys_cmds ++ cmds ∧
        ∀ epoch, SysCmd.date_set epoch ∉ cmds := by
  by_cases hts : column_addr row = 0x0100
  · have hid : bee_sqlite_update_row w row = w := by
      simp [bee_sqlite_update_row, hts]
    rw [hid]
    exact ⟨rfl, ⟨[], by simp, by simp⟩, [], by simp, by simp⟩
  · obtain ⟨hv, calls, hc, hk⟩ := bee_sqlite_update_row_frame w row
    refine ⟨hv 0x0100 (Ne.symm hts), ⟨calls, hc, fun c hcm => by rw [hk c hcm]; exact hts⟩, ?_⟩
    unfold bee_sqlite_update_row
    simp only [hts, if_false]
    cases hp : bee_param_lookup (column_addr row) with
    | none => exact ⟨[], by simp, by simp⟩
    | some p =>
      simp only
      split
      · unfold call_on_write
        cases hw : p.on_write with
        | none => exact ⟨[], by simp, by simp⟩
        | some h =>
          have hne : h ≠ .time_sync := by
            intro heq
            have := bee_param_lookup_all _ bee_all_time_sync hp (by rw [hw, heq])
            rw [bee_param_lookup_addr hp] at this
            exact hts this
          exact WriteHook.run_sys_cmds h hne _ _ _
      · exact ⟨[], by simp, by simp⟩

theorem bee_sqlite_update_rows_time_sync (l : List (Nat × Int)) (w : World) :
    (l.foldl bee_sqlite_update_row w).value 0x0100 = w.value 0x0100 ∧
      (∃ calls, (l.foldl bee_sqlite_update_row w).hook_calls = w.hook_calls ++ calls ∧
        ∀ c ∈ calls, c.1 ≠ 0x0100) ∧
      ∃ cmds, (l.foldl bee_sqlite_update_row w).sys_cmds = w.sys_cmds ++ cmds ∧
        ∀ epoch, SysCmd.date_set epoch ∉ cmds := by
  induction l generalizing w with
  | nil => exact ⟨rfl, ⟨[], by simp, by simp⟩, [], by simp, by simp⟩
  | cons r l ih =>
    obtain ⟨hv2, ⟨calls2, hc2, hk2⟩, cmds2, hs2, hd2⟩ := ih (bee_sqlite_update_row w r)
    obtain ⟨hv1, ⟨calls1, hc1, hk1⟩, cmds1, hs1, hd1⟩ := bee_sqlite_update_row_time_sync w r
    refine ⟨?_, ⟨calls1 ++ calls2, ?_, ?_⟩, cmds1 ++ cmds2, ?_, ?_⟩
    · rw [List.foldl_cons, hv2, hv1]
    · rw [List.foldl_cons, hc2, hc1, List.append_assoc]
    · intro c hc
      rcases List.mem_append.mp hc with h | h
      · exact hk1 c h
      · exact hk2 c h
    · rw [List.foldl_cons, hs2, hs1, List.append_assoc]
    · intro epoch hmem
      rcases List.mem_append.mp hmem with h | h
      · exact hd1 epoch h
      · exact hd2 epoch h

/-- C17: for every state and every store, whatever rows it has for `0x0100` or any other
address, one pull cycle leaves the registry value of `0x0100` as it was, makes no
`on_write` call for `0x0100`, and never runs the command that sets the system clock. -/
theorem C17_pull_skips_time_sync (w : World) :
    (bee_sqlite_update_task w).value 0x0100 = w.value 0x0100 ∧
      (∃ calls, (bee_sqlite_update_task w).hook_calls = w.hook_calls ++ calls ∧
        ∀ c ∈ calls, c.1 ≠ 0x0100) ∧
      ∃ cmds, (bee_sqlite_update_task w).sys_cmds = w.sys_cmds ++ cmds ∧
        ∀ epoch, SysCmd.date_set epoch ∉ cmds := by
  unfold bee_sqlite_update_task
  split
  · exact bee_sqlite_update_rows_time_sync w.db w
  · exact ⟨rfl, ⟨[], by simp, by simp⟩, [], by simp, by simp⟩

/-- Witness of C17: the store holds the rows `(0x0100, 1700000000)` and `(0x0130, 50)`. -/
theorem C17_pull_skips_time_sync_witness :
    (bee_sqlite_update_task (World.boot [(0x0100, 1700000000), (0x0130, 50)])).value 0x0100 =
        (World.boot [(0x0100, 1700000000), (0x0130, 50)]).value 0x0100 ∧
      (∃ calls, (bee_sqlite_update_task
          (World.boot [(0x0100, 1700000000), (0x0130, 50)])).hook_calls =
          (World.boot [(0x0100, 1700000000), (0x0130, 50)]).hook_calls ++ calls ∧
        ∀ c ∈ calls, c.1 ≠ 0x0100) ∧
      ∃ cmds, (bee_sqlite_update_task
          (World.boot [(0x0100, 1700000000), (0x0130, 50)])).sys_cmds =
          (World.boot [(0x0100, 1700000000), (0x0130, 50)]).sys_cmds ++ cmds ∧
        ∀ epoch, SysCmd.date_set epoch ∉ cmds :=
  C17_pull_skips_time_sync (World.boot [(0x0100, 1700000000), (0x0130, 50)])

/-! ## Address uniqueness -/

theorem bee_all_lookup : ∀ q ∈ bee_all, bee_param_lookup q.addr = some q := by decide

/-- C18: the addresses of the entries of the six tables are pairwise distinct, and for
every address `a` the lookup returns the entry with address `a` when the tables have one,
which is then the only one, and returns nothing when they have none. -/
theorem C18_address_unique (a : Nat) :
    (bee_all.map (fun p => p.addr)).Nodup ∧
      (∀ p ∈ bee_all, p.addr = a → bee_param_lookup a = some p) ∧
      (∀ p ∈ bee_all, ∀ q ∈ bee_all, p.addr = a → q.addr = a → p = q) ∧
      ((∀ p ∈ bee_all, p.addr ≠ a) → bee_param_lookup a = none) ∧
      (∀ p, bee_param_lookup a = some p → p ∈ bee_all ∧ p.addr = a) := by
  have hfound : ∀ p ∈ bee_all, p.addr = a → bee_param_lookup a = some p := by
    intro p hp hpa
    rw [← hpa]
    exact bee_all_lookup p hp
  refine ⟨by decide, hfound, ?_, ?_, fun p hp => bee_param_lookup_mem hp⟩
  · intro p hp q hq hpa hqa
    have h1 := hfound p hp hpa
    have h2 := hfound q hq hqa
    rw [h1] at h2
    exact Option.some.inj h2
  · intro hnone
    cases h : bee_param_lookup a with
    | none => rfl
    | some q =>
      have hm := bee_param_lookup_mem h
      exact absurd hm.2 (hnone q hm.1)

/-- Witness of C18: the address `0x0130` has its one entry, the address `0x09FF` has
none. -/
theorem C18_address_unique_witness :
    bee_param_lookup 0x0130 =
        some ⟨0x0130, "htr_0_set", 0, BEE_ACCESS_RW, none, some htr_0_write⟩ ∧
      bee_param_lookup 0x09FF = none :=
  ⟨(C18_address_unique 0x0130).2.1 _ (by decide) rfl,
    (C18_address_unique 0x09FF).2.2.2.1 (by decide)⟩

/-! ## File transfer: reset and validation -/

/-- C19: over a reachable store, the reset command `0x0777` with any payload and any prior
counter changes nothing but the store, where row `0x0704` becomes 0; in particular the
script is not spawned, and the output length is 0. -/
theorem C19_reset_counter (env : Env) (w : World) (inp : Option (List Nat))
    (hok : w.db_ok = true) :
    (fs_handle_cmd env 0x0777 inp w).2.2 = { w with db := bee_sqlite_write_param w.db 0x0704 0 } ∧
      db_select (fs_handle_cmd env 0x0777 inp w).2.2.db 0x0704 = some 0 ∧
      (fs_handle_cmd env 0x0777 inp w).2.2.execs = w.execs ∧
      (fs_handle_cmd env 0x0777 inp w).2.1.length = 0 := by
  have h : fs_handle_cmd env 0x0777 inp w =
      (-1, [], { w with db := bee_sqlite_write_param w.db 0x0704 0 }) := by
    simp [fs_handle_cmd, bee_sqlite_update_value, hok]
  rw [h]
  exact ⟨rfl, db_select_write_same _ _ _, rfl, rfl⟩

/-- Witness of C19: registry and store hold counter 7 and the payload is `[1, 2]`. -/
theorem C19_reset_counter_witness :
    (fs_handle_cmd (Env.quiet 0 0) 0x0777 (some [1, 2]) World.counter7).2.2 =
        { World.counter7 with db := bee_sqlite_write_param World.counter7.db 0x0704 0 } ∧
      db_select (fs_handle_cmd (Env.quiet 0 0) 0x0777 (some [1, 2]) World.counter7).2.2.db
        0x0704 = some 0 ∧
      (fs_handle_cmd (Env.quiet 0 0) 0x0777 (some [1, 2]) World.counter7).2.2.execs =
        World.counter7.execs ∧
      (fs_handle_cmd (Env.quiet 0 0) 0x0777 (some [1, 2]) World.counter7).2.1.length = 0 :=
  C19_reset_counter (Env.quiet 0 0) World.counter7 (some [1, 2]) rfl

theorem handle_BEE_A55_TABLE7_eq (env : Env) (packet : csp_packet_t) (addr op_type : Nat)
    (w : World) :
    handle_BEE_A55_TABLE7 env packet addr op_type w =
      (if (fs_handle_cmd env addr (table7_payload packet op_type) w).1 < 0 then
        csp_buffer_free (fs_handle_cmd env addr (table7_payload packet op_type) w).2.2
      else
        send_or_free env
          ⟨2 + (fs_handle_cmd env addr (table7_payload packet op_type) w).2.1.length,
            addr_bytes addr ++ (fs_handle_cmd env addr (table7_payload packet op_type) w).2.1 ++
              packet.data.drop
                (2 + (fs_handle_cmd env addr (table7_payload packet op_type) w).2.1.length)⟩
          (fs_handle_cmd env addr (table7_payload packet op_type) w).2.2) := rfl

/-- C20: a file-transfer command that validation rejects, that is a path command
`0x0703`/`0x0706` with no payload or one of 512 bytes or more, a part command
`0x0705`/`0x0711`/`0x0712` with fewer than 4 bytes, the date command `0x0707` with fewer
than 3 bytes, or a sub-address without a case, has a negative result code and an empty
output and leaves the whole state as it was: no spawn, no registry or store change. The
dispatcher handler then sends nothing and only frees the request buffer. -/
theorem C20_validation_rejects (env : Env) (w : World) (addr : Nat) (inp : Option (List Nat))
    (hrej : ((addr = 0x0703 ∨ addr = 0x0706) ∧
        ((inp.getD []).length = 0 ∨ 512 ≤ (inp.getD []).length)) ∨
      ((addr = 0x0705 ∨ addr = 0x0711 ∨ addr = 0x0712) ∧ (inp.getD []).length < 4) ∨
      (addr = 0x0707 ∧ (inp.getD []).length < 3) ∨
      addr ∉ [0x0701, 0x0702, 0x0703, 0x0704, 0x0705, 0x0706, 0x0707, 0x0710, 0x0711, 0x0712,
        0x0777]) :
    (fs_handle_cmd env addr inp w).1 < 0 ∧ (fs_handle_cmd env addr inp w).2.1 = [] ∧
      (fs_handle_cmd env addr inp w).2.2 = w ∧
      ∀ packet op_type, table7_payload packet op_type = inp →
        handle_BEE_A55_TABLE7 env packet addr op_type w = { w with frees := w.frees + 1 } := by
  have hpath : ((inp.getD []).length = 0 ∨ 512 ≤ (inp.getD []).length) → in_path inp = none := by
    intro h
    cases inp with
    | none => rfl
    | some b =>
      simp only [Option.getD_some] at h
      simp only [in_path]
      rw [if_neg (by omega)]
  have hbe : (inp.getD []).length < 4 → in_be32 inp = none := by
    intro h
    cases inp with
    | none => rfl
    | some b =>
      simp only [Option.getD_some] at h
      simp only [in_be32]
      rw [if_neg (by omega)]
  have key : ∃ rc : Int, rc < 0 ∧ fs_handle_cmd env addr inp w = (rc, [], w) := by
    rcases hrej with ⟨h | h, hl⟩ | ⟨h | h | h, hl⟩ | ⟨h, hl⟩ | h
    · exact ⟨-4, by decide, by subst h; simp [fs_handle_cmd, hpath hl]⟩
    · exact ⟨-6, by decide, by subst h; simp [fs_handle_cmd, hpath hl]⟩
    · exact ⟨-5, by decide, by subst h; simp [fs_handle_cmd, hbe hl]⟩
    · exact ⟨-8, by decide, by subst h; simp [fs_handle_cmd, hbe hl]⟩
    · exact ⟨-8, by decide, by subst h; simp [fs_handle_cmd, hbe hl]⟩
    · refine ⟨-7, by decide, ?_⟩
      subst h
      cases inp with
      | none => simp [fs_handle_cmd]
      | some b =>
        simp only [Option.getD_some] at hl
        have h3 : ¬ 3 ≤ b.length := by omega
        simp [fs_handle_cmd, h3]
    · simp only [List.mem_cons, List.mem_singleton, List.not_mem_nil, or_false, not_or] at h
      obtain ⟨h1, h2, h3, h4, h5, h6, h7, h8, h9, h10, h11⟩ := h
      exact ⟨-99, by decide, by simp [fs_handle_cmd, h1, h2, h3, h4, h5, h6, h7, h8, h9, h10, h11]⟩
  obtain ⟨rc, hrc, hfs⟩ := key
  refine ⟨by rw [hfs]; exact hrc, by rw [hfs], by rw [hfs], ?_⟩
  intro packet op_type hpay
  rw [handle_BEE_A55_TABLE7_eq, hpay, hfs]
  simp [hrc, csp_buffer_free]

/-- Witness of C20: the path command `0x0703` arriving as a read request, hence without
payload. -/
theorem C20_validation_rejects_witness :
    (fs_handle_cmd (Env.quiet 0 0) 0x0703 none (World.boot [])).1 < 0 ∧
      (fs_handle_cmd (Env.quiet 0 0) 0x0703 none (World.boot [])).2.1 = [] ∧
      (fs_handle_cmd (Env.quiet 0 0) 0x0703 none (World.boot [])).2.2 = World.boot [] ∧
      handle_BEE_A55_TABLE7 (Env.quiet 0 0) (bee_read_request 0x0703) 0x0703 1 (World.boot []) =
        { World.boot [] with frees := (World.boot []).frees + 1 } :=
  have h := C20_validation_rejects (Env.quiet 0 0) (World.boot []) 0x0703 none
    (Or.inl ⟨Or.inl rfl, Or.inl rfl⟩)
  ⟨h.1, h.2.1, h.2.2.1, h.2.2.2 (bee_read_request 0x0703) 1 rfl⟩

/-! ## File transfer: argument vectors and captured output -/

theorem fmt_04X_known : ∀ a ∈ [0x0701, 0x0702, 0x0703, 0x0704, 0x0705, 0x0706, 0x0707, 0x0710,
    0x0711, 0x0712], fmt_04X a = hex4 a := by
  decide

theorem param_value_or_0700 (w : World) : param_value_or 0x0700 512 w = w.value 0x0700 := by
  unfold param_value_or
  rw [bee_param_lookup_0700]

theorem param_value_or_0704 (w : World) : param_value_or 0x0704 0 w = w.value 0x0704 := by
  unfold param_value_or
  rw [bee_param_lookup_0704]

/-- The format `%02u` writes a byte in decimal with at least two digits. -/
theorem fmt_02u_eq : ∀ n < 256, fmt_02u n = String.mk (dec_min2 n) := by
  decide

/-- The C string at the head of a payload is the payload path. -/
theorem c_string_eq (bytes : List Nat) : c_string bytes = String.mk (payload_path bytes) := by
  unfold c_string
  congr 1
  induction bytes with
  | nil => rfl
  | cons b bs ih =>
    by_cases hb : b = 0
    · simp [payload_path, hb]
    · simp [payload_path, hb, List.takeWhile_cons]
      simpa using ih

theorem getD_lt_256 (bytes : List Nat) (hb : ∀ b ∈ bytes, b < 256) (i : Nat) :
    bytes.getD i 0 < 256 := by
  rw [List.getD_eq_getElem?_getD]
  cases h : bytes[i]? with
  | none => simp
  | some x => simpa using hb x (List.getElem?_mem h)

theorem in_be32_eq (bytes : List Nat) (hb : ∀ b ∈ bytes, b < 256) (hl : 4 ≤ bytes.length) :
    in_be32 (some bytes) = some (be_number bytes) := by
  have hget : ∀ i, bytes.getD i 0 < 256 := by
    intro i
    rw [List.getD_eq_getElem?_getD]
    cases h : bytes[i]? with
    | none => simp
    | some x => simpa using hb x (List.getElem?_mem h)
  simp only [in_be32, hl, if_true, be_number]
  rw [be32_eq _ _ _ _ (hget 1) (hget 2) (hget 3)]

/-- One spawn that gets past `pipe` and `fork` adds its argument vector to the log. -/
theorem exec_table7_execs (env : Env) (addr : Nat) (arg1 arg2 : Option String) (w : World)
    (argv : List String)
    (hargv : ["python3", PYTHON_EXEC_PATH, fmt_04X addr] ++ arg1.toList ++ arg2.toList = argv)
    (hpipe : (env.script argv).pipe_ok = true) (hfork : (env.script argv).fork_ok = true) :
    (exec_table7 env addr arg1 arg2 w).2.2.execs = w.execs ++ [argv] := by
  unfold exec_table7
  simp only [hargv, hpipe, hfork]
  cases (env.script argv).status <;> simp

theorem bee_sqlite_update_value_execs (a v : Nat) (w : World) :
    (bee_sqlite_update_value a v w).execs = w.execs :=
  (bee_sqlite_update_value_frame a v w).2.2.2.2.1

/-- Counterexample to C21 as stated: the date command `0x0707` with the payload bytes
100, 1, 1 passes the argument `1000101`, seven characters, which is no `YYMMDD` string. -/
theorem C21_argument_vector_counterexample :
    (fs_handle_cmd (Env.quiet 0 0) 0x0707 (some [100, 1, 1]) (World.boot [])).2.2.execs =
        [["python3", "/data/.a55_src/scripts/python_exec.py", "0707", "1000101"]] ∧
      "1000101".length = 7 := by
  decide

/-- C21, amended: for every sub-address that invokes the script, with payload bytes, when
`pipe` and `fork` succeed the script is spawned with exactly the argument vector
`spec_argv`: program name, script path, the address as four upper-case hexadecimal digits
and the per-address arguments, the chunk size being the current registry value of
`0x0700`. A payload path is the payload up to its first NUL byte; the date argument of
`0x0707` is each of the three bytes in decimal with at least two digits, the six-character
`YYMMDD` string only when each byte is below 100. -/
theorem C21_argument_vector (env : Env) (w : World) (addr : Nat) (inp : Option (List Nat))
    (argv : List String) (hb : ∀ b ∈ inp.getD [], b < 256)
    (hspec : spec_argv addr (inp.getD []) w = some argv)
    (hpipe : (env.script argv).pipe_ok = true) (hfork : (env.script argv).fork_ok = true) :
    (fs_handle_cmd env addr inp w).2.2.execs = w.execs ++ [argv] := by
  have hpath : ∀ (h : 0 < (inp.getD []).length ∧ (inp.getD []).length < 512),
      in_path inp = some (String.mk (payload_path (inp.getD []))) := by
    intro h
    cases inp with
    | none => simp at h
    | some b =>
      simp only [Option.getD_some] at h ⊢
      simp only [in_path]
      rw [if_pos h, c_string_eq]
  have hnum : ∀ (_ : 4 ≤ (inp.getD []).length), in_be32 inp = some (be_number (inp.getD [])) := by
    intro h
    cases inp with
    | none => simp at h
    | some b => exact in_be32_eq b hb h
  have hshort : ∀ (_ : ¬ 4 ≤ (inp.getD []).length), in_be32 inp = none := by
    intro h
    cases inp with
    | none => rfl
    | some b =>
      simp only [Option.getD_some] at h
      simp only [in_be32]
      rw [if_neg h]
  unfold spec_argv at hspec
  simp only at hspec
  split_ifs at hspec with h1 h2 h3 h3p h4 h4n h5 h5n h6 h6p h7 h7n
  · cases hspec
    rcases h1 with h | h
    · subst h
      simp only [fs_handle_cmd]
      exact exec_table7_execs env _ none none w _ (by rw [fmt_04X_known _ (by decide)]; rfl)
        hpipe hfork
    · subst h
      simp only [fs_handle_cmd]
      exact exec_table7_execs env _ none none w _ (by rw [fmt_04X_known _ (by decide)]; rfl)
        hpipe hfork
  · cases hspec
    subst h2
    simp only [fs_handle_cmd, param_value_or_0700]
    exact exec_table7_execs env _ _ none w _ (by rw [fmt_04X_known _ (by decide)]; rfl)
      hpipe hfork
  · cases hspec
    subst h3
    simp only [fs_handle_cmd, param_value_or_0700, hpath h3p]
    exact exec_table7_execs env _ _ _ w _ (by rw [fmt_04X_known _ (by decide)]; rfl)
      hpipe hfork
  · cases hspec
    subst h4
    have hid : load_next_file_id inp w = be_number (inp.getD []) := by
      simp [load_next_file_id, hnum h4n]
    rw [fs_handle_cmd_0704, hid]
    have he := exec_table7_execs env 0x0704 (some (fmt_u (be_number (inp.getD []))))
      (some (fmt_u (w.value 0x0700)))
      (bee_sqlite_update_value 0x0704 (be_number (inp.getD [])) w) _
      (by rw [fmt_04X_known _ (by decide)]; rfl) hpipe hfork
    rw [bee_sqlite_update_value_execs] at he
    split
    · simp only
      rw [bee_sqlite_update_value_execs, he]
    · exact he
  · cases hspec
    subst h4
    have hid : load_next_file_id inp w = w.value 0x0704 := by
      simp [load_next_file_id, hshort h4n]
    rw [fs_handle_cmd_0704, hid]
    have he := exec_table7_execs env 0x0704 (some (fmt_u (w.value 0x0704)))
      (some (fmt_u (w.value 0x0700)))
      (bee_sqlite_update_value 0x0704 (w.value 0x0704) w) _
      (by rw [fmt_04X_known _ (by decide)]; rfl) hpipe hfork
    rw [bee_sqlite_update_value_execs] at he
    split
    · simp only
      rw [bee_sqlite_update_value_execs, he]
    · exact he
  · cases hspec
    rcases h5 with h | h | h
    · subst h
      simp only [fs_handle_cmd, hnum h5n]
      exact exec_table7_execs env _ _ none w _ (by rw [fmt_04X_known _ (by decide)]; rfl)
        hpipe hfork
    · subst h
      simp only [fs_handle_cmd, hnum h5n]
      exact exec_table7_execs env _ _ none w _ (by rw [fmt_04X_known _ (by decide)]; rfl)
        hpipe hfork
    · subst h
      simp only [fs_handle_cmd, hnum h5n]
      exact exec_table7_execs env _ _ none w _ (by rw [fmt_04X_known _ (by decide)]; rfl)
        hpipe hfork
  · cases hspec
    subst h6
    simp only [fs_handle_cmd, hpath h6p]
    exact exec_table7_execs env _ _ none w _ (by rw [fmt_04X_known _ (by decide)]; rfl)
      hpipe hfork
  · cases hspec
    subst h7
    cases inp with
    | none => simp at h7n
    | some b =>
      simp only [Option.getD_some] at h7n hb ⊢
      simp only [fs_handle_cmd, h7n]
      rw [fmt_02u_eq _ (getD_lt_256 b hb 0), fmt_02u_eq _ (getD_lt_256 b hb 1),
        fmt_02u_eq _ (getD_lt_256 b hb 2)]
      exact exec_table7_execs env _ _ none w _ (by rw [fmt_04X_known _ (by decide)]; rfl)
        hpipe hfork

/-- Witness of C21: the date command `0x0707` with the payload bytes 25, 12, 31. -/
theorem C21_argument_vector_witness :
    (fs_handle_cmd (Env.quiet 0 0) 0x0707 (some [25, 12, 31]) (World.boot [])).2.2.execs =
      (World.boot []).execs ++
        [["python3", "/data/.a55_src/scripts/python_exec.py", "0707", "251231"]] :=
  C21_argument_vector (Env.quiet 0 0) (World.boot []) 0x0707 (some [25, 12, 31])
    ["python3", "/data/.a55_src/scripts/python_exec.py", "0707", "251231"]
    (by decide) (by decide) rfl rfl

/-- The read loop keeps `total` equal to the number of bytes stored, only appends bytes of
the stream in order, and never stores more than `MAX_OUT_READ` bytes. -/
theorem read_loop_spec (ready pending out : List Nat) :
    (read_loop ready pending out out.length).2 = (read_loop ready pending out out.length).1.length ∧
      (∃ m, (read_loop ready pending out out.length).1 = out ++ pending.take m) ∧
      (out.length ≤ MAX_OUT_READ →
        (read_loop ready pending out out.length).1.length ≤ MAX_OUT_READ) := by
  induction ready generalizing pending out with
  | nil => exact ⟨rfl, ⟨0, by simp [read_loop]⟩, fun h => h⟩
  | cons k ready ih =>
    simp only [read_loop, List.take_length]
    by_cases hn : min (min k (MAX_OUT_READ - out.length)) pending.length = 0
    · simp only [hn, if_true]
      exact ⟨by simp, ⟨0, by simp⟩, fun h => h⟩
    · simp only [hn, if_false]
      have hlen : (out ++ pending.take (min (min k (MAX_OUT_READ - out.length)) pending.length)).length =
          out.length + min (min k (MAX_OUT_READ - out.length)) pending.length := by
        simp only [List.length_append, List.length_take]
        omega
      by_cases hfull : MAX_OUT_READ ≤
          out.length + min (min k (MAX_OUT_READ - out.length)) pending.length
      · simp only [hfull, if_true]
        refine ⟨hlen.symm, ⟨_, rfl⟩, ?_⟩
        intro hle
        rw [hlen]
        omega
      · simp only [hfull, if_false]
        have h := ih (pending.drop (min (min k (MAX_OUT_READ - out.length)) pending.length))
          (out ++ pending.take (min (min k (MAX_OUT_READ - out.length)) pending.length))
        rw [hlen] at h
        obtain ⟨h1, ⟨m, h2⟩, h3⟩ := h
        refine ⟨h1, ⟨min (min k (MAX_OUT_READ - out.length)) pending.length + m, ?_⟩, ?_⟩
        · rw [h2, List.append_assoc, List.take_add]
        · intro _
          exact h3 (by omega)

/-- The bytes `out[0 .. *outlen)` after a spawn that got past `pipe` and `fork` are the
whole content stored by the read loop. -/
theorem exec_table7_out (env : Env) (addr : Nat) (arg1 arg2 : Option String) (w : World)
    (argv : List String)
    (hargv : ["python3", PYTHON_EXEC_PATH, fmt_04X addr] ++ arg1.toList ++ arg2.toList = argv)
    (hpipe : (env.script argv).pipe_ok = true) (hfork : (env.script argv).fork_ok = true) :
    (exec_table7 env addr arg1 arg2 w).2.1 =
      (read_loop (env.script argv).reads (env.script argv).stdout [] 0).1 := by
  have h1 := (read_loop_spec (env.script argv).reads (env.script argv).stdout []).1
  simp only [List.length_nil] at h1
  unfold exec_table7
  simp only [hargv, hpipe, hfork]
  cases (env.script argv).status <;>
    exact List.take_of_length_le (Nat.le_of_eq h1.symm)

/-- C22: for every spawn of the script, the bytes that `exec_table7` captures number at
most `MAX_OUT_READ = 65536` and are a prefix of what the script wrote to its standard
output; when `pipe` and `fork` succeed, the count `total` reported as output length is the
number of bytes stored, and when the script then exits normally the result code is its
exit status. -/
theorem C22_captured_output (env : Env) (addr : Nat) (arg1 arg2 : Option String) (w : World)
    (argv : List String)
    (hargv : ["python3", PYTHON_EXEC_PATH, fmt_04X addr] ++ arg1.toList ++ arg2.toList = argv) :
    MAX_OUT_READ = 65536 ∧
      (exec_table7 env addr arg1 arg2 w).2.1.length ≤ 65536 ∧
      (exec_table7 env addr arg1 arg2 w).2.1 <+: (env.script argv).stdout ∧
      ((env.script argv).pipe_ok = true → (env.script argv).fork_ok = true →
        (read_loop (env.script argv).reads (env.script argv).stdout [] 0).2 =
            (exec_table7 env addr arg1 arg2 w).2.1.length ∧
          ∀ code, code < 256 → (env.script argv).status = .exited code →
            (exec_table7 env addr arg1 arg2 w).1 = (code : Int)) := by
  obtain ⟨h1, ⟨m, h2⟩, h3⟩ := read_loop_spec (env.script argv).reads (env.script argv).stdout []
  simp only [List.length_nil, List.nil_append] at h1 h2 h3
  have hmax : MAX_OUT_READ = 65536 := rfl
  by_cases hpipe : (env.script argv).pipe_ok = true
  · by_cases hfork : (env.script argv).fork_ok = true
    · have hout := exec_table7_out env addr arg1 arg2 w argv hargv hpipe hfork
      refine ⟨hmax, ?_, ?_, ?_⟩
      · rw [hout, ← hmax]
        exact h3 (Nat.zero_le _)
      · rw [hout, h2]
        exact List.take_prefix _ _
      · intro _ _
        refine ⟨by rw [hout, h1], ?_⟩
        intro code hcode hexit
        simp only [exec_table7, hargv, hpipe, hfork, hexit]
        simp [Nat.mod_eq_of_lt hcode]
    · have hf : (env.script argv).fork_ok = false := by simpa using hfork
      have hout : (exec_table7 env addr arg1 arg2 w).2.1 = [] := by
        simp only [exec_table7, hargv, hpipe, hf]
        rfl
      rw [hout]
      exact ⟨hmax, by simp, List.nil_prefix, fun _ h => absurd h hfork⟩
  · have hp : (env.script argv).pipe_ok = false := by simpa using hpipe
    have hout : (exec_table7 env addr arg1 arg2 w).2.1 = [] := by
      simp only [exec_table7, hargv, hp]
      rfl
    rw [hout]
    exact ⟨hmax, by simp, List.nil_prefix, fun h => absurd h hpipe⟩

/-- Witness of C22: the script prints the five bytes `hello` and exits with status 3. -/
theorem C22_captured_output_witness :
    (exec_table7 (Env.prints [104, 101, 108, 108, 111] 3) 0x0701 none none
        (World.boot [])).2.1 = [104, 101, 108, 108, 111] ∧
      (read_loop [5] [104, 101, 108, 108, 111] [] 0).2 = 5 ∧
      (exec_table7 (Env.prints [104, 101, 108, 108, 111] 3) 0x0701 none none
        (World.boot [])).1 = 3 :=
  have h := C22_captured_output (Env.prints [104, 101, 108, 108, 111] 3) 0x0701 none none
    (World.boot []) _ rfl
  ⟨by decide, (h.2.2.2 rfl rfl).1.trans (by decide), (h.2.2.2 rfl rfl).2 3 (by decide) rfl⟩

/-! ## Dispatcher: replies and buffer release -/

theorem bee_sqlite_update_value_proj {α : Type} (f : World → α)
    (hdb : ∀ (w : World) (db : List (Nat × Int)), f { w with db := db } = f w)
    (a v : Nat) (w : World) : f (bee_sqlite_update_value a v w) = f w := by
  unfold bee_sqlite_update_value
  split
  · exact hdb w _
  · rfl

theorem exec_table7_proj {α : Type} (f : World → α)
    (hex : ∀ (w : World) (e : List (List String)), f { w with execs := e } = f w)
    (env : Env) (addr : Nat) (arg1 arg2 : Option String) (w : World) :
    f (exec_table7 env addr arg1 arg2 w).2.2 = f w := by
  unfold exec_table7
  simp only
  split_ifs
  · rfl
  · rfl
  · split
    · exact hex w _
    · exact hex w _

/-- Whatever of the state does not depend on the store and on the log of spawns is left
alone by the file-transfer gateway. -/
theorem fs_handle_cmd_proj {α : Type} (f : World → α)
    (hdb : ∀ (w : World) (db : List (Nat × Int)), f { w with db := db } = f w)
    (hex : ∀ (w : World) (e : List (List String)), f { w with execs := e } = f w)
    (env : Env) (addr : Nat) (inp : Option (List Nat)) (w : World) :
    f (fs_handle_cmd env addr inp w).2.2 = f w := by
  have hx : ∀ (a : Nat) (x y : Option String) (w1 : World),
      f (exec_table7 env a x y w1).2.2 = f w1 := fun a x y w1 =>
    exec_table7_proj f hex env a x y w1
  have hu : ∀ (a v : Nat) (w1 : World), f (bee_sqlite_update_value a v w1) = f w1 :=
    fun a v w1 => bee_sqlite_update_value_proj f hdb a v w1
  unfold fs_handle_cmd
  simp only
  by_cases h1 : addr = 0x0701
  · rw [if_pos h1]
    exact hx _ _ _ _
  rw [if_neg h1]
  by_cases h2 : addr = 0x0702
  · rw [if_pos h2]
    exact hx _ _ _ _
  rw [if_neg h2]
  by_cases h3 : addr = 0x0703
  · rw [if_pos h3]
    cases in_path inp with
    | none => rfl
    | some path => exact hx _ _ _ _
  rw [if_neg h3]
  by_cases h4 : addr = 0x0704
  · rw [if_pos h4]
    split
    · simp only
      rw [hu, hx, hu]
    · rw [hx, hu]
  rw [if_neg h4]
  by_cases h5 : addr = 0x0705
  · rw [if_pos h5]
    cases in_be32 inp with
    | none => rfl
    | some n => exact hx _ _ _ _
  rw [if_neg h5]
  by_cases h6 : addr = 0x0706
  · rw [if_pos h6]
    cases in_path inp with
    | none => rfl
    | some path => exact hx _ _ _ _
  rw [if_neg h6]
  by_cases h7 : addr = 0x0707
  · rw [if_pos h7]
    cases inp with
    | none => rfl
    | some bytes =>
      simp only
      split
      · exact hx _ _ _ _
      · rfl
  rw [if_neg h7]
  by_cases h8 : addr = 0x0710
  · rw [if_pos h8]
    exact hx _ _ _ _
  rw [if_neg h8]
  by_cases h9 : addr = 0x0711 ∨ addr = 0x0712
  · rw [if_pos h9]
    cases in_be32 inp with
    | none => rfl
    | some n => exact hx _ _ _ _
  rw [if_neg h9]
  by_cases h10 : addr = 0x0777
  · rw [if_pos h10]
    exact hu _ _ _
  rw [if_neg h10]

theorem fs_handle_cmd_buffers (env : Env) (addr : Nat) (inp : Option (List Nat)) (w : World) :
    (fs_handle_cmd env addr inp w).2.2.sends = w.sends ∧
      (fs_handle_cmd env addr inp w).2.2.frees = w.frees :=
  ⟨fs_handle_cmd_proj (fun w => w.sends) (fun _ _ => rfl) (fun _ _ => rfl) env addr inp w,
    fs_handle_cmd_proj (fun w => w.frees) (fun _ _ => rfl) (fun _ _ => rfl) env addr inp w⟩

theorem released_once_free (w w1 : World) (hs : w1.sends = w.sends) (hf : w1.frees = w.frees) :
    released_once w (csp_buffer_free w1) := by
  left
  simp [csp_buffer_free, hs, hf]

theorem released_once_send (env : Env) (packet : csp_packet_t) (w w1 : World)
    (hs : w1.sends = w.sends) (hf : w1.frees = w.frees) :
    released_once w (send_or_free env packet w1) := by
  unfold send_or_free csp_buffer_free
  cases hok : env.send_ok
  · left
    simp [hs, hf]
  · right
    simp [hs, hf]

theorem released_once_count {w w2 : World} (h : released_once w w2) :
    w2.released = w.released + 1 := by
  unfold World.released
  rcases h with ⟨hf, hs⟩ | ⟨hf, reply, hs⟩
  · rw [hf, hs]
    omega
  · rw [hf, hs]
    simp
    omega

theorem handle_BEE_RW_common_released (env : Env) (packet : csp_packet_t) (a op_type : Nat)
    (w : World) : released_once w (handle_BEE_RW_common env packet a op_type w) := by
  unfold handle_BEE_RW_common
  cases hp : bee_param_lookup a with
  | none => exact released_once_free w w rfl rfl
  | some p =>
    simp only
    have hcw : ∀ v, (call_on_write p a v { w with value := set_value w.value p.addr v }).sends =
          w.sends ∧
        (call_on_write p a v { w with value := set_value w.value p.addr v }).frees = w.frees :=
      fun v => ⟨(call_on_write_frame hp v _).2.2.2.2.2.1, (call_on_write_frame hp v _).2.2.2.2.2.2.1⟩
    split_ifs
    · exact released_once_free w w rfl rfl
    · exact released_once_free w w rfl rfl
    · exact released_once_send env _ w _ (hcw _).1 (hcw _).2
    · exact released_once_send env _ w _ (hcw _).1 (hcw _).2
    · exact released_once_free w w rfl rfl
    · exact released_once_send env _ w _ rfl rfl
    · exact released_once_send env _ w _ (by rw [call_on_read_eq hp]) (by rw [call_on_read_eq hp])
    · exact released_once_send env _ w _ rfl rfl

theorem handle_BEE_A55_TABLE7_released (env : Env) (packet : csp_packet_t) (a op_type : Nat)
    (w : World) : released_once w (handle_BEE_A55_TABLE7 env packet a op_type w) := by
  have hbuf := fs_handle_cmd_buffers env a (table7_payload packet op_type) w
  rw [handle_BEE_A55_TABLE7_eq]
  split
  · exact released_once_free w _ hbuf.1 hbuf.2
  · exact released_once_send env _ w _ hbuf.1 hbuf.2

/-- C25: for every request of the parameter port, ordinary or file-transfer, whatever its
op-type, address, length and the outcome of the send, the handler releases the request
buffer exactly once: either it frees it once and no send has succeeded, or one send has
succeeded and it frees nothing. -/
theorem C25_buffer_released_once (env : Env) (packet : csp_packet_t) (w : World) :
    released_once w (handle_BEE_A55_PARAMS env packet w) ∧
      (handle_BEE_A55_PARAMS env packet w).released = w.released + 1 := by
  have h : released_once w (handle_BEE_A55_PARAMS env packet w) := by
    unfold handle_BEE_A55_PARAMS
    simp only
    split
    · exact handle_BEE_A55_TABLE7_released env packet _ _ w
    · exact handle_BEE_RW_common_released env packet _ _ w
  exact ⟨h, released_once_count h⟩

/-- Witness of C25: a read of `0x0130` whose send fails. -/
theorem C25_buffer_released_once_witness :
    released_once (World.boot [])
        (handle_BEE_A55_PARAMS { Env.quiet 0 0 with send_ok := false } (bee_read_request 0x0130)
          (World.boot [])) ∧
      (handle_BEE_A55_PARAMS { Env.quiet 0 0 with send_ok := false } (bee_read_request 0x0130)
        (World.boot [])).released = (World.boot []).released + 1 :=
  C25_buffer_released_once { Env.quiet 0 0 with send_ok := false } (bee_read_request 0x0130)
    (World.boot [])

/-- C29: a request whose decoded address is registered and outside `0x0701 .. 0x07FF` and
whose op-type is neither 0 nor 1 changes nothing of the state but the buffer bookkeeping:
no registry value changes, no hook is called, and the one send made is that of the
request packet itself, unmodified. -/
theorem C29_other_op_type_echo (env : Env) (packet : csp_packet_t) (w : World) (p : bee_param_t)
    (hp : bee_param_lookup (decoded_addr packet) = some p)
    (hblock : ¬ (0x0701 ≤ decoded_addr packet ∧ decoded_addr packet ≤ 0x07FF))
    (h0 : decoded_op_type packet ≠ 0) (h1 : decoded_op_type packet ≠ 1) :
    handle_BEE_A55_PARAMS env packet w = send_or_free env packet w ∧
      (handle_BEE_A55_PARAMS env packet w).value = w.value ∧
      (handle_BEE_A55_PARAMS env packet w).hook_calls = w.hook_calls ∧
      (handle_BEE_A55_PARAMS env packet w).db = w.db ∧
      (handle_BEE_A55_PARAMS env packet w).outbox = w.outbox ∧
      (handle_BEE_A55_PARAMS env packet w).sends = w.sends ++ [(packet, env.send_ok)] := by
  have hfb : in_file_block (decoded_addr packet) = false := by
    cases h : in_file_block (decoded_addr packet) with
    | false => rfl
    | true =>
      exact absurd ((in_file_block_iff _ (Nat.lt_trans (decoded_addr_lt packet)
        (by decide))).mp h) hblock
  have hh : handle_BEE_A55_PARAMS env packet w = send_or_free env packet w := by
    simp [handle_BEE_A55_PARAMS, hfb, handle_BEE_RW_common, hp, h0, h1]
  have hs := send_or_free_frame env packet w
  rw [hh]
  exact ⟨rfl, hs.1, hs.2.2.2.2.2.2.2.1, hs.2.1, hs.2.2.2.2.1, hs.2.2.2.2.2.2.2.2⟩

/-- Witness of C29: a request with op-type 5 for the Read-only boot counter `0x0601`. -/
theorem C29_other_op_type_echo_witness :
    handle_BEE_A55_PARAMS (Env.quiet 0 0) (bee_request 5 0x0601 [1, 2, 3, 4]) (World.boot []) =
        send_or_free (Env.quiet 0 0) (bee_request 5 0x0601 [1, 2, 3, 4]) (World.boot []) ∧
      (handle_BEE_A55_PARAMS (Env.quiet 0 0) (bee_request 5 0x0601 [1, 2, 3, 4])
        (World.boot [])).value = (World.boot []).value ∧
      (handle_BEE_A55_PARAMS (Env.quiet 0 0) (bee_request 5 0x0601 [1, 2, 3, 4])
        (World.boot [])).hook_calls = (World.boot []).hook_calls ∧
      (handle_BEE_A55_PARAMS (Env.quiet 0 0) (bee_request 5 0x0601 [1, 2, 3, 4])
        (World.boot [])).db = (World.boot []).db ∧
      (handle_BEE_A55_PARAMS (Env.quiet 0 0) (bee_request 5 0x0601 [1, 2, 3, 4])
        (World.boot [])).outbox = (World.boot []).outbox ∧
      (handle_BEE_A55_PARAMS (Env.quiet 0 0) (bee_request 5 0x0601 [1, 2, 3, 4])
        (World.boot [])).sends =
        (World.boot []).sends ++ [(bee_request 5 0x0601 [1, 2, 3, 4], (Env.quiet 0 0).send_ok)] :=
  C29_other_op_type_echo (Env.quiet 0 0) (bee_request 5 0x0601 [1, 2, 3, 4]) (World.boot [])
    ⟨0x0601, "boot_cnt", 0, BEE_ACCESS_R, none, none⟩ (by decide) (by decide) (by decide)
    (by decide)

/-! ## Unix-socket bridge: dropped and accepted commands -/

theorem splitOnP_head (l : List Char) :
    l.splitOnP c_isspace = (l.takeWhile (fun c => !c_isspace c)) ::
      (match l.dropWhile (fun c => !c_isspace c) with
        | [] => []
        | _ :: rest => rest.splitOnP c_isspace) := by
  induction l with
  | nil => simp
  | cons d ds ih =>
    rw [List.splitOnP_cons]
    by_cases hd : c_isspace d = true
    · simp [hd]
    · simp only [hd, Bool.false_eq_true, if_false]
      rw [ih]
      simp [List.modifyHead, hd]

theorem tokens_space (c : Char) (cs : List Char) (hc : c_isspace c = true) :
    tokens (c :: cs) = tokens cs := by
  unfold tokens
  rw [List.splitOnP_cons]
  simp [hc]

theorem tokens_dropWhile (s : List Char) : tokens (s.dropWhile c_isspace) = tokens s := by
  induction s with
  | nil => rfl
  | cons c cs ih =>
    by_cases hc : c_isspace c = true
    · rw [List.dropWhile_cons_of_pos hc, ih, tokens_space c cs hc]
    · rw [List.dropWhile_cons_of_neg hc]

theorem tokens_nonspace (c : Char) (cs : List Char) (hc : c_isspace c = false) :
    tokens (c :: cs) = ((c :: cs).takeWhile (fun c => !c_isspace c)) ::
      tokens ((c :: cs).dropWhile (fun c => !c_isspace c)) := by
  have h := splitOnP_head (c :: cs)
  unfold tokens
  rw [h]
  have hne : ((c :: cs).takeWhile (fun c => !c_isspace c)).isEmpty = false := by
    simp [List.takeWhile_cons, hc]
  rw [List.filter_cons_of_pos (by simp [hne])]
  congr 1
  cases hdw : (c :: cs).dropWhile (fun c => !c_isspace c) with
  | nil => simp
  | cons e rest =>
    have he : c_isspace e = true := by
      have := List.head_dropWhile_not (fun c => !c_isspace c) (c :: cs) (by rw [hdw]; simp)
      simpa [hdw] using this
    simp only
    rw [List.splitOnP_cons]
    simp [he]


theorem drop_length_takeWhile (p : Char → Bool) (l : List Char) :
    l.drop (l.takeWhile p).length = l.dropWhile p := by
  induction l with
  | nil => rfl
  | cons c cs ih =>
    by_cases hc : p c = true
    · simp [List.takeWhile_cons, List.dropWhile_cons, hc, ih]
    · simp [List.takeWhile_cons, List.dropWhile_cons, hc]

/-- A text without tokens: `%Ns` fails on it. -/
theorem scan_s_none (width : Nat) (inp : List Char) (h : tokens inp = []) :
    scan_s width inp = none := by
  have hd := tokens_dropWhile inp
  rw [h] at hd
  unfold scan_s
  cases hr : inp.dropWhile c_isspace with
  | nil => simp
  | cons c cs =>
    have hc : c_isspace c = false := by
      have := List.head_dropWhile_not c_isspace inp (by rw [hr]; simp)
      simpa [hr] using this
    rw [hr, tokens_nonspace c cs hc] at hd
    cases hd

/-- A text with a first token: `%Ns` reads the first `N` characters of that token, and
when the token has at most `N` characters the tokens of the input left are the other
tokens. -/
theorem scan_s_tokens (width : Nat) (hw : 0 < width) (inp : List Char) (t : List Char)
    (ts : List (List Char)) (h : tokens inp = t :: ts) :
    ∃ r, scan_s width inp = some (t.take width, r) ∧ (t.length ≤ width → tokens r = ts) := by
  have hd := tokens_dropWhile inp
  rw [h] at hd
  unfold scan_s
  cases hr : inp.dropWhile c_isspace with
  | nil =>
    rw [hr] at hd
    cases hd
  | cons c cs =>
    have hc : c_isspace c = false := by
      have := List.head_dropWhile_not c_isspace inp (by rw [hr]; simp)
      simpa [hr] using this
    rw [hr, tokens_nonspace c cs hc] at hd
    injection hd with ht hts
    simp only
    rw [ht]
    have hne : t ≠ [] := by
      rw [← ht]
      simp [List.takeWhile_cons, hc]
    have hne2 : (t.take width).isEmpty = false := by
      cases t with
      | nil => exact absurd rfl hne
      | cons a as =>
        cases width with
        | zero => omega
        | succ n => rfl
    rw [hne2]
    refine ⟨_, rfl, ?_⟩
    intro hle
    rw [List.take_of_length_le hle, ← ht, drop_length_takeWhile, hts]

/-- What `sscanf_cmd` returns comes from three successive `%Ns` conversions. -/
theorem sscanf_cmd_some {buf cmd s_addr s_val : List Char}
    (h : sscanf_cmd buf = some (cmd, s_addr, s_val)) :
    ∃ r1 r2 r3, scan_s 7 buf = some (cmd, r1) ∧ scan_s 31 r1 = some (s_addr, r2) ∧
      scan_s 31 r2 = some (s_val, r3) := by
  unfold sscanf_cmd at h
  cases h1 : scan_s 7 buf with
  | none => rw [h1] at h; cases h
  | some x1 =>
    obtain ⟨c1, r1⟩ := x1
    rw [h1] at h
    simp only at h
    cases h2 : scan_s 31 r1 with
    | none => rw [h2] at h; cases h
    | some x2 =>
      obtain ⟨c2, r2⟩ := x2
      rw [h2] at h
      simp only at h
      cases h3 : scan_s 31 r2 with
      | none => rw [h3] at h; cases h
      | some x3 =>
        obtain ⟨c3, r3⟩ := x3
        rw [h3] at h
        simp only [Option.some.injEq, Prod.mk.injEq] at h
        obtain ⟨e1, e2, e3⟩ := h
        subst e1 e2 e3
        exact ⟨r1, r2, r3, rfl, h2, h3⟩

/-- What `bee_unix_sub_scan` returns comes from three tokens read by `sscanf`, the first
being `CMD` in some letter case. -/
theorem bee_unix_sub_scan_some {msg : List Char} {a v : Nat}
    (h : bee_unix_sub_scan msg = some (a, v)) :
    ∃ cmd s_addr s_val r1 r2 r3,
      scan_s 7 ((msg.take 127).takeWhile (fun c => c.toNat ≠ 0)) = some (cmd, r1) ∧
      scan_s 31 r1 = some (s_addr, r2) ∧ scan_s 31 r2 = some (s_val, r3) ∧
      cmd.map Char.toLower = ['c', 'm', 'd'] ∧ a = (sscanf_x 16 s_addr).getD 0 := by
  unfold bee_unix_sub_scan at h
  simp only at h
  cases hs : sscanf_cmd ((msg.take 127).takeWhile (fun c => c.toNat ≠ 0)) with
  | none => rw [hs] at h; cases h
  | some x =>
    obtain ⟨cmd, s_addr, s_val⟩ := x
    rw [hs] at h
    simp only at h
    by_cases hc : cmd.map Char.toLower = ['c', 'm', 'd']
    · rw [if_pos hc] at h
      simp only [Option.some.injEq, Prod.mk.injEq] at h
      obtain ⟨r1, r2, r3, h1, h2, h3⟩ := sscanf_cmd_some hs
      exact ⟨cmd, s_addr, s_val, r1, r2, r3, h1, h2, h3, hc, h.1.symm⟩
    · rw [if_neg hc] at h
      cases h


theorem hex_digit_value_eq (c : Char) : hex_digit_value c = hex_digit c := by
  have hc : c = Char.ofNat c.toNat := (Char.ofNat_toNat c).symm
  by_cases hr : (48 ≤ c.toNat ∧ c.toNat ≤ 57) ∨ (97 ≤ c.toNat ∧ c.toNat ≤ 102) ∨
      (65 ≤ c.toNat ∧ c.toNat ≤ 70)
  · generalize c.toNat = n at hc hr
    subst hc
    rcases hr with ⟨h1, h2⟩ | ⟨h1, h2⟩ | ⟨h1, h2⟩ <;> interval_cases n <;> decide
  · have hnone : hex_digit c = none := by
      unfold hex_digit
      split_ifs with h1 h2 h3
      · exact absurd (Or.inl h1) hr
      · exact absurd (Or.inr (Or.inl h2)) hr
      · exact absurd (Or.inr (Or.inr h3)) hr
      · rfl
    rw [hnone]
    unfold hex_digit_value
    rw [Option.map_eq_none', List.find?_eq_none]
    intro e he
    simp only [hex_table, List.mem_cons, List.mem_singleton, List.not_mem_nil, or_false] at he
    intro heq
    have hec : e.1 = c := by simpa using heq
    rw [← hec] at hr
    rcases he with rfl | rfl | rfl | rfl | rfl | rfl | rfl | rfl | rfl | rfl | rfl | rfl | rfl |
      rfl | rfl | rfl | rfl | rfl | rfl | rfl | rfl | rfl <;> exact hr (by decide)

theorem hex_digit_value_lt (c : Char) (d : Nat) (h : hex_digit_value c = some d) : d < 16 := by
  unfold hex_digit_value at h
  rw [Option.map_eq_some'] at h
  obtain ⟨e, he, hed⟩ := h
  have hmem := List.mem_of_find?_eq_some he
  subst hed
  simp only [hex_table, List.mem_cons, List.mem_singleton, List.not_mem_nil, or_false] at hmem
  rcases hmem with rfl | rfl | rfl | rfl | rfl | rfl | rfl | rfl | rfl | rfl | rfl | rfl | rfl |
    rfl | rfl | rfl | rfl | rfl | rfl | rfl | rfl | rfl <;> decide

theorem hex_run_all (t : List Char) (h : ∀ c ∈ t, (hex_digit_value c).isSome = true)
    (acc n : Nat) :
    hex_run acc n t =
      (t.foldl (fun a c => a * 16 + (hex_digit_value c).getD 0) acc, n + t.length) := by
  induction t generalizing acc n with
  | nil => rfl
  | cons c cs ih =>
    have hc := h c (List.mem_cons_self _ _)
    obtain ⟨d, hd⟩ := Option.isSome_iff_exists.mp hc
    have hd2 : hex_digit c = some d := by rw [← hex_digit_value_eq, hd]
    simp only [hex_run, hd2, List.foldl_cons, hd, Option.getD_some, List.length_cons]
    rw [ih (fun x hx => h x (List.mem_cons_of_mem _ hx))]
    congr 1
    omega

theorem hex_foldl_lt (t : List Char) (h : ∀ c ∈ t, (hex_digit_value c).isSome = true)
    (acc : Nat) :
    t.foldl (fun a c => a * 16 + (hex_digit_value c).getD 0) acc < (acc + 1) * 16 ^ t.length := by
  induction t generalizing acc with
  | nil => simp
  | cons c cs ih =>
    have hc := h c (List.mem_cons_self _ _)
    obtain ⟨d, hd⟩ := Option.isSome_iff_exists.mp hc
    have hlt := hex_digit_value_lt c d hd
    simp only [List.foldl_cons, hd, Option.getD_some, List.length_cons]
    have := ih (fun x hx => h x (List.mem_cons_of_mem _ hx)) (acc * 16 + d)
    calc _ < (acc * 16 + d + 1) * 16 ^ cs.length := this
      _ ≤ ((acc + 1) * 16) * 16 ^ cs.length := Nat.mul_le_mul_right _ (by omega)
      _ = (acc + 1) * 16 ^ (cs.length + 1) := by rw [pow_succ]; ring

theorem hex_number_lt (t : List Char) (h : ∀ c ∈ t, (hex_digit_value c).isSome = true)
    (hl : t.length ≤ 16) : hex_number t < 2 ^ 64 := by
  have h1 := hex_foldl_lt t h 0
  have h2 : 16 ^ t.length ≤ 16 ^ 16 := Nat.pow_le_pow_right (by decide) hl
  unfold hex_number
  have h3 : (16 : Nat) ^ 16 = 2 ^ 64 := by norm_num
  omega


theorem sscanf_x_steps (bits : Nat) (tok : List Char) :
    sscanf_x bits tok =
      (if (hex_run 0 0 (strip_0x (strip_sign tok).2)).2 = 0 then none
      else if 2 ^ 64 ≤ (hex_run 0 0 (strip_0x (strip_sign tok).2)).1 then
        some ((2 ^ 64 - 1) % 2 ^ bits)
      else if (strip_sign tok).1 then
        some (((2 ^ 64 - (hex_run 0 0 (strip_0x (strip_sign tok).2)).1) % 2 ^ 64) % 2 ^ bits)
      else some ((hex_run 0 0 (strip_0x (strip_sign tok).2)).1 % 2 ^ bits)) := rfl

theorem strip_sign_none (c : Char) (cs : List Char) (hplus : c ≠ '+') (hminus : c ≠ '-') :
    strip_sign (c :: cs) = (false, c :: cs) := by
  unfold strip_sign
  split
  · rename_i t heq
    injection heq with h1 _
    exact absurd h1 hminus
  · rename_i t heq
    injection heq with h1 _
    exact absurd h1 hplus
  · rfl

theorem strip_0x_none (c : Char) (cs : List Char) (h : c ≠ '0' ∨ ('x' ∉ cs ∧ 'X' ∉ cs)) :
    strip_0x (c :: cs) = c :: cs := by
  unfold strip_0x
  split
  · rename_i t heq
    injection heq with h1 h2
    rcases h with h | h
    · exact absurd h1 h
    · exact absurd (by rw [h2]; exact List.mem_cons_self _ _) h.1
  · rename_i t heq
    injection heq with h1 h2
    rcases h with h | h
    · exact absurd h1 h
    · exact absurd (by rw [h2]; exact List.mem_cons_self _ _) h.2
  · rfl

/-- A token whose first character is neither a hexadecimal digit nor a sign is a matching
failure for `%x`. -/
theorem sscanf_x_bad_head (bits : Nat) (c : Char) (cs : List Char)
    (hc : hex_digit_value c = none) (hplus : c ≠ '+') (hminus : c ≠ '-') :
    sscanf_x bits (c :: cs) = none := by
  have hd : hex_digit c = none := by rw [← hex_digit_value_eq, hc]
  have h0 : c ≠ '0' := by
    intro h
    rw [h] at hc
    revert hc
    decide
  rw [sscanf_x_steps, strip_sign_none c cs hplus hminus]
  simp only
  rw [strip_0x_none c cs (Or.inl h0)]
  simp [hex_run, hd]

/-- A token of 1 to 16 hexadecimal digits is read by `%hx` as its number modulo `2^16`. -/
theorem sscanf_x_hex (t : List Char) (hne : t ≠ [])
    (h : ∀ c ∈ t, (hex_digit_value c).isSome = true) (hl : t.length ≤ 16) :
    sscanf_x 16 t = some (hex_number t % 65536) := by
  have hrun := hex_run_all t h 0 0
  have hlt := hex_number_lt t h hl
  have hlen : t.length ≠ 0 := fun h0 => hne (List.length_eq_zero.mp h0)
  have hx : ∀ c, hex_digit_value c = none → c ∉ t := by
    intro c hc hmem
    have := h c hmem
    rw [hc] at this
    cases this
  cases t with
  | nil => exact absurd rfl hne
  | cons c cs =>
    have hplus : c ≠ '+' := fun e => hx '+' (by decide) (by rw [← e]; exact List.mem_cons_self _ _)
    have hminus : c ≠ '-' := fun e => hx '-' (by decide) (by rw [← e]; exact List.mem_cons_self _ _)
    have hxx : 'x' ∉ cs ∧ 'X' ∉ cs :=
      ⟨fun hm => hx 'x' (by decide) (List.mem_cons_of_mem _ hm),
        fun hm => hx 'X' (by decide) (List.mem_cons_of_mem _ hm)⟩
    rw [sscanf_x_steps, strip_sign_none c cs hplus hminus]
    simp only
    rw [strip_0x_none c cs (Or.inr hxx), hrun]
    simp only [Nat.zero_add]
    rw [if_neg hlen, if_neg (by unfold hex_number at hlt; omega)]
    simp [hex_number]

/-- A first token that is `CMD` in some letter case has three characters. -/
theorem cmd_token (t : List Char) (h : (t.take 7).map Char.toLower = ['c', 'm', 'd']) :
    t.take 7 = t ∧ t.length ≤ 7 ∧ t.map Char.toLower = ['c', 'm', 'd'] := by
  have hlen : (t.take 7).length = 3 := by
    have := congrArg List.length h
    simpa using this
  rw [List.length_take] at hlen
  have hl : t.length ≤ 7 := by omega
  have ht : t.take 7 = t := List.take_of_length_le hl
  rw [ht] at h
  exact ⟨ht, hl, h⟩

/-- Counterexample to C24 as stated. The entry `0x0130` holds 50 after `CMD 0130 32`; the
datagram `CMD 0130 zz`, whose value token is not hexadecimal, is not dropped: the entry
becomes 0, the hook is called with 0, the row `(0x0130, 0)` is written and two datagrams
are published. The datagram `cmd 0130 32 junk`, with a lower-case keyword and four tokens,
is not dropped either: it writes 50. The datagram `CMD 0000000000000000000000000000130A5`
has two tokens only and is not dropped: `sscanf` cuts the second token after 31
characters, and `0xA5` is written to `0x0130`. -/
theorem C24_malformed_dropped_counterexample :
    ((bee_unix_sub_task msg_cmd_0130 (World.boot [])).value 0x0130 = 50 ∧
      (bee_unix_sub_task msg_cmd_0130_zz
        (bee_unix_sub_task msg_cmd_0130 (World.boot []))).value 0x0130 = 0 ∧
      (bee_unix_sub_task msg_cmd_0130_zz
        (bee_unix_sub_task msg_cmd_0130 (World.boot []))).hook_calls =
        [(0x0130, 50), (0x0130, 0)] ∧
      (bee_unix_sub_task msg_cmd_0130_zz
        (bee_unix_sub_task msg_cmd_0130 (World.boot []))).db = [(0x0130, 0)] ∧
      (bee_unix_sub_task msg_cmd_0130_zz
        (bee_unix_sub_task msg_cmd_0130 (World.boot []))).outbox =
        [Datagram.EVENT "htr_0_set" 50, Datagram.PARAM 0x0130 50,
          Datagram.EVENT "htr_0_set" 0, Datagram.PARAM 0x0130 0]) ∧
    ((bee_unix_sub_task msg_cmd_0130_junk (World.boot [])).value 0x0130 = 50 ∧
      (bee_unix_sub_task msg_cmd_0130_junk (World.boot [])).db = [(0x0130, 50)]) ∧
    ((tokens msg_cmd_split).length = 2 ∧
      (bee_unix_sub_task msg_cmd_split (World.boot [])).value 0x0130 = 0xA5 ∧
      (bee_unix_sub_task msg_cmd_split (World.boot [])).db = [(0x0130, 0xA5)]) := by
  decide

theorem bee_param_lookup_zero : bee_param_lookup 0 = none := by decide

/-- C24, amended: an inbound datagram, read as its first 127 bytes up to the first NUL
byte, is dropped, the whole state staying as it was (no registry value changes, no hook
runs, nothing is written to the store, nothing is published), in each of these cases: it
has no whitespace-separated token; its first token is not `CMD` in some letter case; it
has one token only; it has exactly two tokens and the second has at most 31 characters;
its second token begins with a character that is neither a hexadecimal digit nor a sign;
its second token consists of at most 16 hexadecimal digits and their number modulo `2^16`
is an address that is unknown or lacks Write access. -/
theorem C24_malformed_dropped (msg : List Char) (w : World)
    (h : tokens ((msg.take 127).takeWhile (fun c => c.toNat ≠ 0)) = [] ∨
      (∃ t1 ts, tokens ((msg.take 127).takeWhile (fun c => c.toNat ≠ 0)) = t1 :: ts ∧
        t1.map Char.toLower ≠ ['c', 'm', 'd']) ∨
      (∃ t1, tokens ((msg.take 127).takeWhile (fun c => c.toNat ≠ 0)) = [t1]) ∨
      (∃ t1 t2, tokens ((msg.take 127).takeWhile (fun c => c.toNat ≠ 0)) = [t1, t2] ∧
        t2.length ≤ 31) ∨
      (∃ t1 c cs ts,
        tokens ((msg.take 127).takeWhile (fun c => c.toNat ≠ 0)) = t1 :: (c :: cs) :: ts ∧
        hex_digit_value c = none ∧ c ≠ '+' ∧ c ≠ '-') ∨
      (∃ t1 t2 ts, tokens ((msg.take 127).takeWhile (fun c => c.toNat ≠ 0)) = t1 :: t2 :: ts ∧
        t2.length ≤ 16 ∧ (∀ c ∈ t2, (hex_digit_value c).isSome = true) ∧
        (bee_param_lookup (hex_number t2 % 65536) = none ∨
          ∃ p, bee_param_lookup (hex_number t2 % 65536) = some p ∧
            p.access &&& BEE_ACCESS_W = 0))) :
    bee_unix_sub_task msg w = w := by
  unfold bee_unix_sub_task
  cases hscan : bee_unix_sub_scan msg with
  | none => rfl
  | some av =>
    obtain ⟨a, v⟩ := av
    simp only
    obtain ⟨cmd, s_addr, s_val, r1, r2, r3, h1, h2, h3, hcmd, ha⟩ := bee_unix_sub_scan_some hscan
    -- the first token
    have first : ∀ t1 ts, tokens ((msg.take 127).takeWhile (fun c => c.toNat ≠ 0)) = t1 :: ts →
        t1.map Char.toLower = ['c', 'm', 'd'] ∧ tokens r1 = ts := by
      intro t1 ts htok
      obtain ⟨r, hr, hrest⟩ := scan_s_tokens 7 (by decide) _ t1 ts htok
      rw [h1] at hr
      simp only [Option.some.injEq, Prod.mk.injEq] at hr
      obtain ⟨e1, e2⟩ := hr
      rw [e1] at hcmd
      obtain ⟨_, hl, hc⟩ := cmd_token t1 hcmd
      exact ⟨hc, by rw [e2]; exact hrest hl⟩
    -- the second token
    have second : ∀ t1 t2 ts,
        tokens ((msg.take 127).takeWhile (fun c => c.toNat ≠ 0)) = t1 :: t2 :: ts →
        s_addr = t2.take 31 ∧ (t2.length ≤ 31 → tokens r2 = ts) := by
      intro t1 t2 ts htok
      obtain ⟨r, hr, hrest⟩ := scan_s_tokens 31 (by decide) _ t2 ts (first t1 _ htok).2
      rw [h2] at hr
      simp only [Option.some.injEq, Prod.mk.injEq] at hr
      obtain ⟨e1, e2⟩ := hr
      exact ⟨e1, fun hl => by rw [e2]; exact hrest hl⟩
    rcases h with h | ⟨t1, ts, htok, hne⟩ | ⟨t1, htok⟩ | ⟨t1, t2, htok, hl⟩ |
      ⟨t1, c, cs, ts, htok, hc, hplus, hminus⟩ | ⟨t1, t2, ts, htok, hl, hhex, hreg⟩
    · rw [scan_s_none 7 _ h] at h1
      cases h1
    · exact absurd (first t1 ts htok).1 hne
    · rw [scan_s_none 31 r1 (first t1 [] htok).2] at h2
      cases h2
    · rw [scan_s_none 31 r2 ((second t1 t2 [] htok).2 hl)] at h3
      cases h3
    · have hs := (second t1 (c :: cs) ts htok).1
      have hx : sscanf_x 16 s_addr = none := by
        rw [hs]
        exact sscanf_x_bad_head 16 c (cs.take 30) hc hplus hminus
      rw [hx] at ha
      simp only [Option.getD_none] at ha
      rw [ha]
      simp [bee_unix_sub_apply, bee_param_lookup_zero]
    · have hs := (second t1 t2 ts htok).1
      rw [List.take_of_length_le (by omega)] at hs
      have hne : t2 ≠ [] := by
        have hmem : t2 ∈ tokens ((msg.take 127).takeWhile (fun c => c.toNat ≠ 0)) := by
          rw [htok]
          simp
        have := (List.mem_filter.mp hmem).2
        intro h0
        rw [h0] at this
        cases this
      rw [hs, sscanf_x_hex t2 hne hhex hl] at ha
      simp only [Option.getD_some] at ha
      rw [ha]
      rcases hreg with hreg | ⟨p, hp, hacc⟩
      · simp [bee_unix_sub_apply, hreg]
      · simp [bee_unix_sub_apply, hp, hacc]

/-- Witness of C24: the datagram `CMD 0601 5`, whose address `0x0601` is Read-only. -/
theorem C24_malformed_dropped_witness :
    bee_unix_sub_task ['C', 'M', 'D', ' ', '0', '6', '0', '1', ' ', '5'] (World.boot []) =
      World.boot [] :=
  C24_malformed_dropped ['C', 'M', 'D', ' ', '0', '6', '0', '1', ' ', '5'] (World.boot [])
    (Or.inr (Or.inr (Or.inr (Or.inr (Or.inr ⟨['C', 'M', 'D'], ['0', '6', '0', '1'], [['5']],
      by decide, by decide, by decide,
      Or.inr ⟨⟨0x0601, "boot_cnt", 0, BEE_ACCESS_R, none, none⟩, by decide, by decide⟩⟩)))))

theorem bee_unix_pub_param_db_ok (a v : Nat) (w : World) :
    (bee_unix_pub_param a v w).db_ok = w.db_ok := by
  unfold bee_unix_pub_param
  split <;> rfl

/-- After an accepted command `CMD a v` that does not write 1 to a capture trigger, over a
reachable store with 16-bit keys and one row per address: the row for `a` holds `v` as a
signed 32-bit integer, the entry `a` holds `v`, and the pull cycle run right afterwards
leaves entry `a` as it is and makes no hook call for `a`. -/
theorem bee_unix_sub_task_store_agrees (msg : List Char) (w : World) (a v : Nat)
    (p : bee_param_t)
    (hscan : bee_unix_sub_scan msg = some (a, v)) (hp : bee_param_lookup a = some p)
    (hacc : p.access &&& BEE_ACCESS_W ≠ 0) (hok : w.db_ok = true)
    (h16 : ∀ row ∈ w.db, row.1 < 65536) (hkeys : (w.db.map column_addr).Nodup)
    (hcap : ¬ (v = 1 ∧ (a = 0x0521 ∨ a = 0x0522))) :
    db_select (bee_unix_sub_task msg w).db a = some (Int.bmod (v : Int) 4294967296) ∧
      (bee_unix_sub_task msg w).value a = v ∧
      (bee_sqlite_update_task (bee_unix_sub_task msg w)).value a =
        (bee_unix_sub_task msg w).value a ∧
      ∃ calls, (bee_sqlite_update_task (bee_unix_sub_task msg w)).hook_calls =
          (bee_unix_sub_task msg w).hook_calls ++ calls ∧
        ∀ c ∈ calls, c.1 ≠ a := by
  obtain ⟨ha, hv⟩ := bee_unix_sub_scan_lt hscan
  have e : bee_unix_sub_task msg w = bee_unix_pub_param a v (bee_sqlite_update_value a v
      (call_on_write p a v { w with value := set_value w.value a v })) := by
    simp [bee_unix_sub_task, hscan, bee_unix_sub_apply, hp, hacc, bee_param_lookup_addr hp]
  have hf := call_on_write_frame hp v { w with value := set_value w.value a v }
  have hcwok : (call_on_write p a v { w with value := set_value w.value a v }).db_ok = true := by
    rw [hf.2.2.1]
    exact hok
  have hdb : (bee_unix_sub_task msg w).db = bee_sqlite_write_param w.db a v := by
    rw [e, (bee_unix_pub_param_frame _ _ _).2.2.2.1, bee_sqlite_update_value_db _ _ _ hcwok,
      hf.2.1]
  have hdbok : (bee_unix_sub_task msg w).db_ok = true := by
    rw [e, bee_unix_pub_param_db_ok, (bee_sqlite_update_value_frame _ _ _).2.2.2.2.2.1, hcwok]
  have hval : (bee_unix_sub_task msg w).value a = v := by
    rw [e, (bee_unix_pub_param_frame _ _ _).1, (bee_sqlite_update_value_frame _ _ _).1, hf.1,
      if_neg hcap]
    simp [set_value]
  have hk := bee_sqlite_write_param_keys w.db a v ha h16 hkeys
  have hmem : (a, int_of_uint32 v) ∈ (bee_unix_sub_task msg w).db := by
    rw [hdb]
    simp [bee_sqlite_write_param]
  have hca : column_addr (a, int_of_uint32 v) = a := by
    simp only [column_addr]
    exact Nat.mod_eq_of_lt ha
  have hcv : column_val (a, int_of_uint32 v) = v := by
    simp only [column_val]
    rw [uint32_of_column_int_of_uint32]
    exact Nat.mod_eq_of_lt hv
  refine ⟨by rw [hdb, db_select_write_same, int_of_uint32_eq_bmod], hval, ?_⟩
  by_cases hts : a = 0x0100
  · have h := bee_sqlite_update_rows_time_sync (bee_unix_sub_task msg w).db
      (bee_unix_sub_task msg w)
    simp only [bee_sqlite_update_task, hdbok, if_true]
    rw [hts]
    exact ⟨h.1, h.2.1⟩
  · have h := bee_sqlite_update_task_row (bee_unix_sub_task msg w) hdbok
      (by rw [hdb]; exact hk.2) (a, int_of_uint32 v) hmem (p := p) (by rw [hca]; exact hts)
      (by rw [hca]; exact hp)
    rw [hca, hcv] at h
    obtain ⟨h1, before, after, h2, h3, h4⟩ := h
    have hno : ¬ ((bee_unix_sub_task msg w).value a ≠ v ∧ p.on_write.isSome = true) :=
      fun hh => hh.1 hval
    have hno2 : ¬ ((bee_unix_sub_task msg w).value a ≠ v ∧ v = 1 ∧ (a = 0x0521 ∨ a = 0x0522)) :=
      fun hh => hh.1 hval
    rw [if_neg hno2] at h1
    rw [if_neg hno] at h2
    refine ⟨by rw [h1, hval], before ++ [] ++ after, h2, ?_⟩
    intro c hc
    simp only [List.append_nil, List.mem_append] at hc
    rcases hc with hc | hc
    · exact h3 c hc
    · exact h4 c hc

/-- C27 (defect of the code): from the boot state with an empty reachable store the
accepted command `CMD 0521 1` runs the capture hook, which resets the entry `0x0521` to 0,
and then writes the row `(0x0521, 1)`. Row and entry differ after the command, so each of
the pull cycles that follow sees a changed row and runs the capture sequence again: one
more hook call and four more camera commands per cycle. -/
theorem C27_capture_command_refires :
    bee_unix_sub_scan msg_cmd_0521 = some (0x0521, 1) ∧
      db_select (bee_unix_sub_task msg_cmd_0521 (World.boot [])).db 0x0521 = some 1 ∧
      (bee_unix_sub_task msg_cmd_0521 (World.boot [])).value 0x0521 = 0 ∧
      (bee_unix_sub_task msg_cmd_0521 (World.boot [])).hook_calls = [(0x0521, 1)] ∧
      (bee_unix_sub_task msg_cmd_0521 (World.boot [])).sys_cmds.length = 4 ∧
      (bee_sqlite_update_task (bee_unix_sub_task msg_cmd_0521 (World.boot []))).hook_calls =
        [(0x0521, 1), (0x0521, 1)] ∧
      (bee_sqlite_update_task (bee_unix_sub_task msg_cmd_0521 (World.boot []))).sys_cmds.length =
        8 ∧
      (bee_sqlite_update_task (bee_sqlite_update_task
        (bee_unix_sub_task msg_cmd_0521 (World.boot [])))).hook_calls =
        [(0x0521, 1), (0x0521, 1), (0x0521, 1)] ∧
      (bee_sqlite_update_task (bee_sqlite_update_task
        (bee_unix_sub_task msg_cmd_0521 (World.boot [])))).sys_cmds.length = 12 ∧
      (bee_sqlite_update_task (bee_sqlite_update_task
        (bee_unix_sub_task msg_cmd_0521 (World.boot [])))).value 0x0521 = 0 := by
  decide

/-! ## Reply buffer of the file-transfer handler -/

/-- C26 (defect of the code): a script that prints 1025 bytes and exits with status 0.
`fs_handle_cmd` for `0x0701` returns result code 0 and writes all 1025 bytes through `out`,
which is the 1024-byte `outbuf` of `handle_BEE_A55_TABLE7`; the reply then has length
1027. -/
theorem C26_outbuf_overflow :
    (fs_handle_cmd (Env.prints (List.replicate 1025 65) 0) 0x0701 none (World.boot [])).1 = 0 ∧
      (fs_handle_cmd (Env.prints (List.replicate 1025 65) 0) 0x0701 none
        (World.boot [])).2.1 = List.replicate 1025 65 ∧
      OUTBUF_SIZE <
        (fs_handle_cmd (Env.prints (List.replicate 1025 65) 0) 0x0701 none
          (World.boot [])).2.1.length ∧
      (handle_BEE_A55_PARAMS (Env.prints (List.replicate 1025 65) 0) (bee_request 1 0x0701 [])
        (World.boot [])).sends.map (fun s => s.1.length) = [1027] := by
  decide

/-- C28 (defect of the code): the reset command `0x0777` writes 0 to the store row
`0x0704` and returns the result code -1, for any payload and state; the handler therefore
frees the request and sends no reply. -/
theorem C28_reset_no_reply (env : Env) (packet : csp_packet_t) (op_type : Nat) (w : World) :
    (fs_handle_cmd env 0x0777 (table7_payload packet op_type) w).1 = -1 ∧
      handle_BEE_A55_TABLE7 env packet 0x0777 op_type w =
        csp_buffer_free (bee_sqlite_update_value 0x0704 0 w) ∧
      (handle_BEE_A55_TABLE7 env packet 0x0777 op_type w).sends = w.sends ∧
      (handle_BEE_A55_PARAMS env (bee_request 0 0x0777 []) w).sends = w.sends ∧
      (handle_BEE_A55_PARAMS env (bee_request 0 0x0777 []) w).frees = w.frees + 1 := by
  have h1 : ∀ inp, fs_handle_cmd env 0x0777 inp w =
      (-1, [], bee_sqlite_update_value 0x0704 0 w) := by
    intro inp
    simp [fs_handle_cmd]
  have h2 : ∀ (pk : csp_packet_t) (op : Nat), handle_BEE_A55_TABLE7 env pk 0x0777 op w =
      csp_buffer_free (bee_sqlite_update_value 0x0704 0 w) := by
    intro pk op
    rw [handle_BEE_A55_TABLE7_eq, h1]
    simp
  have h3 : (csp_buffer_free (bee_sqlite_update_value 0x0704 0 w)).sends = w.sends :=
    bee_sqlite_update_value_proj (fun w => w.sends) (fun _ _ => rfl) 0x0704 0 w
  have h4 : (csp_buffer_free (bee_sqlite_update_value 0x0704 0 w)).frees = w.frees + 1 := by
    have := bee_sqlite_update_value_proj (fun w => w.frees) (fun _ _ => rfl) 0x0704 0 w
    simp only [csp_buffer_free]
    simpa using this
  have h5 : handle_BEE_A55_PARAMS env (bee_request 0 0x0777 []) w =
      handle_BEE_A55_TABLE7 env (bee_request 0 0x0777 []) 0x0777 0 w := by
    have ha : decoded_addr (bee_request 0 0x0777 []) = 0x0777 := by decide
    have ho : decoded_op_type (bee_request 0 0x0777 []) = 0 := by decide
    have hb : in_file_block 0x0777 = true := by decide
    simp only [handle_BEE_A55_PARAMS, ha, ho, hb, if_true]
  refine ⟨by rw [h1], h2 packet op_type, by rw [h2]; exact h3, ?_, ?_⟩
  · rw [h5, h2]; exact h3
  · rw [h5, h2]; exact h4

/-! ## RPMSG/DMA bridge -/

/-- C30 (defect of the code): with the fallback buffer of `0x8000000` bytes, a
file-transfer request with `offset = 0xFFFFFFFF` and `size = 2` passes the validation of
the message callback (return code 0, request stored as pending and flagged ready) and of
the read ioctl (return code 0, `copy_to_user` asked for 2 bytes at offset `0xFFFFFFFF`),
because the 32-bit sum is 1, although the sum over the integers, 4294967297, exceeds the
buffer size. -/
theorem C30_range_check_wraps :
    rpmsg_hybrid_cb rpmsgtty_dma_port.fallback 256
        ⟨REMOTE_CALL_MY_ADDR, CMD_TYPE_FILE_REQ, 0xFFFFFFFF, 2⟩ =
      (0, { dma_size := DMA_BUFFER_SIZE,
            pending_file := some ⟨REMOTE_CALL_MY_ADDR, CMD_TYPE_FILE_REQ, 0xFFFFFFFF, 2⟩,
            file_ready := true }) ∧
      rpmsg_dma_ioctl rpmsgtty_dma_port.fallback
        (ioctl_cmd.RPMSG_READ_DMA_DATA (some ⟨0xFFFFFFFF, 2⟩)) true =
        (0, some (0xFFFFFFFF, 2)) ∧
      u32_add 0xFFFFFFFF 2 = 1 ∧
      ¬ (0xFFFFFFFF + 2 ≤ rpmsgtty_dma_port.fallback.dma_size) := by
  decide

end SpaceLiin
